import Mathlib

/-!
# Order / coupon pricing of the storefront backend

A shallow embedding of `src/models/Coupon.js`, `src/models/Order.js` and of the
order-creating handlers of `src/server-mongodb.js`.

Conventions of the embedding:

* a JavaScript `Number` is an exact rational (`ℚ`); `NaN` and the infinities are
  not represented, and floating-point rounding error is not modelled, except
  for the coupon discount: `Coupon.calculateDiscountIn` takes the arithmetic as
  a parameter, and `doubleArith` is the arithmetic of IEEE doubles;
* an optional numeric field is an `Option ℚ`; the JavaScript truthiness test on
  it (`if (this.x && ...)`, `if (!this.x)`) is `truthy`: `undefined` and `0` are
  falsy;
* a `String` field that is absent is the empty string, which is what the
  handlers themselves substitute (`x || ''`) and what Mongoose's `required`
  validator rejects just like a missing value;
* a `Date` is its millisecond timestamp (`ℤ`); the clock (`new Date()`) is the
  explicit argument `now`;
* `save()` of a document first checks the constraints its schema declares
  (`required`, `enum`, `min`) and throws a `ValidationError` when one fails,
  then runs the `pre('save')` hook and stores the document; requests run one
  after the other, and the unique indexes never reject a save.
-/

namespace Perb

/-! ## JavaScript helpers -/

/-- JavaScript truthiness of an optional number: `undefined` and `0` are falsy. -/
def truthy (x : Option ℚ) : Bool :=
  match x with
  | none => false
  | some v => decide (v ≠ 0)

/-- The idiom `x || 0` on an optional number. -/
def orZero (x : Option ℚ) : ℚ :=
  if truthy x then x.getD 0 else 0

/-- `Math.round`: the nearest integer, halves rounded towards plus infinity. -/
def mathRound (x : ℚ) : ℤ := ⌊x + 1 / 2⌋

/-- The expression `Math.round(x * 100) / 100` of `calculateDiscount`. -/
def round2 (x : ℚ) : ℚ := (mathRound (x * 100) : ℚ) / 100

/-! ## Coupon (`src/models/Coupon.js`) -/

/-- A coupon document (`couponSchema`). -/
structure Coupon where
  id : ℕ
  name : String
  code : String
  description : String := ""
  discountType : String
  discountValue : ℚ
  maxDiscount : Option ℚ := none
  minimumAmount : Option ℚ := some 0
  usageLimit : Option ℚ := none
  usedCount : ℚ := 0
  expiryDate : Option ℤ := none
  isActive : Bool := true
  createdAt : ℤ := 0
  updatedAt : ℤ := 0
  deriving DecidableEq

/-- The messages returned by `isValid`, with the value interpolated into the
template of the last one. -/
inductive CouponMessage where
  /-- 'الكوبون غير نشط' (the coupon is not active) -/
  | inactive
  /-- 'انتهت صلاحية الكوبون' (the coupon has expired) -/
  | expired
  /-- 'تم استنفاد عدد مرات استخدام الكوبون' (the usage limit is exhausted) -/
  | usageExhausted
  /-- The template 'الحد الأدنى للطلب ${this.minimumAmount} ر.س' (order below the minimum). -/
  | belowMinimum (minimumAmount : ℚ)
  deriving DecidableEq

/-- The text of a message; `fmt` is JavaScript's conversion of a number to a
string inside a template literal. -/
def CouponMessage.text (fmt : ℚ → String) : CouponMessage → String
  | .inactive => "الكوبون غير نشط"
  | .expired => "انتهت صلاحية الكوبون"
  | .usageExhausted => "تم استنفاد عدد مرات استخدام الكوبون"
  | .belowMinimum m => "الحد الأدنى للطلب " ++ fmt m ++ " ر.س"

/-- The object returned by `isValid`: `{ valid, message }`. -/
structure Validation where
  valid : Bool
  message : Option CouponMessage := none
  deriving DecidableEq

/-- The test `this.expiryDate && new Date() > this.expiryDate` (a `Date` object
is always truthy). -/
def Coupon.expiredAt (c : Coupon) (now : ℤ) : Bool :=
  match c.expiryDate with
  | none => false
  | some e => decide (now > e)

/-- The test `this.usageLimit && this.usedCount >= this.usageLimit`. -/
def Coupon.usageExhausted (c : Coupon) : Bool :=
  match c.usageLimit with
  | none => false
  | some l => decide (l ≠ 0) && decide (c.usedCount ≥ l)

/-- The test `this.minimumAmount && orderAmount < this.minimumAmount`. -/
def Coupon.belowMinimum (c : Coupon) (orderAmount : ℚ) : Bool :=
  match c.minimumAmount with
  | none => false
  | some m => decide (m ≠ 0) && decide (orderAmount < m)

/-- The method `couponSchema.methods.isValid`. -/
def Coupon.isValid (c : Coupon) (now : ℤ) (orderAmount : ℚ) : Validation :=
  if !c.isActive then
    { valid := false, message := some .inactive }
  else if c.expiredAt now then
    { valid := false, message := some .expired }
  else if c.usageExhausted then
    { valid := false, message := some .usageExhausted }
  else if c.belowMinimum orderAmount then
    { valid := false, message := some (.belowMinimum (c.minimumAmount.getD 0)) }
  else
    { valid := true }

/-- The object returned by `calculateDiscount`: `{ discount, error }`. -/
structure DiscountResult where
  discount : ℚ
  error : Option CouponMessage := none
  deriving DecidableEq

/-- The discount of `calculateDiscount` before the final rounding. -/
def Coupon.rawDiscount (c : Coupon) (orderAmount : ℚ) : ℚ :=
  let discount : ℚ :=
    if c.discountType = "percentage" then
      let d := orderAmount * c.discountValue / 100
      match c.maxDiscount with
      | none => d
      | some m => if m ≠ 0 ∧ d > m then m else d
    else
      c.discountValue
  min discount orderAmount

/-- The method `couponSchema.methods.calculateDiscount`. -/
def Coupon.calculateDiscount (c : Coupon) (now : ℤ) (orderAmount : ℚ) : DiscountResult :=
  let validation := c.isValid now orderAmount
  if !validation.valid then
    { discount := 0, error := validation.message }
  else
    { discount := round2 (c.rawDiscount orderAmount) }

/-- The arithmetic `calculateDiscount` performs on JavaScript numbers: the
product `x * y`, the quotient `x / y` and `Math.round`. A JavaScript number is
an IEEE double, whose finite values are rationals: double arithmetic, which
rounds every result, is one instance, and exact arithmetic (`exactArith`) is
another. Comparisons and `Math.min` are exact on the values in every instance. -/
structure NumberArith where
  mul : ℚ → ℚ → ℚ
  div : ℚ → ℚ → ℚ
  round : ℚ → ℚ

/-- Exact arithmetic on the rationals, the arithmetic of `Coupon.calculateDiscount`. -/
def exactArith : NumberArith :=
  { mul := fun x y => x * y
    div := fun x y => x / y
    round := fun x => (mathRound x : ℚ) }

/-- Rounding of a rational to the nearest integer, a tie going to the even
neighbour: the rounding of IEEE arithmetic. -/
def roundHalfEven (x : ℚ) : ℤ :=
  if x - ⌊x⌋ < 1 / 2 then ⌊x⌋
  else if 1 / 2 < x - ⌊x⌋ then ⌊x⌋ + 1
  else if ⌊x⌋ % 2 = 0 then ⌊x⌋ else ⌊x⌋ + 1

/-- The IEEE double nearest to `x`: for `2^e ≤ |x| < 2^(e+1)` the doubles are the
multiples of `2^(e-52)` (53 significant bits). The exponent is not bounded:
overflow and subnormal numbers are not represented. -/
def toDouble (x : ℚ) : ℚ :=
  if x = 0 then 0
  else (roundHalfEven (x / 2 ^ (Int.log 2 |x| - 52)) : ℚ) * 2 ^ (Int.log 2 |x| - 52)

/-- JavaScript's arithmetic on doubles: `x * y` and `x / y` are the exact results
rounded to the nearest double, and `Math.round(x)` is the integer `⌊x + 1/2⌋`,
which is a double itself for `|x| < 2^52`. -/
def doubleArith : NumberArith :=
  { mul := fun x y => toDouble (x * y)
    div := fun x y => toDouble (x / y)
    round := fun x => (mathRound x : ℚ) }

/-- The discount of `calculateDiscount` before the final rounding, in the
arithmetic `ar`. -/
def Coupon.rawDiscountIn (ar : NumberArith) (c : Coupon) (orderAmount : ℚ) : ℚ :=
  let discount : ℚ :=
    if c.discountType = "percentage" then
      let d := ar.div (ar.mul orderAmount c.discountValue) 100
      match c.maxDiscount with
      | none => d
      | some m => if m ≠ 0 ∧ d > m then m else d
    else
      c.discountValue
  min discount orderAmount

/-- The method `couponSchema.methods.calculateDiscount` in the arithmetic `ar`:
the last line is `Math.round(discount * 100) / 100`. -/
def Coupon.calculateDiscountIn (ar : NumberArith) (c : Coupon) (now : ℤ) (orderAmount : ℚ) :
    DiscountResult :=
  let validation := c.isValid now orderAmount
  if !validation.valid then
    { discount := 0, error := validation.message }
  else
    { discount := ar.div (ar.round (ar.mul (c.rawDiscountIn ar orderAmount) 100)) 100 }

/-- The coupon of the specification's example scenario: SAVE20, 20 percent,
capped at 200, active. -/
def save20 : Coupon :=
  { id := 1, name := "SAVE20", code := "SAVE20", discountType := "percentage",
    discountValue := 20, maxDiscount := some 200 }

/-- The constraints `couponSchema` declares (`required`, `enum`, `min`), which
Mongoose checks when a coupon document is saved. -/
def Coupon.schemaValid (c : Coupon) : Bool :=
  decide (c.name ≠ "") && decide (c.code ≠ "") &&
  (decide (c.discountType = "percentage") || decide (c.discountType = "fixed")) &&
  decide (0 ≤ c.discountValue) &&
  (match c.maxDiscount with | none => true | some m => decide (0 ≤ m)) &&
  (match c.minimumAmount with | none => true | some m => decide (0 ≤ m)) &&
  (match c.usageLimit with | none => true | some l => decide (1 ≤ l))

/-! ## Order (`src/models/Order.js`) -/

/-- The attachments of a line item: `{ images: [], text: '' }`. -/
structure Attachments where
  images : List String := []
  text : String := ""
  deriving DecidableEq

/-- A line item of an order (`orderItemSchema`). -/
structure OrderItem where
  productId : ℕ
  productName : String
  price : ℚ
  quantity : ℚ
  totalPrice : Option ℚ := none
  selectedOptions : List (String × String) := []
  optionsPricing : List (String × ℚ) := []
  productImage : String := ""
  attachments : Attachments := {}
  deriving DecidableEq

/-- An order document (`orderSchema`). An `id` of `0` is an id not yet assigned:
the hook tests `!this.id`, which holds for `undefined` and for `0` alike. -/
structure Order where
  id : ℕ := 0
  customerName : String
  customerEmail : String
  customerPhone : String := ""
  address : String
  city : String
  items : List OrderItem
  subtotal : Option ℚ := none
  deliveryFee : ℚ := 0
  discount : ℚ := 0
  total : Option ℚ := none
  couponCode : String := ""
  couponDiscount : ℚ := 0
  status : String := "pending"
  paymentMethod : String := "cod"
  paymentStatus : String := "pending"
  paymentId : String := ""
  notes : String := ""
  orderDate : ℤ := 0
  expectedDelivery : Option ℤ := none
  deliveredAt : Option ℤ := none
  createdAt : ℤ := 0
  updatedAt : ℤ := 0
  deriving DecidableEq

/-- The `enum` of `status`. -/
def orderStatuses : List String :=
  ["pending", "confirmed", "preparing", "shipped", "delivered", "cancelled"]

/-- The `enum` of `paymentMethod`. -/
def paymentMethods : List String :=
  ["cash", "cod", "card", "bank", "bank_transfer", "wallet"]

/-- The `enum` of `paymentStatus`. -/
def paymentStatuses : List String := ["pending", "paid", "failed"]

/-- The constraints of `orderItemSchema`: `productName` required, `quantity`
at least 1 (`productId`, `price` and `quantity` are present in the embedding). -/
def OrderItem.schemaValid (it : OrderItem) : Bool :=
  decide (it.productName ≠ "") && decide (1 ≤ it.quantity)

/-- The constraints of `orderSchema`, which Mongoose checks before the
`pre('save')` hook runs: the required customer and delivery fields, the
constraints of every item, and the three enums. -/
def Order.schemaValid (o : Order) : Bool :=
  decide (o.customerName ≠ "") && decide (o.customerEmail ≠ "") &&
  decide (o.address ≠ "") && decide (o.city ≠ "") &&
  o.items.all OrderItem.schemaValid &&
  decide (o.status ∈ orderStatuses) && decide (o.paymentMethod ∈ paymentMethods) &&
  decide (o.paymentStatus ∈ paymentStatuses)

/-- The query `findOne().sort({ id: -1 })`: the stored order of largest id. -/
def lastOrder (orders : List Order) : Option Order :=
  orders.foldl
    (fun best o =>
      match best with
      | none => some o
      | some b => if o.id > b.id then some o else some b)
    none

/-- The loop `this.items.forEach(...)` of the hook: an item without a (non-zero)
`totalPrice` gets `price * quantity`. -/
def OrderItem.fillTotalPrice (item : OrderItem) : OrderItem :=
  if !truthy item.totalPrice then
    { item with totalPrice := some (item.price * item.quantity) }
  else item

/-- The fold `items.reduce((sum, item) => sum + item.totalPrice, 0)`. -/
def sumTotalPrice (items : List OrderItem) : ℚ :=
  items.foldl (fun sum item => sum + item.totalPrice.getD 0) 0

/-- The hook `orderSchema.pre('save')`. `orders` is the stored collection and
`isNew` tells a document not yet stored. On a number `x`, `x || 0` is `x`. -/
def Order.preSave (orders : List Order) (isNew : Bool) (now : ℤ) (o : Order) : Order :=
  let id : ℕ :=
    if isNew && o.id == 0 then
      match lastOrder orders with
      | some last => last.id + 1
      | none => 1
    else o.id
  let items := o.items.map OrderItem.fillTotalPrice
  let subtotal : ℚ :=
    if !truthy o.subtotal then sumTotalPrice items else o.subtotal.getD 0
  let total : ℚ :=
    if !truthy o.total then subtotal + o.deliveryFee - o.discount - o.couponDiscount
    else o.total.getD 0
  { o with
    id := id, items := items, subtotal := some subtotal, total := some total,
    updatedAt := now }

/-! ## Cart (`src/models/Cart.js`) -/

/-- A cart line (`cartSchema`). -/
structure CartItem where
  id : ℕ := 0
  userId : String := "guest"
  productId : ℕ
  productName : String
  price : ℚ
  quantity : ℚ := 1
  image : String := ""
  selectedOptions : List (String × String) := []
  optionsPricing : List (String × ℚ) := []
  attachments : Attachments := {}
  createdAt : ℤ := 0
  deriving DecidableEq

/-! ## The store and the handlers (`src/server-mongodb.js`) -/

/-- The three collections the order handlers read and write. -/
structure Db where
  orders : List Order := []
  coupons : List Coupon := []
  carts : List CartItem := []
  deriving DecidableEq

/-- Replaces the first element satisfying `p`, the document `findOne` returned. -/
def replaceFirst {α : Type} (p : α → Bool) (new : α) : List α → List α
  | [] => []
  | x :: xs => if p x then new :: xs else x :: replaceFirst p new xs

/-- The failures of an order-creating request. -/
inductive SaveError where
  /-- A Mongoose `ValidationError` of the coupon document. -/
  | couponValidation
  /-- A Mongoose `ValidationError` of the order document. -/
  | orderValidation
  deriving DecidableEq

/-- The call `order.save()` on a new document: schema validation, then the
`pre('save')` hook, then the insertion. -/
def Order.save (orders : List Order) (now : ℤ) (o : Order) :
    Except SaveError (List Order × Order) :=
  if !o.schemaValid then .error .orderValidation
  else
    let saved := o.preSave orders true now
    .ok (orders ++ [saved], saved)

/-- The body of `POST /api/orders`. An absent string field is `""`. -/
structure OrderRequest where
  customerName : String := ""
  customerEmail : String := ""
  customerPhone : String := ""
  address : String := ""
  city : String := ""
  items : List OrderItem
  couponCode : String := ""
  paymentMethod : String := ""
  notes : String := ""
  deliveryFee : Option ℚ := none
  userId : String := ""

/-- The method `toUpperCase` of a string, on the ASCII letters. -/
def toUpperCase (s : String) : String := String.mk (s.data.map Char.toUpper)

/-- The filter `{ code: couponCode.toUpperCase(), isActive: true }`. -/
def couponMatches (couponCode : String) (c : Coupon) : Bool :=
  decide (c.code = toUpperCase couponCode) && c.isActive

/-- The fold `items.reduce((sum, item) => sum + (item.price * item.quantity), 0)`. -/
def requestSubtotal (items : List OrderItem) : ℚ :=
  items.foldl (fun sum item => sum + item.price * item.quantity) 0

/-- The coupon block of `POST /api/orders`: the coupon discount and the coupons
after it, or the failure of `coupon.save()`. The save checks `couponSchema` on
the incremented document, and the coupon's own `pre('save')` hook refreshes
`updatedAt`; the test `!discountResult.error` holds exactly when no message was
returned, all messages being non-empty strings. -/
def applyCoupon (coupons : List Coupon) (now : ℤ) (req : OrderRequest) :
    Except SaveError (List Coupon × ℚ) :=
  if req.couponCode ≠ "" then
    match coupons.find? (couponMatches req.couponCode) with
    | some coupon =>
      let subtotal := requestSubtotal req.items
      let discountResult := coupon.calculateDiscount now subtotal
      if discountResult.error.isNone then
        let coupon1 := { coupon with usedCount := coupon.usedCount + 1 }
        if !coupon1.schemaValid then .error .couponValidation
        else
          .ok (replaceFirst (couponMatches req.couponCode)
                { coupon1 with updatedAt := now } coupons,
               discountResult.discount)
      else .ok (coupons, 0)
    | none => .ok (coupons, 0)
  else .ok (coupons, 0)

/-- The document `new Order({...})` of `POST /api/orders`, schema defaults
filled in. -/
def newOrder (now : ℤ) (req : OrderRequest) (couponDiscount : ℚ) : Order :=
  { customerName := req.customerName
    customerEmail := req.customerEmail
    customerPhone := req.customerPhone
    address := req.address
    city := req.city
    items := req.items
    deliveryFee := req.deliveryFee.getD 0
    couponCode := req.couponCode
    couponDiscount := couponDiscount
    paymentMethod := if req.paymentMethod ≠ "" then req.paymentMethod else "cash"
    notes := req.notes
    orderDate := now
    createdAt := now
    updatedAt := now }

/-- The handler `POST /api/orders`: the store after the request, and the order
of the 201 response or the failure of the 500 response. -/
def postOrders (db : Db) (now : ℤ) (req : OrderRequest) : Db × Except SaveError Order :=
  match applyCoupon db.coupons now req with
  | .error e => (db, .error e)
  | .ok (coupons1, couponDiscount) =>
    let db1 : Db := { db with coupons := coupons1 }
    match Order.save db1.orders now (newOrder now req couponDiscount) with
    | .error e => (db1, .error e)
    | .ok (orders1, order) =>
      let userId := if req.userId ≠ "" then req.userId else "guest"
      ({ db1 with orders := orders1, carts := db1.carts.filter (fun c => c.userId ≠ userId) },
       .ok order)

/-- An item of the body of `POST /api/checkout`; the numeric fields `price` and
`quantity` are present. -/
structure CheckoutItem where
  productId : ℕ
  productName : String := ""
  price : ℚ
  quantity : ℚ
  totalPrice : Option ℚ := none
  selectedOptions : List (String × String) := []
  optionsPricing : List (String × ℚ) := []
  productImage : String := ""
  attachments : Attachments := {}

/-- The field `customerInfo` of the body of `POST /api/checkout`. -/
structure CustomerInfo where
  name : String := ""
  email : String := ""
  phone : String := ""
  address : String := ""
  city : String := ""
  notes : String := ""

/-- The body of `POST /api/checkout`; `appliedCoupon` is `appliedCoupon.code`. -/
structure CheckoutRequest where
  items : List CheckoutItem
  customerInfo : CustomerInfo
  paymentMethod : String := ""
  total : Option ℚ := none
  subtotal : Option ℚ := none
  deliveryFee : Option ℚ := none
  couponDiscount : Option ℚ := none
  appliedCoupon : String := ""
  paymentId : String := ""
  paymentStatus : String := ""
  userId : String := ""

/-- The mapping `items.map(item => ({...}))` of `POST /api/checkout`. -/
def CheckoutItem.toOrderItem (item : CheckoutItem) : OrderItem :=
  { productId := item.productId
    productName := if item.productName ≠ "" then item.productName else "منتج غير معروف"
    price := if item.price ≠ 0 then item.price else 0
    quantity := if item.quantity ≠ 0 then item.quantity else 1
    totalPrice :=
      some (if truthy item.totalPrice then item.totalPrice.getD 0
            else item.price * item.quantity)
    selectedOptions := item.selectedOptions
    optionsPricing := item.optionsPricing
    productImage := item.productImage
    attachments := item.attachments }

/-- The document `new Order({...})` of `POST /api/checkout`, with `paymentId`
assigned when supplied. -/
def checkoutOrder (now : ℤ) (req : CheckoutRequest) : Order :=
  let orderItems := req.items.map CheckoutItem.toOrderItem
  let orderSubtotal : ℚ :=
    if truthy req.subtotal then req.subtotal.getD 0 else sumTotalPrice orderItems
  let orderDeliveryFee := orZero req.deliveryFee
  let orderCouponDiscount := orZero req.couponDiscount
  let orderTotal : ℚ :=
    if truthy req.total then req.total.getD 0
    else orderSubtotal + orderDeliveryFee - orderCouponDiscount
  { customerName := req.customerInfo.name
    customerEmail := req.customerInfo.email
    customerPhone := req.customerInfo.phone
    address := req.customerInfo.address
    city := req.customerInfo.city
    items := orderItems
    subtotal := some orderSubtotal
    deliveryFee := orderDeliveryFee
    total := some orderTotal
    couponCode := req.appliedCoupon
    couponDiscount := orderCouponDiscount
    paymentMethod := if req.paymentMethod ≠ "" then req.paymentMethod else "cod"
    paymentStatus := if req.paymentStatus ≠ "" then req.paymentStatus else "pending"
    paymentId := req.paymentId
    notes := req.customerInfo.notes
    orderDate := now
    createdAt := now
    updatedAt := now }

/-- The handler `POST /api/checkout`. -/
def postCheckout (db : Db) (now : ℤ) (req : CheckoutRequest) : Db × Except SaveError Order :=
  match Order.save db.orders now (checkoutOrder now req) with
  | .error e => (db, .error e)
  | .ok (orders1, order) => ({ db with orders := orders1 }, .ok order)

/-- The first sample order of `src/add-sample-orders.js` as the specification
quotes it: no `totalPrice`, `subtotal` or `total` supplied. -/
def sampleOrder : Order :=
  { customerName := "أحمد محمد علي"
    customerEmail := "ahmed@example.com"
    customerPhone := "0501234567"
    address := "شارع الملك فهد، حي العليا"
    city := "الرياض"
    items :=
      [ { productId := 1, productName := "تمر العجوة الفاخر", price := 171 / 2, quantity := 2 },
        { productId := 2, productName := "عسل السدر الطبيعي", price := 120, quantity := 1 } ]
    deliveryFee := 25
    couponCode := "SAVE20"
    couponDiscount := 20
    paymentMethod := "cash" }

/-- A percentage coupon whose `maxDiscount` is `0`: 20 percent, cap 0. -/
def capZero : Coupon :=
  { id := 2, name := "CAP0", code := "CAP0", discountType := "percentage",
    discountValue := 20, maxDiscount := some 0 }

/-- A percentage coupon of 10 percent, capped at 200. -/
def tenPercent : Coupon :=
  { id := 4, name := "TEN", code := "TEN", discountType := "percentage",
    discountValue := 10, maxDiscount := some 200 }

/-- A fixed coupon of value `d`. -/
def fixedCoupon (d : ℚ) : Coupon :=
  { id := 3, name := "FIXED", code := "FIXED", discountType := "fixed", discountValue := d }

/-! ## Order lifecycle (`src/models/Order.js`) -/

/-- The call `this.save()` on a stored order: schema validation, then the
`pre('save')` hook; the document is not new, so the hook assigns no id and
does not read the collection. -/
def Order.saveExisting (now : ℤ) (o : Order) : Except SaveError Order :=
  if !o.schemaValid then .error .orderValidation
  else .ok (o.preSave [] false now)

/-- The method `orderSchema.methods.confirm`. -/
def Order.confirm (now : ℤ) (o : Order) : Except SaveError Order :=
  Order.saveExisting now { o with status := "confirmed" }

/-- The method `orderSchema.methods.ship`. -/
def Order.ship (now : ℤ) (o : Order) : Except SaveError Order :=
  Order.saveExisting now { o with status := "shipped" }

/-- The method `orderSchema.methods.deliver`. -/
def Order.deliver (now : ℤ) (o : Order) : Except SaveError Order :=
  Order.saveExisting now { o with status := "delivered", deliveredAt := some now }

/-- The method `orderSchema.methods.cancel`. -/
def Order.cancel (now : ℤ) (o : Order) : Except SaveError Order :=
  Order.saveExisting now { o with status := "cancelled" }

/-! ## Cart handlers (`src/server-mongodb.js`) -/

/-- The fields of a product document that the cart handlers read
(`product.name`, `product.price`, `product.mainImage`). -/
structure Product where
  id : ℕ
  name : String
  price : ℚ
  mainImage : String := ""
  deriving DecidableEq

/-- The constraints of `cartSchema`: `productName` required, `quantity` at
least 1 (`productId` and `price` are present in the embedding). -/
def CartItem.schemaValid (c : CartItem) : Bool :=
  decide (c.productName ≠ "") && decide (1 ≤ c.quantity)

/-- The combination (userId, productId, selectedOptions) of a cart line. -/
def CartItem.key (c : CartItem) : String × ℕ × List (String × String) :=
  (c.userId, c.productId, c.selectedOptions)

/-- The invariant of the cart collection: at most one line per
(userId, productId, selectedOptions). -/
def cartKeysUnique (carts : List CartItem) : Prop :=
  (carts.map CartItem.key).Nodup

/-- The query `findOne().sort({ id: -1 })` on the cart collection. -/
def lastCartItem (carts : List CartItem) : Option CartItem :=
  carts.foldl
    (fun best c =>
      match best with
      | none => some c
      | some b => if c.id > b.id then some c else some b)
    none

/-- The failures of a cart request. -/
inductive CartError where
  /-- The 404 responses: product or cart item not found. -/
  | notFound
  /-- The 400 response 'Invalid quantity' of the update handler. -/
  | invalidQuantity
  /-- A Mongoose `ValidationError` of the cart document (a 500 response). -/
  | validation
  /-- A Mongoose `CastError` of a query (a 500 response). -/
  | castError
  deriving DecidableEq

/-- The body of `POST /api/user/:userId/cart`. -/
structure AddItemRequest where
  productId : ℕ
  quantity : Option ℚ := none
  selectedOptions : List (String × String) := []
  optionsPricing : List (String × ℚ) := []
  attachments : Attachments := {}

/-- The test `attachments && (attachments.text || attachments.images?.length > 0)`. -/
def Attachments.nonEmpty (a : Attachments) : Bool :=
  decide (a.text ≠ "") || decide (a.images.length > 0)

/-- The filter `{ userId, productId, selectedOptions }` on the stored lines.
Mongoose saves a document without its empty objects (schema option `minimize`,
which `cartSchema` leaves at its default): a line with no options is stored
without the field `selectedOptions`, which the empty list stands for, and the
filter `selectedOptions: {}` matches no such line. A non-empty
`selectedOptions` matches the lines that store the same object. -/
def sameKey (userId : String) (productId : ℕ) (selectedOptions : List (String × String))
    (c : CartItem) : Bool :=
  decide (c.userId = userId) && decide (c.productId = productId) &&
    decide (selectedOptions ≠ []) && decide (c.selectedOptions = selectedOptions)

/-- The update of the line found by `POST /api/user/:userId/cart`:
`existingItem.quantity += quantity`, and the attachments replaced when the
request carries some. -/
def CartItem.addQuantity (existingItem : CartItem) (quantity : ℚ)
    (attachments : Attachments) : CartItem :=
  let item1 : CartItem := { existingItem with quantity := existingItem.quantity + quantity }
  if attachments.nonEmpty then { item1 with attachments := attachments } else item1

/-- The document `new Cart({...})` of `POST /api/user/:userId/cart`. -/
def newCartItem (product : Product) (now : ℤ) (userId : String) (req : AddItemRequest) :
    CartItem :=
  { userId := userId
    productId := req.productId
    productName := product.name
    price := product.price
    quantity := req.quantity.getD 1
    image := product.mainImage
    selectedOptions := req.selectedOptions
    optionsPricing := req.optionsPricing
    attachments := req.attachments
    createdAt := now }

/-- The id the hook `cartSchema.pre('save')` gives a new line. -/
def nextCartId (carts : List CartItem) : ℕ :=
  match lastCartItem carts with
  | some last => last.id + 1
  | none => 1

/-- The handler `POST /api/user/:userId/cart` (addItem): the cart collection
after the request, and the item of the response or the failure. `products` is
the product collection; `quantity` defaults to 1; each `save()` checks
`cartSchema` first. -/
def addItem (products : List Product) (carts : List CartItem) (now : ℤ) (userId : String)
    (req : AddItemRequest) : List CartItem × Except CartError CartItem :=
  match products.find? (fun p => decide (p.id = req.productId)) with
  | none => (carts, .error .notFound)
  | some product =>
    match carts.find? (sameKey userId req.productId req.selectedOptions) with
    | some existingItem =>
      let updated := existingItem.addQuantity (req.quantity.getD 1) req.attachments
      if !updated.schemaValid then (carts, .error .validation)
      else
        (replaceFirst (sameKey userId req.productId req.selectedOptions) updated carts,
         .ok updated)
    | none =>
      let cartItem := newCartItem product now userId req
      if !cartItem.schemaValid then (carts, .error .validation)
      else
        let saved : CartItem := { cartItem with id := nextCartId carts }
        (carts ++ [saved], .ok saved)

/-- The body of `PUT /api/user/:userId/cart/:itemId`; `none` is `undefined`. -/
structure UpdateItemRequest where
  quantity : Option ℚ := none
  selectedOptions : Option (List (String × String)) := none
  optionsPricing : Option (List (String × ℚ)) := none
  attachments : Option Attachments := none
  productId : Option ℕ := none

/-- The filter `{ id: itemId, userId }`. -/
def ownedItem (userId : String) (itemId : ℕ) (c : CartItem) : Bool :=
  decide (c.id = itemId) && decide (c.userId = userId)

/-- The handler `PUT /api/user/:userId/cart/:itemId` (updateItem).
`findOneAndUpdate` runs no validators; the fallback query by `_id` finds
nothing for a numeric `itemId`. -/
def updateItem (carts : List CartItem) (userId : String) (itemId : ℕ)
    (req : UpdateItemRequest) : List CartItem × Except CartError CartItem :=
  if (match req.quantity with | some q => decide (q < 1) | none => false) then
    (carts, .error .invalidQuantity)
  else
    match carts.find? (ownedItem userId itemId) with
    | none => (carts, .error .notFound)
    | some item =>
      let updated : CartItem :=
        { item with
          quantity := req.quantity.getD item.quantity
          selectedOptions := req.selectedOptions.getD item.selectedOptions
          optionsPricing := req.optionsPricing.getD item.optionsPricing
          attachments := req.attachments.getD item.attachments
          productId := req.productId.getD item.productId }
      (replaceFirst (ownedItem userId itemId) updated carts, .ok updated)

/-- The filter `{ userId, productId }`. -/
def ofProduct (userId : String) (productId : ℕ) (c : CartItem) : Bool :=
  decide (c.userId = userId) && decide (c.productId = productId)

/-- The handler `DELETE /api/user/:userId/cart/product/:productId`
(removeByProduct): `findOneAndDelete` removes the first matching line. -/
def removeByProduct (carts : List CartItem) (userId : String) (productId : ℕ) :
    List CartItem × Except CartError CartItem :=
  match carts.find? (ofProduct userId productId) with
  | none => (carts, .error .notFound)
  | some item => (carts.eraseP (ofProduct userId productId), .ok item)

/-- The handler `DELETE /api/user/:userId/cart/:itemId` (removeItem). -/
def removeItem (carts : List CartItem) (userId : String) (itemId : ℕ) :
    List CartItem × Except CartError CartItem :=
  match carts.find? (ownedItem userId itemId) with
  | none => (carts, .error .notFound)
  | some item => (carts.eraseP (ownedItem userId itemId), .ok item)

/-- The handler `DELETE /api/user/:userId/cart` (clear): `deleteMany({ userId })`. -/
def clearCart (carts : List CartItem) (userId : String) : List CartItem :=
  carts.filter (fun c => c.userId ≠ userId)

/-- The handler `DELETE /api/cart` (clear of the guest routes):
`userId = req.query.userId || 'guest'`, then `deleteMany({ userId })`. -/
def clearGuestCart (carts : List CartItem) (userId : String) : List CartItem :=
  clearCart carts (if userId ≠ "" then userId else "guest")

/-- A request `PUT /api/user/:userId/cart/update-options`. Express gives it to
the route `PUT /api/user/:userId/cart/:itemId`, which is registered first
(line 1517, before line 1884), with `itemId = parseInt('update-options')`, that
is `NaN`: after the quantity test of that handler, the query
`{ id: NaN, userId }` throws a `CastError`, which the handler answers with 500.
The handler written for update-options is never reached, and the cart is not
changed. -/
def updateOptionsRequest (carts : List CartItem) (_userId : String)
    (req : UpdateItemRequest) : List CartItem × Except CartError CartItem :=
  if (match req.quantity with | some q => decide (q < 1) | none => false) then
    (carts, .error .invalidQuantity)
  else
    (carts, .error .castError)

/-! ## Order administration (`src/server-mongodb.js`) -/

/-- The failures of the handlers that address a stored order by its id. -/
inductive OrderError where
  /-- The 404 response 'Order not found'. -/
  | notFound
  /-- A Mongoose `ValidationError` of the order document (a 500 response). -/
  | validation
  deriving DecidableEq

/-- The handler `PUT /api/orders/:id/status`: the generic status update. -/
def putOrderStatus (db : Db) (now : ℤ) (orderId : ℕ) (status : String) :
    Db × Except OrderError Order :=
  match db.orders.find? (fun o => decide (o.id = orderId)) with
  | none => (db, .error .notFound)
  | some order =>
    let order1 : Order := { order with status := status }
    let order2 : Order :=
      if status = "delivered" then { order1 with deliveredAt := some now } else order1
    match Order.saveExisting now order2 with
    | .error _ => (db, .error .validation)
    | .ok saved =>
      ({ db with orders := replaceFirst (fun o => decide (o.id = orderId)) saved db.orders },
       .ok saved)

/-- The handler `DELETE /api/orders/:id`: `findOne`, then `deleteOne`. -/
def deleteOrder (db : Db) (orderId : ℕ) : Db × Except OrderError Order :=
  match db.orders.find? (fun o => decide (o.id = orderId)) with
  | none => (db, .error .notFound)
  | some order =>
    ({ db with orders := db.orders.eraseP (fun o => decide (o.id = orderId)) }, .ok order)

/-- The validity condition as the specification words it, a field being set
when it holds a value, `0` included. -/
def isValidSpec (c : Coupon) (now : ℤ) (orderAmount : ℚ) : Bool :=
  c.isActive &&
  !(match c.expiryDate with | none => false | some e => decide (now > e)) &&
  !(match c.usageLimit with | none => false | some l => decide (c.usedCount ≥ l)) &&
  !(match c.minimumAmount with | none => false | some m => decide (orderAmount < m))

/-- A fixed coupon of 10 whose expiry date is the time 1000. -/
def expiring : Coupon :=
  { id := 6, name := "EXP", code := "EXP", discountType := "fixed", discountValue := 10,
    expiryDate := some 1000 }

/-- A coupon whose `usageLimit` is `0`. -/
def limitZero : Coupon :=
  { id := 4, name := "LIMIT0", code := "LIMIT0", discountType := "fixed",
    discountValue := 10, usageLimit := some 0 }

/-- A coupon used once out of a limit of one, with a minimum of 500. -/
def usedUp : Coupon :=
  { id := 5, name := "ONCE", code := "ONCE", discountType := "fixed",
    discountValue := 10, usageLimit := some 1, usedCount := 1, minimumAmount := some 500 }

/-- A checkout request whose caller supplies a total of 1 for one item of 100. -/
def checkoutWithTotal : CheckoutRequest :=
  { items := [{ productId := 1, productName := "item", price := 100, quantity := 1 }]
    customerInfo := { name := "N", email := "n@example.com", address := "A", city := "C" }
    total := some 1 }

/-- A store holding one coupon: the fixed coupon of 100. -/
def fixedStore : Db := { coupons := [fixedCoupon 100] }

/-- An order request of one item of 99.999 with the coupon code FIXED. -/
def fixedRequest : OrderRequest :=
  { customerName := "N", customerEmail := "n@example.com", address := "A", city := "C"
    items := [{ productId := 1, productName := "item", price := 99999 / 1000, quantity := 1 }]
    couponCode := "FIXED" }

/-- An order request of one item of 100, with no coupon code. -/
def plainRequest : OrderRequest :=
  { customerName := "N", customerEmail := "n@example.com", address := "A", city := "C"
    items := [{ productId := 1, productName := "item", price := 100, quantity := 1 }] }

/-- A store holding one coupon: the fixed coupon of 10, never used. -/
def tenStore : Db := { coupons := [fixedCoupon 10] }

/-- An order request with the coupon code FIXED and no address. -/
def noAddressRequest : OrderRequest :=
  { customerName := "N", customerEmail := "n@example.com", address := "", city := "C"
    items := [{ productId := 1, productName := "item", price := 100, quantity := 1 }]
    couponCode := "FIXED" }

/-- A coupon with usageLimit 1 and usedCount one half. -/
def halfUsed : Coupon :=
  { id := 7, name := "HALF", code := "HALF", discountType := "fixed", discountValue := 10,
    usageLimit := some 1, usedCount := 1 / 2 }

/-- A complete order request of one item of 100 with the given coupon code. -/
def codeRequest (couponCode : String) : OrderRequest :=
  { customerName := "N", customerEmail := "n@example.com", address := "A", city := "C"
    items := [{ productId := 1, productName := "item", price := 100, quantity := 1 }]
    couponCode := couponCode }

/-- A store holding one coupon: the coupon whose usageLimit is 0. -/
def zeroStore : Db := { coupons := [limitZero] }

/-- A store holding one coupon: the coupon used one half time out of 1. -/
def halfStore : Db := { coupons := [halfUsed] }

/-- A store holding one coupon: SAVE20. -/
def save20Store : Db := { coupons := [save20] }

/-- An order request with the code SAVE20 whose single item, of price 100 and
quantity 1, carries a caller-supplied totalPrice of 50. -/
def halfTotalRequest : OrderRequest :=
  { customerName := "N", customerEmail := "n@example.com", address := "A", city := "C"
    items := [{ productId := 1, productName := "item", price := 100, quantity := 1,
                totalPrice := some 50 }]
    couponCode := "SAVE20" }

/-- Product 5 of the catalogue. -/
def product5 : Product := { id := 5, name := "product 5", price := 10 }

/-- A cart line of user u1 for product 5 with the given id, options and quantity. -/
def lineOf (id : ℕ) (selectedOptions : List (String × String)) (quantity : ℚ) : CartItem :=
  { id := id, userId := "u1", productId := 5, productName := "product 5", price := 10,
    quantity := quantity, selectedOptions := selectedOptions }

/-- A cart of user u1 with two lines of product 5: size M and size L. -/
def twoSizes : List CartItem :=
  [lineOf 1 [("size", "M")] 1, lineOf 2 [("size", "L")] 1]

/-- A complete order request with an empty items list and no coupon code. -/
def emptyRequest : OrderRequest :=
  { customerName := "N", customerEmail := "n@example.com", address := "A", city := "C"
    items := [] }

/-- A complete checkout request with an empty items list. -/
def emptyCheckout : CheckoutRequest :=
  { items := []
    customerInfo := { name := "N", email := "n@example.com", address := "A", city := "C" } }

/-- A complete order request of one item of price -5 and quantity 1. -/
def negativePriceRequest : OrderRequest :=
  { customerName := "N", customerEmail := "n@example.com", address := "A", city := "C"
    items := [{ productId := 1, productName := "item", price := -5, quantity := 1 }] }

/-- A complete checkout request of one item of price 10 and quantity 0. -/
def zeroQuantityCheckout : CheckoutRequest :=
  { items := [{ productId := 1, productName := "item", price := 10, quantity := 0 }]
    customerInfo := { name := "N", email := "n@example.com", address := "A", city := "C" } }

/-- A complete order request of one item of the given quantity. -/
def quantityRequest (quantity : ℚ) : OrderRequest :=
  { customerName := "N", customerEmail := "n@example.com", address := "A", city := "C"
    items := [{ productId := 1, productName := "item", price := 10, quantity := quantity }] }

/-- A complete checkout request whose single item, of price 100 and quantity 1,
carries a caller-supplied totalPrice of 50. -/
def halfTotalCheckout : CheckoutRequest :=
  { items := [{ productId := 1, productName := "item", price := 100, quantity := 1,
                totalPrice := some 50 }]
    customerInfo := { name := "N", email := "n@example.com", address := "A", city := "C" } }

/-- A store in which the cart of u1 holds one line of product 5. -/
def cartOfU1 : Db := { carts := [lineOf 1 [] 1] }

/-- A complete checkout request of user u1 for one item of product 5. -/
def checkoutU1 : CheckoutRequest :=
  { items := [{ productId := 5, productName := "product 5", price := 10, quantity := 1 }]
    customerInfo := { name := "N", email := "n@example.com", address := "A", city := "C" }
    userId := "u1" }

/-- A store holding one coupon: the coupon used once out of a limit of one. -/
def usedUpStore : Db := { coupons := [usedUp] }

/-- A store holding the sample order, saved once with id 1 and then delivered
at time 5. -/
def deliveredStore : Db :=
  { orders := [{ sampleOrder with id := 1, status := "delivered", deliveredAt := some 5 }] }

/-- A cart of two users: a line of 'guest' and a line of u1. -/
def guestAndU1 : List CartItem :=
  [{ lineOf 1 [("size", "M")] 1 with userId := "guest" }, lineOf 2 [("size", "L")] 1]

/-! ## Theorems -/

/-! ### Helpers -/

theorem truthy_none : truthy none = false := rfl

theorem truthy_some (v : ℚ) : truthy (some v) = decide (v ≠ 0) := rfl

theorem round2_eq (x : ℚ) : round2 x = ((⌊x * 100 + 1 / 2⌋ : ℤ) : ℚ) / 100 := rfl

/-- Rounding to two decimals moves a value by at most half a hundredth. -/
theorem round2_close (x : ℚ) : x - 1 / 200 < round2 x ∧ round2 x ≤ x + 1 / 200 := by
  have h1 := Int.floor_le (x * 100 + 1 / 2)
  have h2 := Int.lt_floor_add_one (x * 100 + 1 / 2)
  rw [round2_eq]
  constructor
  · rw [lt_div_iff₀ (by norm_num)]; linarith
  · rw [div_le_iff₀ (by norm_num)]; linarith

/-- A value with at most two decimals is left unchanged by the rounding. -/
theorem round2_of_int (n : ℤ) : round2 ((n : ℚ) / 100) = (n : ℚ) / 100 := by
  rw [round2_eq]
  have h : (n : ℚ) / 100 * 100 + 1 / 2 = ((n : ℤ) : ℚ) + 1 / 2 := by ring
  rw [h]
  have : ⌊((n : ℤ) : ℚ) + 1 / 2⌋ = n := by
    rw [Int.floor_eq_iff]
    constructor <;> norm_num
  rw [this]

theorem fixed_ne_percentage : ¬ ("fixed" = "percentage") := by decide

theorem isValid_valid_iff (c : Coupon) (now : ℤ) (A : ℚ) :
    (c.isValid now A).valid = true ↔
      c.isActive = true ∧ c.expiredAt now = false ∧ c.usageExhausted = false ∧
        c.belowMinimum A = false := by
  unfold Coupon.isValid
  cases c.isActive <;> cases c.expiredAt now <;> cases c.usageExhausted <;>
    cases c.belowMinimum A <;> simp

theorem calculateDiscount_of_valid (c : Coupon) (now : ℤ) (A : ℚ)
    (hv : (c.isValid now A).valid = true) :
    c.calculateDiscount now A = { discount := round2 (c.rawDiscount A) } := by
  simp [Coupon.calculateDiscount, hv]

theorem calculateDiscount_of_invalid (c : Coupon) (now : ℤ) (A : ℚ)
    (hv : (c.isValid now A).valid = false) :
    c.calculateDiscount now A = { discount := 0, error := (c.isValid now A).message } := by
  simp [Coupon.calculateDiscount, hv]

/-! ### C2: percentage coupons -/

theorem calculateDiscountIn_exact (c : Coupon) (now : ℤ) (A : ℚ) :
    c.calculateDiscountIn exactArith now A = c.calculateDiscount now A := by
  simp [Coupon.calculateDiscountIn, Coupon.calculateDiscount, Coupon.rawDiscountIn,
    Coupon.rawDiscount, exactArith, round2]

theorem calculateDiscountIn_of_valid (ar : NumberArith) (c : Coupon) (now : ℤ) (A : ℚ)
    (hv : (c.isValid now A).valid = true) :
    c.calculateDiscountIn ar now A
      = { discount := ar.div (ar.round (ar.mul (c.rawDiscountIn ar A) 100)) 100 } := by
  simp [Coupon.calculateDiscountIn, hv]

theorem log_of_bounds (x : ℚ) (e : ℤ) (h1 : (2 : ℚ) ^ e ≤ x) (h2 : x < 2 ^ (e + 1)) :
    Int.log 2 x = e := by
  have hx : 0 < x := lt_of_lt_of_le (by positivity) h1
  have ha : e ≤ Int.log 2 x :=
    (Int.zpow_le_iff_le_log (by norm_num) hx).mp (by exact_mod_cast h1)
  have hb : Int.log 2 x < e + 1 :=
    (Int.lt_zpow_iff_log_lt (by norm_num) hx).mp (by exact_mod_cast h2)
  omega

theorem toDouble_eq (x : ℚ) (e n : ℤ) (h1 : (2 : ℚ) ^ e ≤ |x|) (h2 : |x| < 2 ^ (e + 1))
    (hn : roundHalfEven (x / 2 ^ (e - 52)) = n) : toDouble x = n * 2 ^ (e - 52) := by
  have hx : x ≠ 0 := by
    intro h
    rw [h, abs_zero] at h1
    exact absurd h1 (not_le.mpr (by positivity))
  rw [toDouble, if_neg hx, log_of_bounds |x| e h1 h2, hn]

theorem toDouble_1 : toDouble (291 / 5) = 4095460911140045 / 70368744177664 := by
  rw [toDouble_eq (291 / 5) 5 8190921822280090 (by norm_num [abs_of_pos])
    (by norm_num [abs_of_pos]) (by norm_num [roundHalfEven])]
  norm_num

theorem toDouble_2 : toDouble 5820 = 5820 := by
  rw [toDouble_eq 5820 12 6399157673656320 (by norm_num [abs_of_pos])
    (by norm_num [abs_of_pos]) (by norm_num [roundHalfEven])]
  norm_num

theorem toDouble_3 : toDouble (102386522778501125 / 17592186044416) = 5820 := by
  rw [toDouble_eq (102386522778501125 / 17592186044416) 12 6399157673656320 (by norm_num [abs_of_pos])
    (by norm_num [abs_of_pos]) (by norm_num [roundHalfEven])]
  norm_num

theorem toDouble_4 : toDouble (201 / 20) = 2828823515942093 / 281474976710656 := by
  rw [toDouble_eq (201 / 20) 3 5657647031884186 (by norm_num [abs_of_pos])
    (by norm_num [abs_of_pos]) (by norm_num [roundHalfEven])]
  norm_num

theorem toDouble_5 : toDouble (14144117579710465 / 140737488355328) = 201 / 2 := by
  rw [toDouble_eq (14144117579710465 / 140737488355328) 6 7072058789855232 (by norm_num [abs_of_pos])
    (by norm_num [abs_of_pos]) (by norm_num [roundHalfEven])]
  norm_num

theorem toDouble_6 : toDouble (201 / 200) = 1131529406376837 / 1125899906842624 := by
  rw [toDouble_eq (201 / 200) 0 4526117625507348 (by norm_num [abs_of_pos])
    (by norm_num [abs_of_pos]) (by norm_num [roundHalfEven])]
  norm_num

theorem toDouble_7 : toDouble (28288235159420925 / 281474976710656) = 7072058789855231 / 70368744177664 := by
  rw [toDouble_eq (28288235159420925 / 281474976710656) 6 7072058789855231 (by norm_num [abs_of_pos])
    (by norm_num [abs_of_pos]) (by norm_num [roundHalfEven])]
  norm_num

theorem toDouble_8 : toDouble 1 = 1 := by
  rw [toDouble_eq 1 0 4503599627370496 (by norm_num [abs_of_pos])
    (by norm_num [abs_of_pos]) (by norm_num [roundHalfEven])]
  norm_num

theorem toDouble_9 : toDouble 1000 = 1000 := by
  rw [toDouble_eq 1000 9 8796093022208000 (by norm_num [abs_of_pos])
    (by norm_num [abs_of_pos]) (by norm_num [roundHalfEven])]
  norm_num

theorem toDouble_10 : toDouble 10 = 10 := by
  rw [toDouble_eq 10 3 5629499534213120 (by norm_num [abs_of_pos])
    (by norm_num [abs_of_pos]) (by norm_num [roundHalfEven])]
  norm_num

theorem toDouble_11 : toDouble (5557 / 1000) = 3128312891162231 / 562949953421312 := by
  rw [toDouble_eq (5557 / 1000) 2 6256625782324462 (by norm_num [abs_of_pos])
    (by norm_num [abs_of_pos]) (by norm_num [roundHalfEven])]
  norm_num

theorem toDouble_12 : toDouble (78207822279055775 / 140737488355328) = 2443994446220493 / 4398046511104 := by
  rw [toDouble_eq (78207822279055775 / 140737488355328) 9 4887988892440986 (by norm_num [abs_of_pos])
    (by norm_num [abs_of_pos]) (by norm_num [roundHalfEven])]
  norm_num

theorem toDouble_13 : toDouble (139 / 25) = 6260003482044989 / 1125899906842624 := by
  rw [toDouble_eq (139 / 25) 2 6260003482044989 (by norm_num [abs_of_pos])
    (by norm_num [abs_of_pos]) (by norm_num [roundHalfEven])]
  norm_num

theorem toDouble_14 : toDouble 2000 = 2000 := by
  rw [toDouble_eq 2000 10 8796093022208000 (by norm_num [abs_of_pos])
    (by norm_num [abs_of_pos]) (by norm_num [roundHalfEven])]
  norm_num

theorem toDouble_15 : toDouble 20 = 20 := by
  rw [toDouble_eq 20 4 5629499534213120 (by norm_num [abs_of_pos])
    (by norm_num [abs_of_pos]) (by norm_num [roundHalfEven])]
  norm_num

/-- C2, counterexample: with `maxDiscount = 0` the cap is not applied. The
coupon of 20 percent capped at 0 passes validation on an order of 100 and gives
a discount of 20, in exact arithmetic and in double arithmetic alike, where
min(A*d/100, m, A) rounded is 0. -/
theorem C2_counterexample :
    (capZero.isValid 0 100).valid = true ∧ capZero.schemaValid = true ∧
    (capZero.calculateDiscount 0 100).discount = 20 ∧
    (capZero.calculateDiscountIn doubleArith 0 100).discount = 20 ∧
    round2 (min (100 * 20 / 100) (min 0 100)) = 0 ∧
    (capZero.calculateDiscount 0 100).discount ≠ round2 (min (100 * 20 / 100) (min 0 100)) := by
  have hv : (capZero.isValid 0 100).valid = true := by
    simp [Coupon.isValid, capZero, Coupon.expiredAt, Coupon.usageExhausted,
      Coupon.belowMinimum]
  refine ⟨hv, ?_, ?_, ?_, ?_, ?_⟩
  · norm_num [capZero, Coupon.schemaValid]
    decide
  · norm_num [capZero, Coupon.calculateDiscount, Coupon.isValid, Coupon.expiredAt,
      Coupon.usageExhausted, Coupon.belowMinimum, Coupon.rawDiscount, round2, mathRound]
  · rw [calculateDiscountIn_of_valid doubleArith capZero 0 100 hv]
    norm_num [capZero, Coupon.rawDiscountIn, doubleArith, mathRound,
      toDouble_1, toDouble_2, toDouble_3, toDouble_4, toDouble_5, toDouble_6, toDouble_7,
      toDouble_8, toDouble_9, toDouble_10, toDouble_11, toDouble_12, toDouble_13,
      toDouble_14, toDouble_15]
  · norm_num [round2, mathRound]
  · norm_num [capZero, Coupon.calculateDiscount, Coupon.isValid, Coupon.expiredAt,
      Coupon.usageExhausted, Coupon.belowMinimum, Coupon.rawDiscount, round2, mathRound]

/-- C2, amended: for a coupon that passes validation with discountType
'percentage', discountValue d and maxDiscount m set to a non-zero value, the
discount on an order amount A is Math.round(x * 100) / 100 for
x = min(A*d/100, m, A), every product and quotient being the one of the
arithmetic of JavaScript numbers; with maxDiscount 0 no cap applies and x is
min(A*d/100, A). In double arithmetic d = 20, m = 200, A = 291 give the double
58.2, and d = 10, m = 200, A = 10.05 give 1. -/
theorem C2_percentage_discount (ar : NumberArith) (c : Coupon) (now : ℤ) (A m : ℚ)
    (hv : (c.isValid now A).valid = true) (ht : c.discountType = "percentage")
    (hm : c.maxDiscount = some m) :
    (m ≠ 0 → (c.calculateDiscountIn ar now A).discount
        = ar.div (ar.round (ar.mul
            (min (ar.div (ar.mul A c.discountValue) 100) (min m A)) 100)) 100) ∧
    (m = 0 → (c.calculateDiscountIn ar now A).discount
        = ar.div (ar.round (ar.mul
            (min (ar.div (ar.mul A c.discountValue) 100) A) 100)) 100) ∧
    (save20.calculateDiscountIn doubleArith 0 291).discount = toDouble (291 / 5) ∧
    (tenPercent.calculateDiscountIn doubleArith 0 (toDouble (201 / 20))).discount = 1 := by
  rw [calculateDiscountIn_of_valid ar c now A hv]
  refine ⟨fun hm0 => ?_, fun hm0 => ?_, ?_, ?_⟩
  · show ar.div (ar.round (ar.mul (c.rawDiscountIn ar A) 100)) 100 = _
    congr 3
    simp only [Coupon.rawDiscountIn, ht, hm, if_true]
    by_cases h : ar.div (ar.mul A c.discountValue) 100 > m
    · rw [if_pos ⟨hm0, h⟩, ← min_assoc, min_eq_right (le_of_lt h)]
    · rw [if_neg (fun hh => h hh.2), ← min_assoc, min_eq_left (not_lt.mp h)]
  · show ar.div (ar.round (ar.mul (c.rawDiscountIn ar A) 100)) 100 = _
    congr 3
    simp [Coupon.rawDiscountIn, ht, hm, hm0]
  · rw [calculateDiscountIn_of_valid doubleArith save20 0 291
      (by simp [Coupon.isValid, save20, Coupon.expiredAt, Coupon.usageExhausted,
            Coupon.belowMinimum])]
    norm_num [save20, Coupon.rawDiscountIn, doubleArith, mathRound,
      toDouble_1, toDouble_2, toDouble_3, toDouble_4, toDouble_5, toDouble_6, toDouble_7,
      toDouble_8, toDouble_9, toDouble_10, toDouble_11, toDouble_12, toDouble_13,
      toDouble_14, toDouble_15]
  · rw [calculateDiscountIn_of_valid doubleArith tenPercent 0 _
      (by simp [Coupon.isValid, tenPercent, Coupon.expiredAt, Coupon.usageExhausted,
            Coupon.belowMinimum])]
    norm_num [tenPercent, Coupon.rawDiscountIn, doubleArith, mathRound,
      toDouble_1, toDouble_2, toDouble_3, toDouble_4, toDouble_5, toDouble_6, toDouble_7,
      toDouble_8, toDouble_9, toDouble_10, toDouble_11, toDouble_12, toDouble_13,
      toDouble_14, toDouble_15]

/-- C2, witness: the example coupon SAVE20 on an order of 291, in double
arithmetic. -/
theorem C2_percentage_discount_witness :
    (save20.calculateDiscountIn doubleArith 0 291).discount
      = doubleArith.div (doubleArith.round (doubleArith.mul
          (min (doubleArith.div (doubleArith.mul 291 save20.discountValue) 100)
            (min 200 291)) 100)) 100 :=
  (C2_percentage_discount doubleArith save20 0 291 200
    (by simp [Coupon.isValid, save20, Coupon.expiredAt, Coupon.usageExhausted,
          Coupon.belowMinimum])
    rfl rfl).1 (by norm_num)

/-! ### C3: fixed coupons -/

/-- C3, counterexample: the fixed coupon of 10 passes validation on an order of
5.557 and gives 5.56, which is not min(d, A) = 5.557: the result is rounded, in
exact arithmetic and in double arithmetic alike. -/
theorem C3_counterexample :
    ((fixedCoupon 10).isValid 0 (5557 / 1000)).valid = true ∧
    ((fixedCoupon 10).calculateDiscount 0 (5557 / 1000)).discount = 139 / 25 ∧
    ((fixedCoupon 10).calculateDiscount 0 (5557 / 1000)).discount ≠ min 10 (5557 / 1000) ∧
    ((fixedCoupon 10).calculateDiscountIn doubleArith 0 (toDouble (5557 / 1000))).discount
      = toDouble (139 / 25) ∧
    ((fixedCoupon 10).calculateDiscountIn doubleArith 0 (toDouble (5557 / 1000))).discount
      ≠ min 10 (toDouble (5557 / 1000)) := by
  have hd : ((fixedCoupon 10).calculateDiscountIn doubleArith 0
      (toDouble (5557 / 1000))).discount = toDouble (139 / 25) := by
    rw [calculateDiscountIn_of_valid doubleArith (fixedCoupon 10) 0 _
      (by simp [Coupon.isValid, fixedCoupon, Coupon.expiredAt, Coupon.usageExhausted,
            Coupon.belowMinimum])]
    norm_num [fixedCoupon, Coupon.rawDiscountIn, doubleArith, mathRound, fixed_ne_percentage,
      toDouble_1, toDouble_2, toDouble_3, toDouble_4, toDouble_5, toDouble_6, toDouble_7,
      toDouble_8, toDouble_9, toDouble_10, toDouble_11, toDouble_12, toDouble_13,
      toDouble_14, toDouble_15]
  refine ⟨?_, ?_, ?_, hd, ?_⟩
  · simp [Coupon.isValid, fixedCoupon, Coupon.expiredAt, Coupon.usageExhausted,
      Coupon.belowMinimum]
  · norm_num [fixedCoupon, Coupon.calculateDiscount, Coupon.isValid, Coupon.expiredAt,
      Coupon.usageExhausted, Coupon.belowMinimum, Coupon.rawDiscount, round2, mathRound,
      fixed_ne_percentage]
  · norm_num [fixedCoupon, Coupon.calculateDiscount, Coupon.isValid, Coupon.expiredAt,
      Coupon.usageExhausted, Coupon.belowMinimum, Coupon.rawDiscount, round2, mathRound,
      fixed_ne_percentage]
  · rw [hd]
    norm_num [toDouble_1, toDouble_2, toDouble_3, toDouble_4, toDouble_5, toDouble_6, toDouble_7,
      toDouble_8, toDouble_9, toDouble_10, toDouble_11, toDouble_12, toDouble_13,
      toDouble_14, toDouble_15]

/-- C3, amended: for a coupon that passes validation with discountType 'fixed'
and discountValue d, the discount on an order amount A is
Math.round(min(d, A) * 100) / 100, the product and the quotient being the ones
of the arithmetic of JavaScript numbers. In double arithmetic d = 10, A = 291
give 10, and d = 1.005, A = 10 give 1. -/
theorem C3_fixed_discount (ar : NumberArith) (c : Coupon) (now : ℤ) (A : ℚ)
    (hv : (c.isValid now A).valid = true) (ht : c.discountType = "fixed") :
    (c.calculateDiscountIn ar now A).discount
      = ar.div (ar.round (ar.mul (min c.discountValue A) 100)) 100 ∧
    ((fixedCoupon 10).calculateDiscountIn doubleArith 0 291).discount = 10 ∧
    ((fixedCoupon (toDouble (201 / 200))).calculateDiscountIn doubleArith 0 10).discount
      = 1 := by
  refine ⟨?_, ?_, ?_⟩
  · rw [calculateDiscountIn_of_valid ar c now A hv]
    simp [Coupon.rawDiscountIn, ht]
  · rw [calculateDiscountIn_of_valid doubleArith (fixedCoupon 10) 0 _
      (by simp [Coupon.isValid, fixedCoupon, Coupon.expiredAt, Coupon.usageExhausted,
            Coupon.belowMinimum])]
    norm_num [fixedCoupon, Coupon.rawDiscountIn, doubleArith, mathRound, fixed_ne_percentage,
      toDouble_1, toDouble_2, toDouble_3, toDouble_4, toDouble_5, toDouble_6, toDouble_7,
      toDouble_8, toDouble_9, toDouble_10, toDouble_11, toDouble_12, toDouble_13,
      toDouble_14, toDouble_15]
  · rw [calculateDiscountIn_of_valid doubleArith (fixedCoupon _) 0 _
      (by simp [Coupon.isValid, fixedCoupon, Coupon.expiredAt, Coupon.usageExhausted,
            Coupon.belowMinimum])]
    norm_num [fixedCoupon, Coupon.rawDiscountIn, doubleArith, mathRound, fixed_ne_percentage,
      toDouble_1, toDouble_2, toDouble_3, toDouble_4, toDouble_5, toDouble_6, toDouble_7,
      toDouble_8, toDouble_9, toDouble_10, toDouble_11, toDouble_12, toDouble_13,
      toDouble_14, toDouble_15]

/-- C3, witness: the fixed coupon of 10 on an order of 291, in double
arithmetic. -/
theorem C3_fixed_discount_witness :
    ((fixedCoupon 10).calculateDiscountIn doubleArith 0 291).discount
      = doubleArith.div (doubleArith.round (doubleArith.mul
          (min (fixedCoupon 10).discountValue 291) 100)) 100 :=
  (C3_fixed_discount doubleArith (fixedCoupon 10) 0 291
    (by simp [Coupon.isValid, fixedCoupon, Coupon.expiredAt, Coupon.usageExhausted,
          Coupon.belowMinimum])
    rfl).1

/-! ### C4: the discount against the order amount -/

/-- C4, the code at the failing input: the fixed coupon of 100 is valid on an
order of 99.999; the clamp gives 99.999 and the rounding that follows it gives
100, more than the order amount. -/
theorem C4_discount_exceeds_amount :
    ((fixedCoupon 100).isValid 0 (99999 / 1000)).valid = true ∧
    (fixedCoupon 100).rawDiscount (99999 / 1000) = 99999 / 1000 ∧
    ((fixedCoupon 100).calculateDiscount 0 (99999 / 1000)).discount = 100 ∧
    ((fixedCoupon 100).calculateDiscount 0 (99999 / 1000)).discount > 99999 / 1000 := by
  norm_num [fixedCoupon, Coupon.calculateDiscount, Coupon.isValid, Coupon.expiredAt,
    Coupon.usageExhausted, Coupon.belowMinimum, Coupon.rawDiscount, round2, mathRound,
    fixed_ne_percentage]

/-! ### C5: the validity condition -/

/-- C5, counterexample: a field holding `0` is not treated as set. A coupon with
the default minimumAmount 0 is valid on the amount -1, and a coupon with
usageLimit 0 and usedCount 0 is valid, where the condition as stated rejects
both. -/
theorem C5_counterexample :
    (((fixedCoupon 10).isValid 0 (-1)).valid = true ∧
      isValidSpec (fixedCoupon 10) 0 (-1) = false) ∧
    ((limitZero.isValid 0 100).valid = true ∧ isValidSpec limitZero 0 100 = false) := by
  norm_num [fixedCoupon, limitZero, isValidSpec, Coupon.isValid, Coupon.expiredAt,
    Coupon.usageExhausted, Coupon.belowMinimum]

/-- C5, amended: isValid returns valid = true if and only if isActive is true,
and not (expiryDate is set and now > expiryDate), and not (usageLimit holds a
non-zero value and usedCount >= usageLimit), and not (minimumAmount holds a
non-zero value and A < minimumAmount); a coupon whose expiryDate equals now
passes the expiry check. -/
theorem C5_isValid_iff (c : Coupon) (now : ℤ) (A : ℚ) :
    ((c.isValid now A).valid = true ↔
      c.isActive = true ∧
      ¬ (∃ e, c.expiryDate = some e ∧ now > e) ∧
      ¬ (∃ l, c.usageLimit = some l ∧ l ≠ 0 ∧ c.usedCount ≥ l) ∧
      ¬ (∃ m, c.minimumAmount = some m ∧ m ≠ 0 ∧ A < m)) ∧
    (c.expiryDate = some now →
      ((c.isValid now A).valid = true ↔
        c.isActive = true ∧ c.usageExhausted = false ∧ c.belowMinimum A = false)) := by
  have he : c.expiredAt now = false ↔ ¬ (∃ e, c.expiryDate = some e ∧ now > e) := by
    unfold Coupon.expiredAt
    cases c.expiryDate <;> simp
  have hu : c.usageExhausted = false ↔
      ¬ (∃ l, c.usageLimit = some l ∧ l ≠ 0 ∧ c.usedCount ≥ l) := by
    unfold Coupon.usageExhausted
    cases c.usageLimit <;> simp
  have hb : c.belowMinimum A = false ↔
      ¬ (∃ m, c.minimumAmount = some m ∧ m ≠ 0 ∧ A < m) := by
    unfold Coupon.belowMinimum
    cases c.minimumAmount <;> simp
  refine ⟨?_, fun hnow => ?_⟩
  · rw [isValid_valid_iff, he, hu, hb]
  · rw [isValid_valid_iff]
    simp [Coupon.expiredAt, hnow]

/-- C5, witness: a coupon expiring at time 1000 is still valid at time 1000. -/
theorem C5_isValid_iff_witness : (expiring.isValid 1000 50).valid = true :=
  ((C5_isValid_iff expiring 1000 50).2 rfl).mpr
    (by simp [expiring, Coupon.usageExhausted, Coupon.belowMinimum])

/-! ### C6: the message of a rejection -/

/-- C6: a rejection carries the message of the first failing check, in the
order inactive, expired, usage limit exhausted, below minimum. An inactive
coupon gets the inactive message whatever its other fields; an active,
unexpired coupon with usageLimit 1 and usedCount 1 gets the
usage-limit-exhausted message whatever the order amount, also below the
minimum; the below-minimum message contains the minimumAmount value. -/
theorem C6_first_failure_message (c : Coupon) (now : ℤ) (A : ℚ) :
    (c.isActive = false →
      c.isValid now A = { valid := false, message := some .inactive }) ∧
    (c.isActive = true → c.expiredAt now = true →
      c.isValid now A = { valid := false, message := some .expired }) ∧
    (c.isActive = true → c.expiredAt now = false → c.usageExhausted = true →
      c.isValid now A = { valid := false, message := some .usageExhausted }) ∧
    (c.isActive = true → c.expiredAt now = false → c.usageExhausted = false →
      c.belowMinimum A = true →
      ∃ m, c.minimumAmount = some m ∧
        c.isValid now A = { valid := false, message := some (.belowMinimum m) }) ∧
    ((c.isValid now A).valid = false → (c.isValid now A).message ≠ none) ∧
    (c.isActive = true → c.expiredAt now = false → c.usageLimit = some 1 → c.usedCount = 1 →
      c.isValid now A = { valid := false, message := some .usageExhausted }) ∧
    (usedUp.belowMinimum 100 = true ∧
      usedUp.isValid 0 100 = { valid := false, message := some .usageExhausted }) ∧
    (∀ (fmt : ℚ → String) (m : ℚ), ∃ before after : String,
      (CouponMessage.belowMinimum m).text fmt = before ++ fmt m ++ after) := by
  refine ⟨?_, ?_, ?_, ?_, ?_, ?_, ?_, ?_⟩
  · intro h1
    simp [Coupon.isValid, h1]
  · intro h1 h2
    simp [Coupon.isValid, h1, h2]
  · intro h1 h2 h3
    simp [Coupon.isValid, h1, h2, h3]
  · intro h1 h2 h3 h4
    cases hm : c.minimumAmount with
    | none => simp [Coupon.belowMinimum, hm] at h4
    | some m => exact ⟨m, rfl, by simp [Coupon.isValid, h1, h2, h3, h4, hm]⟩
  · unfold Coupon.isValid
    cases c.isActive <;> cases c.expiredAt now <;> cases c.usageExhausted <;>
      cases c.belowMinimum A <;> simp
  · intro h1 h2 h3 h4
    have h5 : c.usageExhausted = true := by
      simp [Coupon.usageExhausted, h3, h4]
    simp [Coupon.isValid, h1, h2, h5]
  · constructor
    · norm_num [usedUp, Coupon.belowMinimum]
    · norm_num [usedUp, Coupon.isValid, Coupon.expiredAt, Coupon.usageExhausted]
  · intro fmt m
    exact ⟨"الحد الأدنى للطلب ", " ر.س", rfl⟩

/-- C6, witness: the coupon used once out of a limit of one, on an order of 100
that is also below its minimum of 500. -/
theorem C6_first_failure_message_witness :
    usedUp.isValid 0 100 = { valid := false, message := some .usageExhausted } :=
  (C6_first_failure_message usedUp 0 100).2.2.2.2.2.1 rfl rfl rfl rfl

/-! ### C7: the derivation of the pre-save hook -/

theorem foldl_add_eq_sum {α : Type} (f : α → ℚ) (l : List α) (a : ℚ) :
    l.foldl (fun sum x => sum + f x) a = a + (l.map f).sum := by
  induction l generalizing a with
  | nil => simp
  | cons x xs ih => simp [List.foldl_cons, ih, add_assoc]

theorem sumTotalPrice_eq_sum (items : List OrderItem) :
    sumTotalPrice items = (items.map (fun it => it.totalPrice.getD 0)).sum := by
  unfold sumTotalPrice
  rw [foldl_add_eq_sum]
  simp

theorem requestSubtotal_eq_sum (items : List OrderItem) :
    requestSubtotal items = (items.map (fun it => it.price * it.quantity)).sum := by
  unfold requestSubtotal
  rw [foldl_add_eq_sum]
  simp

/-- C7: when no item totalPrice, no subtotal and no total is supplied, the
pre-save hook sets every item's totalPrice to price * quantity, the subtotal to
the sum of the item totalPrice values and the total to
subtotal + deliveryFee - discount - couponDiscount; the two items
85.50 x 2 and 120.00 x 1 with deliveryFee 25 and couponDiscount 20 are saved
with subtotal 291 and total 296. -/
theorem C7_preSave_derives (orders : List Order) (isNew : Bool) (now : ℤ) (o : Order)
    (hitems : ∀ it ∈ o.items, it.totalPrice = none)
    (hsub : o.subtotal = none) (htot : o.total = none) :
    (o.preSave orders isNew now).items
      = o.items.map (fun it => { it with totalPrice := some (it.price * it.quantity) }) ∧
    (o.preSave orders isNew now).subtotal
      = some (((o.preSave orders isNew now).items.map (fun it => it.totalPrice.getD 0)).sum) ∧
    (o.preSave orders isNew now).total
      = some (((o.preSave orders isNew now).items.map (fun it => it.totalPrice.getD 0)).sum
          + o.deliveryFee - o.discount - o.couponDiscount) ∧
    (∃ saved stored, Order.save [] 0 sampleOrder = .ok (stored, saved) ∧
      saved.subtotal = some 291 ∧ saved.total = some 296) := by
  have hmap : o.items.map OrderItem.fillTotalPrice
      = o.items.map (fun it => { it with totalPrice := some (it.price * it.quantity) }) := by
    apply List.map_congr_left
    intro it hit
    simp [OrderItem.fillTotalPrice, hitems it hit, truthy]
  refine ⟨?_, ?_, ?_, ?_⟩
  · simp [Order.preSave, hmap]
  · simp [Order.preSave, hsub, truthy, sumTotalPrice_eq_sum]
  · simp [Order.preSave, hsub, htot, truthy, sumTotalPrice_eq_sum]
  · refine ⟨sampleOrder.preSave [] true 0, [sampleOrder.preSave [] true 0], ?_, ?_, ?_⟩
    · have hv : sampleOrder.schemaValid = true := by
        simp [sampleOrder, Order.schemaValid, OrderItem.schemaValid, orderStatuses,
          paymentMethods, paymentStatuses]
      simp [Order.save, hv]
    · norm_num [sampleOrder, Order.preSave, truthy, sumTotalPrice, OrderItem.fillTotalPrice]
    · norm_num [sampleOrder, Order.preSave, truthy, sumTotalPrice, OrderItem.fillTotalPrice]

/-- C7, witness: the sample order. -/
theorem C7_preSave_derives_witness :
    (sampleOrder.preSave [] true 0).total
      = some ((((sampleOrder.preSave [] true 0).items.map
          (fun it => it.totalPrice.getD 0)).sum)
          + sampleOrder.deliveryFee - sampleOrder.discount - sampleOrder.couponDiscount) :=
  (C7_preSave_derives [] true 0 sampleOrder
    (by simp [sampleOrder]) rfl rfl).2.2.1

/-! ### The coupon block and the handler, case by case -/

theorem calculateDiscount_error_isNone (c : Coupon) (now : ℤ) (A : ℚ) :
    (c.calculateDiscount now A).error.isNone = (c.isValid now A).valid := by
  unfold Coupon.calculateDiscount Coupon.isValid
  cases c.isActive <;> cases c.expiredAt now <;> cases c.usageExhausted <;>
    cases c.belowMinimum A <;> simp

theorem applyCoupon_no_code (coupons : List Coupon) (now : ℤ) (req : OrderRequest)
    (hcode : req.couponCode = "") : applyCoupon coupons now req = .ok (coupons, 0) := by
  simp [applyCoupon, hcode]

theorem applyCoupon_not_found (coupons : List Coupon) (now : ℤ) (req : OrderRequest)
    (hfind : coupons.find? (couponMatches req.couponCode) = none) :
    applyCoupon coupons now req = .ok (coupons, 0) := by
  simp [applyCoupon, hfind]

theorem applyCoupon_invalid (coupons : List Coupon) (now : ℤ) (req : OrderRequest)
    (c : Coupon) (hfind : coupons.find? (couponMatches req.couponCode) = some c)
    (hv : (c.isValid now (requestSubtotal req.items)).valid = false) :
    applyCoupon coupons now req = .ok (coupons, 0) := by
  simp [applyCoupon, hfind, calculateDiscount_error_isNone, hv]

theorem applyCoupon_rejected (coupons : List Coupon) (now : ℤ) (req : OrderRequest)
    (c : Coupon) (hcode : req.couponCode ≠ "")
    (hfind : coupons.find? (couponMatches req.couponCode) = some c)
    (hv : (c.isValid now (requestSubtotal req.items)).valid = true)
    (hs : ({ c with usedCount := c.usedCount + 1 } : Coupon).schemaValid = false) :
    applyCoupon coupons now req = .error .couponValidation := by
  simp [applyCoupon, hfind, calculateDiscount_error_isNone, hv, hcode, hs]

theorem applyCoupon_applied (coupons : List Coupon) (now : ℤ) (req : OrderRequest)
    (c : Coupon) (hcode : req.couponCode ≠ "")
    (hfind : coupons.find? (couponMatches req.couponCode) = some c)
    (hv : (c.isValid now (requestSubtotal req.items)).valid = true)
    (hs : ({ c with usedCount := c.usedCount + 1 } : Coupon).schemaValid = true) :
    applyCoupon coupons now req
      = .ok (replaceFirst (couponMatches req.couponCode)
              { c with usedCount := c.usedCount + 1, updatedAt := now } coupons,
             (c.calculateDiscount now (requestSubtotal req.items)).discount) := by
  simp [applyCoupon, hfind, calculateDiscount_error_isNone, hv, hcode, hs]

theorem postOrders_coupon_error (db : Db) (now : ℤ) (req : OrderRequest) (e : SaveError)
    (h : applyCoupon db.coupons now req = .error e) :
    postOrders db now req = (db, .error e) := by
  simp [postOrders, h]

theorem newOrder_schemaValid (now : ℤ) (req : OrderRequest) (d : ℚ) :
    (newOrder now req d).schemaValid = (newOrder now req 0).schemaValid := rfl

theorem postOrders_order_error (db : Db) (now : ℤ) (req : OrderRequest)
    (cs : List Coupon) (d : ℚ) (h : applyCoupon db.coupons now req = .ok (cs, d))
    (hs : (newOrder now req 0).schemaValid = false) :
    postOrders db now req = ({ db with coupons := cs }, .error .orderValidation) := by
  have hs2 : (newOrder now req d).schemaValid = false := by rw [newOrder_schemaValid]; exact hs
  simp [postOrders, h, Order.save, hs2]

theorem postOrders_ok (db : Db) (now : ℤ) (req : OrderRequest)
    (cs : List Coupon) (d : ℚ) (h : applyCoupon db.coupons now req = .ok (cs, d))
    (hs : (newOrder now req 0).schemaValid = true) :
    postOrders db now req
      = ({ orders := db.orders ++ [(newOrder now req d).preSave db.orders true now]
           coupons := cs
           carts := db.carts.filter
             (fun c => c.userId ≠ (if req.userId ≠ "" then req.userId else "guest")) },
         .ok ((newOrder now req d).preSave db.orders true now)) := by
  have hs2 : (newOrder now req d).schemaValid = true := by rw [newOrder_schemaValid]; exact hs
  simp [postOrders, h, Order.save, hs2]

/-! ### C1: the stored total -/


theorem preSave_total_of_falsy (orders : List Order) (isNew : Bool) (now : ℤ) (o : Order)
    (h : truthy o.total = false) :
    (o.preSave orders isNew now).total
      = some ((o.preSave orders isNew now).subtotal.getD 0
          + (o.preSave orders isNew now).deliveryFee - (o.preSave orders isNew now).discount
          - (o.preSave orders isNew now).couponDiscount) := by
  simp [Order.preSave, h]

theorem preSave_total_of_truthy (orders : List Order) (isNew : Bool) (now : ℤ) (o : Order)
    (h : truthy o.total = true) : (o.preSave orders isNew now).total = o.total := by
  cases ht : o.total with
  | none => simp [ht, truthy] at h
  | some v =>
    rw [ht] at h
    simp [Order.preSave, h, ht]

theorem postOrders_result (db : Db) (now : ℤ) (req : OrderRequest) (order : Order)
    (h : (postOrders db now req).2 = .ok order) :
    ∃ cs d, applyCoupon db.coupons now req = .ok (cs, d) ∧
      (newOrder now req 0).schemaValid = true ∧
      order = (newOrder now req d).preSave db.orders true now := by
  cases ha : applyCoupon db.coupons now req with
  | error e => rw [postOrders_coupon_error db now req e ha] at h; cases h
  | ok r =>
    obtain ⟨cs, d⟩ := r
    cases hs : (newOrder now req 0).schemaValid with
    | false => rw [postOrders_order_error db now req cs d ha hs] at h; cases h
    | true =>
      rw [postOrders_ok db now req cs d ha hs] at h
      simp only [Except.ok.injEq] at h
      exact ⟨cs, d, rfl, rfl, h.symm⟩

theorem postCheckout_result (db : Db) (now : ℤ) (req : CheckoutRequest) (order : Order)
    (h : (postCheckout db now req).2 = .ok order) :
    order = (checkoutOrder now req).preSave db.orders true now ∧
      (postCheckout db now req).1.orders = db.orders ++ [order] := by
  unfold postCheckout Order.save at *
  cases hs : (checkoutOrder now req).schemaValid with
  | false => simp [hs] at h
  | true =>
    simp only [hs, Bool.not_true, Bool.false_eq_true, if_false, Except.ok.injEq] at h ⊢
    exact ⟨h.symm, by rw [h]⟩

/-- C1, counterexample: (a) POST /api/checkout with a caller-supplied total of 1
for one item of 100 persists total 1 beside subtotal 100; (b) POST /api/orders
for one item of 99.999 with the fixed coupon of 100 persists the total -0.001:
the total is not clamped at 0. -/
theorem C1_counterexample :
    (∃ order, (postCheckout {} 0 checkoutWithTotal).2 = .ok order ∧
      order ∈ (postCheckout {} 0 checkoutWithTotal).1.orders ∧
      order.subtotal = some 100 ∧ order.deliveryFee = 0 ∧ order.discount = 0 ∧
      order.couponDiscount = 0 ∧ order.total = some 1 ∧
      order.total ≠ some (max 0 (100 + 0 - 0 - 0))) ∧
    (∃ order, (postOrders fixedStore 0 fixedRequest).2 = .ok order ∧
      order ∈ (postOrders fixedStore 0 fixedRequest).1.orders ∧
      order.subtotal = some (99999 / 1000) ∧ order.deliveryFee = 0 ∧ order.discount = 0 ∧
      order.couponDiscount = 100 ∧ order.total = some (-1 / 1000) ∧
      order.total ≠ some (max 0 (99999 / 1000 + 0 - 0 - 100))) := by
  constructor
  · have hv : (checkoutOrder 0 checkoutWithTotal).schemaValid = true := by
      simp [checkoutOrder, checkoutWithTotal, Order.schemaValid, OrderItem.schemaValid,
        CheckoutItem.toOrderItem, orderStatuses, paymentMethods, paymentStatuses]
    refine ⟨(checkoutOrder 0 checkoutWithTotal).preSave [] true 0, ?_, ?_, ?_⟩
    · simp [postCheckout, Order.save, hv]
    · simp [postCheckout, Order.save, hv]
    · norm_num [checkoutOrder, checkoutWithTotal, Order.preSave, truthy, orZero,
        CheckoutItem.toOrderItem, sumTotalPrice]
  · have hfind : fixedStore.coupons.find? (couponMatches fixedRequest.couponCode)
        = some (fixedCoupon 100) := by
      have h1 : couponMatches fixedRequest.couponCode (fixedCoupon 100) = true := by decide
      simp [fixedStore, List.find?, h1]
    have hvalid : ((fixedCoupon 100).isValid 0 (requestSubtotal fixedRequest.items)).valid
        = true := by
      norm_num [fixedCoupon, fixedRequest, requestSubtotal, Coupon.isValid,
        Coupon.expiredAt, Coupon.usageExhausted, Coupon.belowMinimum]
    have hschema : ({ fixedCoupon 100 with usedCount := (fixedCoupon 100).usedCount + 1 } :
        Coupon).schemaValid = true := by
      norm_num [fixedCoupon, Coupon.schemaValid]
      decide
    have hdisc : ((fixedCoupon 100).calculateDiscount 0
        (requestSubtotal fixedRequest.items)).discount = 100 := by
      norm_num [fixedCoupon, fixedRequest, requestSubtotal, Coupon.calculateDiscount,
        Coupon.isValid, Coupon.expiredAt, Coupon.usageExhausted, Coupon.belowMinimum,
        Coupon.rawDiscount, round2, mathRound, fixed_ne_percentage]
    have happ := applyCoupon_applied fixedStore.coupons 0 fixedRequest (fixedCoupon 100)
      (by decide) hfind hvalid hschema
    rw [hdisc] at happ
    have hord : (newOrder 0 fixedRequest 0).schemaValid = true := by
      simp [newOrder, fixedRequest, Order.schemaValid, OrderItem.schemaValid,
        orderStatuses, paymentMethods, paymentStatuses]
    rw [postOrders_ok fixedStore 0 fixedRequest _ _ happ hord]
    refine ⟨(newOrder 0 fixedRequest 100).preSave fixedStore.orders true 0, rfl, ?_, ?_⟩
    · simp
    · norm_num [newOrder, fixedRequest, Order.preSave, truthy, sumTotalPrice,
        OrderItem.fillTotalPrice]

theorem plainRequest_ok :
    (postOrders {} 0 plainRequest).2 = .ok ((newOrder 0 plainRequest 0).preSave [] true 0) := by
  have hord : (newOrder 0 plainRequest 0).schemaValid = true := by
    simp [newOrder, plainRequest, Order.schemaValid, OrderItem.schemaValid,
      orderStatuses, paymentMethods, paymentStatuses]
  rw [postOrders_ok {} 0 plainRequest [] 0 (applyCoupon_no_code _ _ _ rfl) hord]

/-- C1, amended: the pre-save hook derives the total only when none (or 0) was
supplied to the model, and then the stored total equals
subtotal + deliveryFee - discount - couponDiscount without any clamp at 0; a
non-zero total supplied to the model is stored unchanged. Hence every order
persisted by POST /api/orders satisfies the equation; POST /api/checkout stores
a non-zero caller-supplied total as supplied, and satisfies the equation when
the caller supplies no non-zero total and the subtotal the handler passes to
the model is non-zero. -/
theorem C1_stored_total :
    (∀ (orders : List Order) (isNew : Bool) (now : ℤ) (o : Order),
      (truthy o.total = false →
        (o.preSave orders isNew now).total
          = some ((o.preSave orders isNew now).subtotal.getD 0
              + (o.preSave orders isNew now).deliveryFee
              - (o.preSave orders isNew now).discount
              - (o.preSave orders isNew now).couponDiscount)) ∧
      (truthy o.total = true → (o.preSave orders isNew now).total = o.total)) ∧
    (∀ (db : Db) (now : ℤ) (req : OrderRequest) (order : Order),
      (postOrders db now req).2 = .ok order →
        order ∈ (postOrders db now req).1.orders ∧
        order.total
          = some (order.subtotal.getD 0 + order.deliveryFee - order.discount
              - order.couponDiscount)) ∧
    (∀ (db : Db) (now : ℤ) (req : CheckoutRequest) (order : Order),
      (postCheckout db now req).2 = .ok order →
        order ∈ (postCheckout db now req).1.orders ∧
        (truthy req.total = true → order.total = req.total) ∧
        (truthy req.total = false → truthy (checkoutOrder now req).subtotal = true →
          order.total
            = some (order.subtotal.getD 0 + order.deliveryFee - order.discount
                - order.couponDiscount))) := by
  refine ⟨fun orders isNew now o => ⟨preSave_total_of_falsy orders isNew now o,
    preSave_total_of_truthy orders isNew now o⟩, ?_, ?_⟩
  · intro db now req order h
    obtain ⟨cs, d, ha, hs, ho⟩ := postOrders_result db now req order h
    constructor
    · rw [postOrders_ok db now req cs d ha hs, ho]
      simp
    · rw [ho]
      exact preSave_total_of_falsy _ _ _ _ rfl
  · intro db now req order h
    obtain ⟨ho, hmem⟩ := postCheckout_result db now req order h
    refine ⟨by rw [hmem]; simp, ?_, ?_⟩
    · intro ht
      cases hv : req.total with
      | none => simp [hv, truthy] at ht
      | some v =>
        rw [hv] at ht
        have hv0 : v ≠ 0 := by simpa [truthy] using ht
        rw [ho]
        simp [Order.preSave, checkoutOrder, hv, truthy, hv0]
    · intro ht hsub
      have hsub2 : truthy (some (if truthy req.subtotal = true then req.subtotal.getD 0
          else sumTotalPrice (req.items.map CheckoutItem.toOrderItem))) = true := hsub
      rw [ho]
      simp only [Order.preSave, checkoutOrder, ht, hsub2]
      by_cases h0 : truthy (some (
          (if truthy req.subtotal = true then req.subtotal.getD 0
            else sumTotalPrice (req.items.map CheckoutItem.toOrderItem))
          + orZero req.deliveryFee - orZero req.couponDiscount)) = true
      · simp [h0]
      · simp [h0]

/-- C1, witness: the order persisted by POST /api/orders for one item of 100. -/
theorem C1_stored_total_witness :
    ((newOrder 0 plainRequest 0).preSave [] true 0).total
      = some (((newOrder 0 plainRequest 0).preSave [] true 0).subtotal.getD 0
          + ((newOrder 0 plainRequest 0).preSave [] true 0).deliveryFee
          - ((newOrder 0 plainRequest 0).preSave [] true 0).discount
          - ((newOrder 0 plainRequest 0).preSave [] true 0).couponDiscount) :=
  (C1_stored_total.2.1 {} 0 plainRequest _ plainRequest_ok).2

/-! ### C8 to C10: the usage counter of the coupon -/

theorem postOrders_coupons (db : Db) (now : ℤ) (req : OrderRequest) :
    (postOrders db now req).1.coupons
      = match applyCoupon db.coupons now req with
        | .ok (cs, _) => cs
        | .error _ => db.coupons := by
  cases ha : applyCoupon db.coupons now req with
  | error e => rw [postOrders_coupon_error db now req e ha]
  | ok r =>
    obtain ⟨cs, d⟩ := r
    cases hs : (newOrder now req 0).schemaValid with
    | false => rw [postOrders_order_error db now req cs d ha hs]
    | true => rw [postOrders_ok db now req cs d ha hs]

/-- The coupon block either leaves the coupons alone or replaces the coupon
found, valid on the order and accepted by its schema, by its increment. -/
theorem postOrders_coupons_cases (db : Db) (now : ℤ) (req : OrderRequest) :
    ((postOrders db now req).1.coupons = db.coupons ∧
      ¬ (∃ c, req.couponCode ≠ "" ∧
          db.coupons.find? (couponMatches req.couponCode) = some c ∧
          (c.isValid now (requestSubtotal req.items)).valid = true ∧
          ({ c with usedCount := c.usedCount + 1 } : Coupon).schemaValid = true)) ∨
    (∃ c, req.couponCode ≠ "" ∧
      db.coupons.find? (couponMatches req.couponCode) = some c ∧
      (c.isValid now (requestSubtotal req.items)).valid = true ∧
      ({ c with usedCount := c.usedCount + 1 } : Coupon).schemaValid = true ∧
      (postOrders db now req).1.coupons
        = replaceFirst (couponMatches req.couponCode)
            { c with usedCount := c.usedCount + 1, updatedAt := now } db.coupons) := by
  rw [postOrders_coupons]
  by_cases hcode : req.couponCode = ""
  · left
    rw [applyCoupon_no_code _ _ _ hcode]
    exact ⟨rfl, fun ⟨c, h, _⟩ => h hcode⟩
  · cases hfind : db.coupons.find? (couponMatches req.couponCode) with
    | none =>
      left
      rw [applyCoupon_not_found _ _ _ hfind]
      exact ⟨rfl, fun ⟨c, _, h, _⟩ => by cases h⟩
    | some c =>
      cases hv : (c.isValid now (requestSubtotal req.items)).valid with
      | false =>
        left
        rw [applyCoupon_invalid _ _ _ c hfind hv]
        refine ⟨rfl, fun ⟨c2, _, h, h2, _⟩ => ?_⟩
        cases h
        rw [hv] at h2
        cases h2
      | true =>
        cases hs : ({ c with usedCount := c.usedCount + 1 } : Coupon).schemaValid with
        | false =>
          left
          rw [applyCoupon_rejected _ _ _ c hcode hfind hv hs]
          refine ⟨rfl, fun ⟨c2, _, h, _, h2⟩ => ?_⟩
          cases h
          rw [hs] at h2
          cases h2
        | true =>
          right
          rw [applyCoupon_applied _ _ _ c hcode hfind hv hs]
          exact ⟨c, hcode, rfl, hv, hs, rfl⟩

theorem replaceFirst_of_find {α : Type} (p : α → Bool) (new : α) (l : List α) (c : α)
    (h : l.find? p = some c) :
    ∃ before after, l = before ++ c :: after ∧ (∀ x ∈ before, p x = false) ∧
      replaceFirst p new l = before ++ new :: after := by
  induction l with
  | nil => simp at h
  | cons x xs ih =>
    by_cases hp : p x = true
    · have hx : x = c := by simpa [List.find?, hp] using h
      exact ⟨[], xs, by simp [hx], by simp, by simp [replaceFirst, hp]⟩
    · have hp2 : p x = false := by simpa using hp
      have h2 : xs.find? p = some c := by simpa [List.find?, hp2] using h
      obtain ⟨before, after, h3, h4, h5⟩ := ih h2
      refine ⟨x :: before, after, by simp [h3], ?_, by simp [replaceFirst, hp2, h5]⟩
      intro y hy
      rcases List.mem_cons.mp hy with rfl | hy
      · exact hp2
      · exact h4 y hy

theorem replaceFirst_getElem? {α : Type} (p : α → Bool) (new : α) (l : List α) (c : α)
    (h : l.find? p = some c) (i : ℕ) :
    (replaceFirst p new l)[i]? = l[i]? ∨
      (l[i]? = some c ∧ (replaceFirst p new l)[i]? = some new) := by
  induction l generalizing i with
  | nil => simp at h
  | cons x xs ih =>
    by_cases hp : p x = true
    · have hx : x = c := by simpa [List.find?, hp] using h
      cases i with
      | zero => right; subst hx; simp [replaceFirst, hp]
      | succ j => left; simp [replaceFirst, hp]
    · have hp2 : p x = false := by simpa using hp
      have h2 : xs.find? p = some c := by simpa [List.find?, hp2] using h
      cases i with
      | zero => left; simp [replaceFirst, hp2]
      | succ j => simpa [replaceFirst, hp2] using ih h2 j

theorem codeRequest_schemaValid (couponCode : String) :
    (newOrder 0 (codeRequest couponCode) 0).schemaValid = true := by
  simp [newOrder, codeRequest, Order.schemaValid, OrderItem.schemaValid,
    orderStatuses, paymentMethods, paymentStatuses]

/-- C8, counterexample: the order request with the code FIXED and no address
fails at the validation of the order, no order is persisted, and the usedCount
of the coupon has gone from 0 to 1. -/
theorem C8_counterexample :
    (postOrders tenStore 0 noAddressRequest).2 = .error .orderValidation ∧
    (postOrders tenStore 0 noAddressRequest).1.orders = [] ∧
    tenStore.coupons.map (fun c => c.usedCount) = [0] ∧
    (postOrders tenStore 0 noAddressRequest).1.coupons.map (fun c => c.usedCount) = [1] := by
  have h1 : couponMatches noAddressRequest.couponCode (fixedCoupon 10) = true := by decide
  have hfind : tenStore.coupons.find? (couponMatches noAddressRequest.couponCode)
      = some (fixedCoupon 10) := by
    simp [tenStore, List.find?, h1]
  have hvalid : ((fixedCoupon 10).isValid 0 (requestSubtotal noAddressRequest.items)).valid
      = true := by
    norm_num [fixedCoupon, noAddressRequest, requestSubtotal, Coupon.isValid,
      Coupon.expiredAt, Coupon.usageExhausted, Coupon.belowMinimum]
  have hschema : ({ fixedCoupon 10 with usedCount := (fixedCoupon 10).usedCount + 1 } :
      Coupon).schemaValid = true := by
    norm_num [fixedCoupon, Coupon.schemaValid]
    decide
  have happ := applyCoupon_applied tenStore.coupons 0 noAddressRequest (fixedCoupon 10)
    (by decide) hfind hvalid hschema
  have hord : (newOrder 0 noAddressRequest 0).schemaValid = false := by
    simp [newOrder, noAddressRequest, Order.schemaValid]
  rw [postOrders_order_error tenStore 0 noAddressRequest _ _ happ hord]
  refine ⟨rfl, rfl, by simp [tenStore, fixedCoupon], ?_⟩
  simp only [tenStore, replaceFirst, h1, if_true, List.map]
  norm_num [fixedCoupon]

/-- C8, amended: when POST /api/orders fails, no order is persisted and the
carts are untouched. The coupons are unchanged when no coupon was applied (no
code, no matching active coupon, an invalid evaluation) or when the save of the
coupon itself was rejected; but when the matching coupon evaluated valid and
the order then fails its validation (e.g. a missing address or city), the
coupon keeps the usedCount incremented by 1: the increment is persisted before
the order is saved and is not undone. -/
theorem C8_failed_order (db : Db) (now : ℤ) (req : OrderRequest) (e : SaveError)
    (h : (postOrders db now req).2 = .error e) :
    (postOrders db now req).1.orders = db.orders ∧
    (postOrders db now req).1.carts = db.carts ∧
    (e = .couponValidation → (postOrders db now req).1.coupons = db.coupons) ∧
    ((req.couponCode = "" ∨ db.coupons.find? (couponMatches req.couponCode) = none ∨
        ∃ c, db.coupons.find? (couponMatches req.couponCode) = some c ∧
          (c.isValid now (requestSubtotal req.items)).valid = false) →
      (postOrders db now req).1.coupons = db.coupons) ∧
    (∀ c, req.couponCode ≠ "" →
      db.coupons.find? (couponMatches req.couponCode) = some c →
      (c.isValid now (requestSubtotal req.items)).valid = true →
      e = .orderValidation →
      (postOrders db now req).1.coupons
        = replaceFirst (couponMatches req.couponCode)
            { c with usedCount := c.usedCount + 1, updatedAt := now } db.coupons) := by
  have hframe : (postOrders db now req).1.orders = db.orders ∧
      (postOrders db now req).1.carts = db.carts ∧
      (e = .couponValidation → (postOrders db now req).1.coupons = db.coupons) := by
    cases ha : applyCoupon db.coupons now req with
    | error e2 =>
      rw [postOrders_coupon_error db now req e2 ha]
      exact ⟨rfl, rfl, fun _ => rfl⟩
    | ok r =>
      obtain ⟨cs, d⟩ := r
      cases hs : (newOrder now req 0).schemaValid with
      | false =>
        rw [postOrders_order_error db now req cs d ha hs] at h ⊢
        refine ⟨rfl, rfl, fun he => ?_⟩
        rw [he] at h
        cases h
      | true =>
        rw [postOrders_ok db now req cs d ha hs] at h
        cases h
  refine ⟨hframe.1, hframe.2.1, hframe.2.2, ?_, ?_⟩
  · intro hno
    rcases postOrders_coupons_cases db now req with ⟨h1, _⟩ | ⟨c, hcode, hfind, hv, _, _⟩
    · exact h1
    · rcases hno with h2 | h2 | ⟨c2, h2, h3⟩
      · exact absurd h2 hcode
      · rw [hfind] at h2; cases h2
      · rw [hfind] at h2
        cases h2
        rw [hv] at h3
        cases h3
  · intro c hcode hfind hv he
    rw [postOrders_coupons]
    cases hs : ({ c with usedCount := c.usedCount + 1 } : Coupon).schemaValid with
    | false =>
      have ha := applyCoupon_rejected _ _ _ c hcode hfind hv hs
      rw [postOrders_coupon_error db now req _ ha, he] at h
      cases h
    | true => rw [applyCoupon_applied _ _ _ c hcode hfind hv hs]

/-- C8, witness: the order request without a coupon code and without address
fails and leaves the coupons unchanged. -/
theorem C8_failed_order_witness :
    (postOrders tenStore 0 { noAddressRequest with couponCode := "" }).1.coupons
      = tenStore.coupons :=
  (C8_failed_order tenStore 0 { noAddressRequest with couponCode := "" } .orderValidation
    (by
      have hord : (newOrder 0 { noAddressRequest with couponCode := "" } 0).schemaValid
          = false := by
        simp [newOrder, noAddressRequest, Order.schemaValid]
      rw [postOrders_order_error tenStore 0 _ _ _ (applyCoupon_no_code _ _ _ rfl) hord])).2.2.2.1
    (Or.inl rfl)

/-- C9, counterexample: a coupon with usageLimit 1 and usedCount 1/2 satisfies
usedCount <= usageLimit; it is valid (1/2 < 1), the order is created, and the
coupon is stored with usedCount 3/2, above its limit. -/
theorem C9_counterexample :
    halfUsed.usageLimit = some 1 ∧ halfUsed.usedCount ≤ 1 ∧
    (∃ order, (postOrders halfStore 0 (codeRequest "HALF")).2 = .ok order) ∧
    (∃ c, (postOrders halfStore 0 (codeRequest "HALF")).1.coupons = [c] ∧
      c.usageLimit = some 1 ∧ c.usedCount = 3 / 2 ∧ ¬ (c.usedCount ≤ 1)) := by
  have h1 : couponMatches (codeRequest "HALF").couponCode halfUsed = true := by decide
  have hfind : halfStore.coupons.find? (couponMatches (codeRequest "HALF").couponCode)
      = some halfUsed := by
    simp [halfStore, List.find?, h1]
  have hvalid : (halfUsed.isValid 0 (requestSubtotal (codeRequest "HALF").items)).valid
      = true := by
    norm_num [halfUsed, codeRequest, requestSubtotal, Coupon.isValid,
      Coupon.expiredAt, Coupon.usageExhausted, Coupon.belowMinimum]
  have hschema : ({ halfUsed with usedCount := halfUsed.usedCount + 1 } :
      Coupon).schemaValid = true := by
    norm_num [halfUsed, Coupon.schemaValid]
    decide
  have happ := applyCoupon_applied halfStore.coupons 0 (codeRequest "HALF") halfUsed
    (by decide) hfind hvalid hschema
  rw [postOrders_ok halfStore 0 (codeRequest "HALF") _ _ happ (codeRequest_schemaValid _)]
  refine ⟨rfl, by norm_num [halfUsed], ⟨_, rfl⟩, ?_⟩
  refine ⟨{ halfUsed with usedCount := halfUsed.usedCount + 1, updatedAt := 0 }, ?_, rfl, ?_, ?_⟩
  · simp only [halfStore, replaceFirst, h1, if_true]
  · norm_num [halfUsed]
  · norm_num [halfUsed]

/-- C9, amended: POST /api/orders preserves usedCount <= usageLimit for every
stored coupon whose usageLimit is set and whose usedCount and usageLimit are
whole numbers: such a coupon keeps its usageLimit and, if usedCount <=
usageLimit held before the request, it holds afterwards. -/
theorem C9_usage_limit_preserved (db : Db) (now : ℤ) (req : OrderRequest)
    (i : ℕ) (c : Coupon) (l : ℚ) (n k : ℤ)
    (hc : db.coupons[i]? = some c) (hl : c.usageLimit = some l)
    (hn : c.usedCount = (n : ℚ)) (hk : l = (k : ℚ)) (hinv : c.usedCount ≤ l) :
    ∃ c1, (postOrders db now req).1.coupons[i]? = some c1 ∧
      c1.usageLimit = some l ∧ c1.usedCount ≤ l := by
  rcases postOrders_coupons_cases db now req with ⟨h1, _⟩ | ⟨cf, _, hfind, hv, hs, h1⟩
  · exact ⟨c, by rw [h1]; exact hc, hl, hinv⟩
  · rcases replaceFirst_getElem? (couponMatches req.couponCode)
        { cf with usedCount := cf.usedCount + 1, updatedAt := now } db.coupons cf hfind i
      with h2 | ⟨h2, h3⟩
    · exact ⟨c, by rw [h1, h2]; exact hc, hl, hinv⟩
    · have hcf : cf = c := by
        rw [hc] at h2
        exact (Option.some.inj h2).symm
      subst hcf
      refine ⟨{ cf with usedCount := cf.usedCount + 1, updatedAt := now },
        by rw [h1]; exact h3, hl, ?_⟩
      have hex : cf.usageExhausted = false := ((isValid_valid_iff cf now _).mp hv).2.2.1
      have hl1 : (1 : ℚ) ≤ l := by
        simp only [Coupon.schemaValid, hl, Bool.and_eq_true, decide_eq_true_eq] at hs
        exact hs.2
      have hlt : cf.usedCount < l := by
        simp only [Coupon.usageExhausted, hl, Bool.and_eq_false_iff, decide_eq_false_iff_not,
          not_not, ge_iff_le, not_le] at hex
        rcases hex with h0 | h0
        · rw [h0] at hl1
          norm_num at hl1
        · exact h0
      show cf.usedCount + 1 ≤ l
      rw [hn, hk] at hlt ⊢
      have : n < k := by exact_mod_cast hlt
      have : n + 1 ≤ k := this
      exact_mod_cast this

/-- C9, witness: the coupon used 0 times out of 1 is stored with usedCount 1. -/
theorem C9_usage_limit_preserved_witness :
    ∃ c1, (postOrders { coupons := [{ halfUsed with usedCount := 0 }] } 0
        (codeRequest "HALF")).1.coupons[0]? = some c1 ∧
      c1.usageLimit = some 1 ∧ c1.usedCount ≤ 1 :=
  C9_usage_limit_preserved { coupons := [{ halfUsed with usedCount := 0 }] } 0
    (codeRequest "HALF") 0 { halfUsed with usedCount := 0 } 1 0 1 rfl rfl
    (by norm_num) (by norm_num) (by norm_num)

/-- C10, counterexample: the coupon LIMIT0 (usageLimit 0) is active, is found by
its code and evaluates valid on the order, yet its usedCount is not
incremented: the save of the coupon is rejected by the schema (usageLimit below
1) and the request fails. -/
theorem C10_counterexample :
    (codeRequest "LIMIT0").couponCode ≠ "" ∧
    zeroStore.coupons.find? (couponMatches (codeRequest "LIMIT0").couponCode)
      = some limitZero ∧
    limitZero.isActive = true ∧
    (limitZero.isValid 0 (requestSubtotal (codeRequest "LIMIT0").items)).valid = true ∧
    (postOrders zeroStore 0 (codeRequest "LIMIT0")).2 = .error .couponValidation ∧
    (postOrders zeroStore 0 (codeRequest "LIMIT0")).1.coupons = [limitZero] ∧
    limitZero.usedCount = 0 := by
  have h1 : couponMatches (codeRequest "LIMIT0").couponCode limitZero = true := by decide
  have hfind : zeroStore.coupons.find? (couponMatches (codeRequest "LIMIT0").couponCode)
      = some limitZero := by
    simp [zeroStore, List.find?, h1]
  have hvalid : (limitZero.isValid 0 (requestSubtotal (codeRequest "LIMIT0").items)).valid
      = true := by
    norm_num [limitZero, codeRequest, requestSubtotal, Coupon.isValid,
      Coupon.expiredAt, Coupon.usageExhausted, Coupon.belowMinimum]
  have hschema : ({ limitZero with usedCount := limitZero.usedCount + 1 } :
      Coupon).schemaValid = false := by
    norm_num [limitZero, Coupon.schemaValid]
  have happ := applyCoupon_rejected zeroStore.coupons 0 (codeRequest "LIMIT0") limitZero
    (by decide) hfind hvalid hschema
  rw [postOrders_coupon_error zeroStore 0 (codeRequest "LIMIT0") _ happ]
  exact ⟨by decide, hfind, rfl, hvalid, rfl, rfl, rfl⟩

/-- C10, amended: POST /api/orders increments the usedCount of exactly one
coupon by exactly 1, the first active coupon with the supplied code, when a
code is supplied, that coupon is found, its evaluation on the order is valid
and the incremented coupon passes the schema validation of its save; in every
other case the stored coupons are left unchanged. -/
theorem C10_usedCount_frame (db : Db) (now : ℤ) (req : OrderRequest) :
    (∀ c, req.couponCode ≠ "" →
      db.coupons.find? (couponMatches req.couponCode) = some c →
      (c.isValid now (requestSubtotal req.items)).valid = true →
      ({ c with usedCount := c.usedCount + 1 } : Coupon).schemaValid = true →
      ∃ before after, db.coupons = before ++ c :: after ∧
        (postOrders db now req).1.coupons
          = before ++ { c with usedCount := c.usedCount + 1, updatedAt := now } :: after) ∧
    (¬ (∃ c, req.couponCode ≠ "" ∧
        db.coupons.find? (couponMatches req.couponCode) = some c ∧
        (c.isValid now (requestSubtotal req.items)).valid = true ∧
        ({ c with usedCount := c.usedCount + 1 } : Coupon).schemaValid = true) →
      (postOrders db now req).1.coupons = db.coupons) := by
  constructor
  · intro c hcode hfind hv hs
    obtain ⟨before, after, h1, _, h3⟩ := replaceFirst_of_find (couponMatches req.couponCode)
      { c with usedCount := c.usedCount + 1, updatedAt := now } db.coupons c hfind
    refine ⟨before, after, h1, ?_⟩
    rw [postOrders_coupons, applyCoupon_applied _ _ _ c hcode hfind hv hs]
    exact h3
  · intro hno
    rcases postOrders_coupons_cases db now req with ⟨h1, _⟩ | ⟨c, hcode, hfind, hv, hs, _⟩
    · exact h1
    · exact absurd ⟨c, hcode, hfind, hv, hs⟩ hno

/-- C10, witness: the request with the code FIXED increments the fixed coupon
of 10 from 0 to 1. -/
theorem C10_usedCount_frame_witness :
    ∃ before after, tenStore.coupons = before ++ fixedCoupon 10 :: after ∧
      (postOrders tenStore 0 (codeRequest "FIXED")).1.coupons
        = before ++ { fixedCoupon 10 with
            usedCount := (fixedCoupon 10).usedCount + 1, updatedAt := 0 } :: after :=
  (C10_usedCount_frame tenStore 0 (codeRequest "FIXED")).1 (fixedCoupon 10)
    (by decide)
    (by
      have h1 : couponMatches (codeRequest "FIXED").couponCode (fixedCoupon 10) = true := by
        decide
      simp [tenStore, List.find?, h1])
    (by
      norm_num [fixedCoupon, codeRequest, requestSubtotal, Coupon.isValid,
        Coupon.expiredAt, Coupon.usageExhausted, Coupon.belowMinimum])
    (by
      norm_num [fixedCoupon, Coupon.schemaValid]
      decide)

/-! ### C11: the amount the coupon is evaluated on -/

theorem fillTotalPrice_totalPrice (it : OrderItem) :
    it.fillTotalPrice.totalPrice
      = if truthy it.totalPrice = true then it.totalPrice else some (it.price * it.quantity) := by
  unfold OrderItem.fillTotalPrice
  cases h : truthy it.totalPrice <;> simp

theorem fillTotalPrice_price_quantity (it : OrderItem) :
    it.fillTotalPrice.price = it.price ∧ it.fillTotalPrice.quantity = it.quantity := by
  unfold OrderItem.fillTotalPrice
  cases h : truthy it.totalPrice <;> simp

theorem preSave_newOrder_fields (orders : List Order) (now : ℤ) (req : OrderRequest) (d : ℚ) :
    ((newOrder now req d).preSave orders true now).couponDiscount = d ∧
    ((newOrder now req d).preSave orders true now).items
      = req.items.map OrderItem.fillTotalPrice ∧
    ((newOrder now req d).preSave orders true now).subtotal
      = some (sumTotalPrice (req.items.map OrderItem.fillTotalPrice)) := by
  simp [Order.preSave, newOrder, truthy]

/-- The order persisted by `POST /api/orders` when the coupon found is valid:
its couponDiscount is the discount of that coupon on the request subtotal. -/
theorem postOrders_couponDiscount (db : Db) (now : ℤ) (req : OrderRequest) (c : Coupon)
    (order : Order) (hcode : req.couponCode ≠ "")
    (hfind : db.coupons.find? (couponMatches req.couponCode) = some c)
    (hv : (c.isValid now (requestSubtotal req.items)).valid = true)
    (hok : (postOrders db now req).2 = .ok order) :
    order = (newOrder now req
      (c.calculateDiscount now (requestSubtotal req.items)).discount).preSave
        db.orders true now := by
  obtain ⟨cs, d, ha, _, ho⟩ := postOrders_result db now req order hok
  cases hs : ({ c with usedCount := c.usedCount + 1 } : Coupon).schemaValid with
  | false =>
    rw [applyCoupon_rejected _ _ _ c hcode hfind hv hs] at ha
    cases ha
  | true =>
    rw [applyCoupon_applied _ _ _ c hcode hfind hv hs] at ha
    simp only [Except.ok.injEq, Prod.mk.injEq] at ha
    rw [ho, ← ha.2]

/-- C11, counterexample: with the code SAVE20 (20 percent) and one item of
price 100, quantity 1 and caller-supplied totalPrice 50, the order is persisted
with subtotal 50 and couponDiscount 20, while the coupon's discount on the
subtotal 50 is 10. -/
theorem C11_counterexample :
    ∃ order, (postOrders save20Store 0 halfTotalRequest).2 = .ok order ∧
      order.items.map (fun it => it.totalPrice) = [some 50] ∧
      order.subtotal = some 50 ∧ order.couponDiscount = 20 ∧
      (save20.calculateDiscount 0 50).discount = 10 ∧
      order.couponDiscount ≠ (save20.calculateDiscount 0 50).discount := by
  have h1 : couponMatches halfTotalRequest.couponCode save20 = true := by decide
  have hfind : save20Store.coupons.find? (couponMatches halfTotalRequest.couponCode)
      = some save20 := by
    simp [save20Store, List.find?, h1]
  have hvalid : (save20.isValid 0 (requestSubtotal halfTotalRequest.items)).valid = true := by
    norm_num [save20, halfTotalRequest, requestSubtotal, Coupon.isValid,
      Coupon.expiredAt, Coupon.usageExhausted, Coupon.belowMinimum]
  have hschema : ({ save20 with usedCount := save20.usedCount + 1 } : Coupon).schemaValid
      = true := by
    norm_num [save20, Coupon.schemaValid]
    decide
  have hdisc : (save20.calculateDiscount 0 (requestSubtotal halfTotalRequest.items)).discount
      = 20 := by
    norm_num [save20, halfTotalRequest, requestSubtotal, Coupon.calculateDiscount,
      Coupon.isValid, Coupon.expiredAt, Coupon.usageExhausted, Coupon.belowMinimum,
      Coupon.rawDiscount, round2, mathRound]
  have hten : (save20.calculateDiscount 0 50).discount = 10 := by
    norm_num [save20, Coupon.calculateDiscount, Coupon.isValid, Coupon.expiredAt,
      Coupon.usageExhausted, Coupon.belowMinimum, Coupon.rawDiscount, round2, mathRound]
  have happ := applyCoupon_applied save20Store.coupons 0 halfTotalRequest save20
    (by decide) hfind hvalid hschema
  rw [hdisc] at happ
  have hord : (newOrder 0 halfTotalRequest 0).schemaValid = true := by
    simp [newOrder, halfTotalRequest, Order.schemaValid, OrderItem.schemaValid,
      orderStatuses, paymentMethods, paymentStatuses]
  rw [postOrders_ok save20Store 0 halfTotalRequest _ _ happ hord]
  refine ⟨(newOrder 0 halfTotalRequest 20).preSave save20Store.orders true 0, rfl, ?_, ?_, ?_,
    hten, ?_⟩
  · norm_num [newOrder, halfTotalRequest, Order.preSave, truthy, OrderItem.fillTotalPrice]
  · norm_num [newOrder, halfTotalRequest, Order.preSave, truthy, sumTotalPrice,
      OrderItem.fillTotalPrice]
  · simp [newOrder, Order.preSave]
  · rw [hten]
    norm_num [newOrder, Order.preSave]

/-- C11, amended: when POST /api/orders applies a valid coupon, the persisted
couponDiscount equals the coupon's discount computed on the sum of
price * quantity over the items of the request. That sum is the order's
subtotal, the sum of the persisted item totalPrice values, whenever no item
carries a caller-supplied non-zero totalPrice different from price * quantity;
the couponDiscount is then the discount on the order's own subtotal. -/
theorem C11_coupon_discount (db : Db) (now : ℤ) (req : OrderRequest) (c : Coupon)
    (order : Order) (hcode : req.couponCode ≠ "")
    (hfind : db.coupons.find? (couponMatches req.couponCode) = some c)
    (hv : (c.isValid now (requestSubtotal req.items)).valid = true)
    (hok : (postOrders db now req).2 = .ok order) :
    order.couponDiscount
      = (c.calculateDiscount now
          ((req.items.map (fun it => it.price * it.quantity)).sum)).discount ∧
    order.subtotal = some ((order.items.map (fun it => it.totalPrice.getD 0)).sum) ∧
    ((∀ it ∈ req.items, truthy it.totalPrice = true →
        it.totalPrice = some (it.price * it.quantity)) →
      order.subtotal = some ((req.items.map (fun it => it.price * it.quantity)).sum) ∧
      order.couponDiscount = (c.calculateDiscount now (order.subtotal.getD 0)).discount) := by
  have ho := postOrders_couponDiscount db now req c order hcode hfind hv hok
  obtain ⟨h1, h2, h3⟩ := preSave_newOrder_fields db.orders now req
    (c.calculateDiscount now (requestSubtotal req.items)).discount
  rw [← ho] at h1 h2 h3
  rw [requestSubtotal_eq_sum] at h1
  have hsub : order.subtotal = some ((order.items.map (fun it => it.totalPrice.getD 0)).sum) := by
    rw [h3, h2, sumTotalPrice_eq_sum]
  refine ⟨h1, hsub, fun hall => ?_⟩
  have hsum : (order.items.map (fun it => it.totalPrice.getD 0)).sum
      = (req.items.map (fun it => it.price * it.quantity)).sum := by
    rw [h2, List.map_map]
    congr 1
    apply List.map_congr_left
    intro it hit
    simp only [Function.comp, fillTotalPrice_totalPrice]
    cases ht : truthy it.totalPrice with
    | false => simp
    | true => simp [hall it hit ht]
  refine ⟨by rw [hsub, hsum], ?_⟩
  rw [hsub, hsum, h1]
  rfl

theorem tenStore_find :
    tenStore.coupons.find? (couponMatches (codeRequest "FIXED").couponCode)
      = some (fixedCoupon 10) := by
  have h1 : couponMatches (codeRequest "FIXED").couponCode (fixedCoupon 10) = true := by
    decide
  simp [tenStore, List.find?, h1]

theorem tenStore_valid :
    ((fixedCoupon 10).isValid 0 (requestSubtotal (codeRequest "FIXED").items)).valid = true := by
  norm_num [fixedCoupon, codeRequest, requestSubtotal, Coupon.isValid,
    Coupon.expiredAt, Coupon.usageExhausted, Coupon.belowMinimum]

theorem tenStore_ok :
    (postOrders tenStore 0 (codeRequest "FIXED")).2
      = .ok ((newOrder 0 (codeRequest "FIXED")
          ((fixedCoupon 10).calculateDiscount 0
            (requestSubtotal (codeRequest "FIXED").items)).discount).preSave [] true 0) := by
  have hschema : ({ fixedCoupon 10 with usedCount := (fixedCoupon 10).usedCount + 1 } :
      Coupon).schemaValid = true := by
    norm_num [fixedCoupon, Coupon.schemaValid]
    decide
  rw [postOrders_ok tenStore 0 (codeRequest "FIXED") _ _
    (applyCoupon_applied _ _ _ (fixedCoupon 10) (by decide) tenStore_find tenStore_valid hschema)
    (codeRequest_schemaValid _)]
  rfl

/-- C11, witness: the code FIXED on one item of 100 with no totalPrice. -/
theorem C11_coupon_discount_witness :
    ((newOrder 0 (codeRequest "FIXED")
        ((fixedCoupon 10).calculateDiscount 0
          (requestSubtotal (codeRequest "FIXED").items)).discount).preSave
        [] true 0).couponDiscount
      = ((fixedCoupon 10).calculateDiscount 0
          (((codeRequest "FIXED").items.map (fun it => it.price * it.quantity)).sum)).discount :=
  (C11_coupon_discount tenStore 0 (codeRequest "FIXED") (fixedCoupon 10) _
    (by decide) tenStore_find tenStore_valid tenStore_ok).1

/-! ### C12 to C14: the named lifecycle operations -/

theorem fillTotalPrice_schemaValid (it : OrderItem) :
    it.fillTotalPrice.schemaValid = it.schemaValid := by
  unfold OrderItem.fillTotalPrice
  cases h : truthy it.totalPrice <;> simp [OrderItem.schemaValid]

/-- The pre-save hook touches no validated field. -/
theorem preSave_schemaValid (orders : List Order) (isNew : Bool) (now : ℤ) (o : Order) :
    (o.preSave orders isNew now).schemaValid = o.schemaValid := by
  have hitems : (o.items.map OrderItem.fillTotalPrice).all OrderItem.schemaValid
      = o.items.all OrderItem.schemaValid := by
    rw [List.all_map]
    congr 1
    funext it
    exact fillTotalPrice_schemaValid it
  simp only [Order.preSave, Order.schemaValid, hitems]

/-- Every order the model stores satisfies the schema. -/
theorem save_schemaValid (orders : List Order) (now : ℤ) (o saved : Order)
    (stored : List Order) (h : Order.save orders now o = .ok (stored, saved)) :
    saved.schemaValid = true := by
  unfold Order.save at h
  cases hv : o.schemaValid with
  | false => simp [hv] at h
  | true =>
    simp only [hv, Bool.not_true, Bool.false_eq_true, if_false, Except.ok.injEq,
      Prod.mk.injEq] at h
    rw [← h.2, preSave_schemaValid]
    exact hv

theorem schemaValid_set_status (o : Order) (s : String) (deliveredAt : Option ℤ)
    (hs : s ∈ orderStatuses) (hv : o.schemaValid = true) :
    ({ o with status := s, deliveredAt := deliveredAt } : Order).schemaValid = true := by
  simp only [Order.schemaValid, Bool.and_eq_true, decide_eq_true_eq] at hv ⊢
  exact ⟨⟨⟨hv.1.1.1, hs⟩, hv.1.2⟩, hv.2⟩

theorem saveExisting_ok (now : ℤ) (o : Order) (hv : o.schemaValid = true) :
    Order.saveExisting now o = .ok (o.preSave [] false now) := by
  simp [Order.saveExisting, hv]

theorem preSave_status (orders : List Order) (isNew : Bool) (now : ℤ) (o : Order) :
    (o.preSave orders isNew now).status = o.status ∧
    (o.preSave orders isNew now).deliveredAt = o.deliveredAt ∧
    (o.preSave orders isNew now).updatedAt = now := by
  simp [Order.preSave]

/-- The four named operations on a stored order: each succeeds and writes its
own status, whatever the current one. -/
theorem named_operations (now : ℤ) (o : Order) (hv : o.schemaValid = true) :
    o.confirm now = .ok (({ o with status := "confirmed" } : Order).preSave [] false now) ∧
    o.ship now = .ok (({ o with status := "shipped" } : Order).preSave [] false now) ∧
    o.deliver now
      = .ok (({ o with status := "delivered", deliveredAt := some now } : Order).preSave
          [] false now) ∧
    o.cancel now = .ok (({ o with status := "cancelled" } : Order).preSave [] false now) := by
  refine ⟨?_, ?_, ?_, ?_⟩
  · exact saveExisting_ok now _
      (schemaValid_set_status o "confirmed" o.deliveredAt (by decide) hv)
  · exact saveExisting_ok now _
      (schemaValid_set_status o "shipped" o.deliveredAt (by decide) hv)
  · exact saveExisting_ok now _
      (schemaValid_set_status o "delivered" (some now) (by decide) hv)
  · exact saveExisting_ok now _
      (schemaValid_set_status o "cancelled" o.deliveredAt (by decide) hv)

theorem sampleOrder_schemaValid : sampleOrder.schemaValid = true := by
  simp [sampleOrder, Order.schemaValid, OrderItem.schemaValid, orderStatuses,
    paymentMethods, paymentStatuses]

/-- C12, counterexample: the sample order is delivered at time 10 and then
cancelled at time 20; the cancel succeeds and the status is 'cancelled'. -/
theorem C12_counterexample :
    ∃ o1 o2, sampleOrder.deliver 10 = .ok o1 ∧ o1.status = "delivered" ∧
      o1.cancel 20 = .ok o2 ∧ o2.status = "cancelled" ∧ o2.status ≠ "delivered" := by
  have h1 := (named_operations 10 sampleOrder sampleOrder_schemaValid).2.2.1
  have hv1 : (({ sampleOrder with status := "delivered", deliveredAt := some 10 } :
      Order).preSave [] false 10).schemaValid = true := by
    rw [preSave_schemaValid]
    exact schemaValid_set_status sampleOrder "delivered" (some 10) (by decide)
      sampleOrder_schemaValid
  have h2 := (named_operations 20 _ hv1).2.2.2
  exact ⟨_, _, h1, rfl, h2, rfl, by decide⟩

/-- C12, amended: for every stored order on which deliver() has been called, a
subsequent cancel() through the named operations is not rejected: it succeeds
and sets the status to 'cancelled', deliveredAt keeping the time of the
delivery. -/
theorem C12_cancel_after_deliver (o : Order) (t1 t2 : ℤ) (hv : o.schemaValid = true) :
    ∃ o1 o2, o.deliver t1 = .ok o1 ∧ o1.status = "delivered" ∧
      o1.cancel t2 = .ok o2 ∧ o2.status = "cancelled" ∧ o2.deliveredAt = some t1 := by
  have h1 := (named_operations t1 o hv).2.2.1
  have hv1 : (({ o with status := "delivered", deliveredAt := some t1 } :
      Order).preSave [] false t1).schemaValid = true := by
    rw [preSave_schemaValid]
    exact schemaValid_set_status o "delivered" (some t1) (by decide) hv
  have h2 := (named_operations t2 _ hv1).2.2.2
  exact ⟨_, _, h1, rfl, h2, rfl, rfl⟩

/-- C12, witness: the sample order. -/
theorem C12_cancel_after_deliver_witness :
    ∃ o1 o2, sampleOrder.deliver 10 = .ok o1 ∧ o1.status = "delivered" ∧
      o1.cancel 20 = .ok o2 ∧ o2.status = "cancelled" ∧ o2.deliveredAt = some 10 :=
  C12_cancel_after_deliver sampleOrder 10 20 sampleOrder_schemaValid

/-- C13, counterexample: confirm() on a delivered order sets the status to
'confirmed', and ship() on a pending order sets it to 'shipped'. -/
theorem C13_counterexample :
    (∃ o1, ({ sampleOrder with status := "delivered" } : Order).confirm 10 = .ok o1 ∧
      o1.status = "confirmed") ∧
    (sampleOrder.status = "pending" ∧
      ∃ o1, sampleOrder.ship 10 = .ok o1 ∧ o1.status = "shipped") := by
  refine ⟨⟨_, (named_operations 10 _
    (schemaValid_set_status sampleOrder "delivered" sampleOrder.deliveredAt (by decide)
      sampleOrder_schemaValid)).1, rfl⟩, rfl, ⟨_, (named_operations 10 sampleOrder
        sampleOrder_schemaValid).2.1, rfl⟩⟩

/-- C13, amended: the named operations enforce no transition graph: on every
stored order, whatever its current status (terminal states included),
confirm() sets the status to 'confirmed', ship() to 'shipped', deliver() to
'delivered' and cancel() to 'cancelled'; no named operation sets 'preparing'. -/
theorem C13_named_operations_unguarded (o : Order) (now : ℤ) (hv : o.schemaValid = true) :
    (∃ o1, o.confirm now = .ok o1 ∧ o1.status = "confirmed") ∧
    (∃ o1, o.ship now = .ok o1 ∧ o1.status = "shipped") ∧
    (∃ o1, o.deliver now = .ok o1 ∧ o1.status = "delivered") ∧
    (∃ o1, o.cancel now = .ok o1 ∧ o1.status = "cancelled") := by
  obtain ⟨h1, h2, h3, h4⟩ := named_operations now o hv
  exact ⟨⟨_, h1, rfl⟩, ⟨_, h2, rfl⟩, ⟨_, h3, rfl⟩, ⟨_, h4, rfl⟩⟩

/-- C13, witness: the sample order, pending, is shipped at once. -/
theorem C13_named_operations_unguarded_witness :
    ∃ o1, sampleOrder.ship 10 = .ok o1 ∧ o1.status = "shipped" :=
  (C13_named_operations_unguarded sampleOrder 10 sampleOrder_schemaValid).2.1

/-- C14: for every stored order, deliver() succeeds, sets status = 'delivered'
and deliveredAt to the current time, and the save refreshes updatedAt to the
current time. -/
theorem C14_deliver (o : Order) (now : ℤ) (hv : o.schemaValid = true) :
    ∃ o1, o.deliver now = .ok o1 ∧ o1.status = "delivered" ∧
      o1.deliveredAt = some now ∧ o1.deliveredAt ≠ none ∧ o1.updatedAt = now := by
  exact ⟨_, (named_operations now o hv).2.2.1, rfl, rfl, by simp [Order.preSave], rfl⟩

/-- C14, witness: the sample order delivered at time 10. -/
theorem C14_deliver_witness :
    ∃ o1, sampleOrder.deliver 10 = .ok o1 ∧ o1.status = "delivered" ∧
      o1.deliveredAt = some 10 ∧ o1.deliveredAt ≠ none ∧ o1.updatedAt = 10 :=
  C14_deliver sampleOrder 10 sampleOrder_schemaValid

/-! ### C15 to C17: the cart -/

theorem sameKey_iff (userId : String) (productId : ℕ) (opts : List (String × String))
    (c : CartItem) :
    sameKey userId productId opts c = true ↔ opts ≠ [] ∧ c.key = (userId, productId, opts) := by
  simp only [sameKey, CartItem.key, Bool.and_eq_true, decide_eq_true_eq, Prod.mk.injEq]
  tauto

theorem sameKey_nil (userId : String) (productId : ℕ) (c : CartItem) :
    sameKey userId productId [] c = false := by
  simp [sameKey]

theorem find_sameKey_nil (carts : List CartItem) (userId : String) (productId : ℕ) :
    carts.find? (sameKey userId productId []) = none := by
  rw [List.find?_eq_none]
  intro x _
  simp [sameKey_nil]

theorem map_replaceFirst_of_find {α β : Type} (f : α → β) (p : α → Bool) (new : α)
    (l : List α) (c : α) (h : l.find? p = some c) (hf : f new = f c) :
    (replaceFirst p new l).map f = l.map f := by
  obtain ⟨before, after, h1, _, h3⟩ := replaceFirst_of_find p new l c h
  rw [h3]
  conv_rhs => rw [h1]
  simp [hf]

theorem cartKeysUnique_eraseP (carts : List CartItem) (p : CartItem → Bool)
    (h : cartKeysUnique carts) : cartKeysUnique (carts.eraseP p) :=
  List.Nodup.sublist ((List.eraseP_sublist carts).map CartItem.key) h

theorem cartKeysUnique_filter (carts : List CartItem) (p : CartItem → Bool)
    (h : cartKeysUnique carts) : cartKeysUnique (carts.filter p) :=
  List.Nodup.sublist ((List.filter_sublist carts).map CartItem.key) h

theorem cartKeysUnique_append_new (carts : List CartItem) (c : CartItem)
    (h : cartKeysUnique carts) (hne : c.selectedOptions ≠ [])
    (hnew : carts.find? (sameKey c.userId c.productId c.selectedOptions) = none) :
    cartKeysUnique (carts ++ [c]) := by
  unfold cartKeysUnique at *
  rw [List.map_append, List.nodup_append]
  refine ⟨h, by simp, ?_⟩
  intro k hk1 hk2
  simp only [List.map_cons, List.map_nil, List.mem_singleton] at hk2
  obtain ⟨x, hx, hxk⟩ := List.mem_map.mp hk1
  have hnone := List.find?_eq_none.mp hnew x hx
  apply hnone
  rw [sameKey_iff, hxk, hk2]
  exact ⟨hne, rfl⟩

theorem addQuantity_fields (e : CartItem) (q : ℚ) (a : Attachments) :
    (e.addQuantity q a).key = e.key ∧ (e.addQuantity q a).id = e.id ∧
    (e.addQuantity q a).quantity = e.quantity + q ∧
    (e.addQuantity q a).productName = e.productName := by
  unfold CartItem.addQuantity
  cases a.nonEmpty <;> simp [CartItem.key]

theorem addItem_no_product (products : List Product) (carts : List CartItem) (now : ℤ)
    (userId : String) (req : AddItemRequest)
    (hp : products.find? (fun p => decide (p.id = req.productId)) = none) :
    addItem products carts now userId req = (carts, .error .notFound) := by
  simp [addItem, hp]

theorem addItem_existing (products : List Product) (carts : List CartItem) (now : ℤ)
    (userId : String) (req : AddItemRequest) (product : Product) (e : CartItem)
    (hp : products.find? (fun p => decide (p.id = req.productId)) = some product)
    (hf : carts.find? (sameKey userId req.productId req.selectedOptions) = some e) :
    addItem products carts now userId req
      = if (e.addQuantity (req.quantity.getD 1) req.attachments).schemaValid = true then
          (replaceFirst (sameKey userId req.productId req.selectedOptions)
            (e.addQuantity (req.quantity.getD 1) req.attachments) carts,
           .ok (e.addQuantity (req.quantity.getD 1) req.attachments))
        else (carts, .error .validation) := by
  simp only [addItem, hp, hf]
  cases (e.addQuantity (req.quantity.getD 1) req.attachments).schemaValid <;> simp

theorem addItem_new (products : List Product) (carts : List CartItem) (now : ℤ)
    (userId : String) (req : AddItemRequest) (product : Product)
    (hp : products.find? (fun p => decide (p.id = req.productId)) = some product)
    (hf : carts.find? (sameKey userId req.productId req.selectedOptions) = none) :
    addItem products carts now userId req
      = if (newCartItem product now userId req).schemaValid = true then
          (carts ++ [{ newCartItem product now userId req with id := nextCartId carts }],
           .ok { newCartItem product now userId req with id := nextCartId carts })
        else (carts, .error .validation) := by
  simp only [addItem, hp, hf]
  cases (newCartItem product now userId req).schemaValid <;> simp

theorem newCartItem_key (product : Product) (now : ℤ) (userId : String) (req : AddItemRequest)
    (id : ℕ) :
    ({ newCartItem product now userId req with id := id } : CartItem).userId = userId ∧
    ({ newCartItem product now userId req with id := id } : CartItem).productId
      = req.productId ∧
    ({ newCartItem product now userId req with id := id } : CartItem).selectedOptions
      = req.selectedOptions := by
  simp [newCartItem]

theorem addItem_keysUnique (products : List Product) (carts : List CartItem) (now : ℤ)
    (userId : String) (req : AddItemRequest) (h : cartKeysUnique carts)
    (hne : req.selectedOptions ≠ []) :
    cartKeysUnique (addItem products carts now userId req).1 := by
  cases hp : products.find? (fun p => decide (p.id = req.productId)) with
  | none => rw [addItem_no_product _ _ _ _ _ hp]; exact h
  | some product =>
    cases hf : carts.find? (sameKey userId req.productId req.selectedOptions) with
    | some e =>
      rw [addItem_existing _ _ _ _ _ product e hp hf]
      split
      · unfold cartKeysUnique
        rw [map_replaceFirst_of_find CartItem.key _ _ carts e hf (addQuantity_fields _ _ _).1]
        exact h
      · exact h
    | none =>
      rw [addItem_new _ _ _ _ _ product hp hf]
      split
      · obtain ⟨h1, h2, h3⟩ := newCartItem_key product now userId req (nextCartId carts)
        apply cartKeysUnique_append_new carts _ h
        · rw [h3]; exact hne
        · rw [h1, h2, h3]; exact hf
      · exact h

theorem updateItem_keysUnique (carts : List CartItem) (userId : String) (itemId : ℕ)
    (req : UpdateItemRequest) (h : cartKeysUnique carts)
    (ho : req.selectedOptions = none) (hp : req.productId = none) :
    cartKeysUnique (updateItem carts userId itemId req).1 := by
  unfold updateItem
  split
  · exact h
  · cases hf : carts.find? (ownedItem userId itemId) with
    | none => exact h
    | some item =>
      simp only
      unfold cartKeysUnique
      rw [map_replaceFirst_of_find CartItem.key _ _ carts item hf]
      · exact h
      · simp [CartItem.key, ho, hp]

theorem updateOptionsRequest_unchanged (carts : List CartItem) (userId : String)
    (req : UpdateItemRequest) :
    (updateOptionsRequest carts userId req).1 = carts ∧
    ∀ c, (updateOptionsRequest carts userId req).2 ≠ .ok c := by
  unfold updateOptionsRequest
  split <;> simp

theorem removeItem_keysUnique (carts : List CartItem) (userId : String) (itemId : ℕ)
    (h : cartKeysUnique carts) : cartKeysUnique (removeItem carts userId itemId).1 := by
  unfold removeItem
  cases hf : carts.find? (ownedItem userId itemId) with
  | none => exact h
  | some item => exact cartKeysUnique_eraseP carts _ h

theorem removeByProduct_keysUnique (carts : List CartItem) (userId : String) (productId : ℕ)
    (h : cartKeysUnique carts) : cartKeysUnique (removeByProduct carts userId productId).1 := by
  unfold removeByProduct
  cases hf : carts.find? (ofProduct userId productId) with
  | none => exact h
  | some item => exact cartKeysUnique_eraseP carts _ h

theorem twoSizes_unique : cartKeysUnique twoSizes := by
  simp [cartKeysUnique, twoSizes, lineOf, CartItem.key]

/-- C15, counterexample: in the cart of u1 holding product 5 in size M (line 1)
and in size L (line 2), whose keys are unique, updateItem on line 2 with
selectedOptions size M succeeds and leaves two lines of (u1, 5, size M). -/
theorem C15_counterexample :
    cartKeysUnique twoSizes ∧
    (∃ c, (updateItem twoSizes "u1" 2 { selectedOptions := some [("size", "M")] }).2
      = .ok c) ∧
    (updateItem twoSizes "u1" 2 { selectedOptions := some [("size", "M")] }).1.map
        CartItem.key = [("u1", 5, [("size", "M")]), ("u1", 5, [("size", "M")])] ∧
    ¬ cartKeysUnique
        (updateItem twoSizes "u1" 2 { selectedOptions := some [("size", "M")] }).1 := by
  have h1 : (updateItem twoSizes "u1" 2 { selectedOptions := some [("size", "M")] }).1.map
      CartItem.key = [("u1", 5, [("size", "M")]), ("u1", 5, [("size", "M")])] := by
    simp [updateItem, twoSizes, lineOf, ownedItem, replaceFirst, List.find?, CartItem.key]
  refine ⟨twoSizes_unique, ?_, h1, ?_⟩
  · simp [updateItem, twoSizes, lineOf, ownedItem, replaceFirst, List.find?]
  · unfold cartKeysUnique
    rw [h1]
    simp

/-- C15, amended: removeItem, removeByProduct and clear preserve the invariant
that the cart holds at most one line per (userId, productId, selectedOptions);
addItem preserves it when the request carries at least one selected option;
updateItem preserves it when the request carries neither selectedOptions nor
productId; a request to the update-options path never succeeds and leaves the
cart as it was. -/
theorem C15_cart_keys_unique (carts : List CartItem) (h : cartKeysUnique carts) :
    (∀ products now userId (req : AddItemRequest), req.selectedOptions ≠ [] →
      cartKeysUnique (addItem products carts now userId req).1) ∧
    (∀ userId itemId, cartKeysUnique (removeItem carts userId itemId).1) ∧
    (∀ userId productId, cartKeysUnique (removeByProduct carts userId productId).1) ∧
    (∀ userId, cartKeysUnique (clearCart carts userId)) ∧
    (∀ userId itemId (req : UpdateItemRequest), req.selectedOptions = none →
      req.productId = none → cartKeysUnique (updateItem carts userId itemId req).1) ∧
    (∀ userId (req : UpdateItemRequest),
      (updateOptionsRequest carts userId req).1 = carts ∧
      ∀ c, (updateOptionsRequest carts userId req).2 ≠ .ok c) :=
  ⟨fun products now userId req hne =>
     addItem_keysUnique products carts now userId req h hne,
   fun userId itemId => removeItem_keysUnique carts userId itemId h,
   fun userId productId => removeByProduct_keysUnique carts userId productId h,
   fun _ => cartKeysUnique_filter carts _ h,
   fun userId itemId req ho hp => updateItem_keysUnique carts userId itemId req h ho hp,
   fun userId req => updateOptionsRequest_unchanged carts userId req⟩

/-- C15, witness: adding product 5 in size M again to the cart of two sizes. -/
theorem C15_cart_keys_unique_witness :
    cartKeysUnique twoSizes ∧
    cartKeysUnique
      (addItem [product5] twoSizes 0 "u1"
        { productId := 5, selectedOptions := [("size", "M")] }).1 :=
  ⟨twoSizes_unique,
   (C15_cart_keys_unique twoSizes twoSizes_unique).1 [product5] 0 "u1"
    { productId := 5, selectedOptions := [("size", "M")] } (by simp)⟩

theorem product5_name : ¬ ("product 5" = "") := by decide

theorem product5_find (req : AddItemRequest) (h : req.productId = 5) :
    [product5].find? (fun p => decide (p.id = req.productId)) = some product5 := by
  simp [List.find?, product5, h]

theorem addItem_merges (products : List Product) (carts : List CartItem) (now : ℤ)
    (userId : String) (req : AddItemRequest) (product : Product) (e : CartItem)
    (hp : products.find? (fun p => decide (p.id = req.productId)) = some product)
    (hf : carts.find? (sameKey userId req.productId req.selectedOptions) = some e)
    (hstored : e.schemaValid = true) (hq : 1 ≤ req.quantity.getD 1) :
    ∃ updated before after,
      (addItem products carts now userId req).2 = .ok updated ∧
      updated.quantity = e.quantity + req.quantity.getD 1 ∧
      updated.key = e.key ∧ updated.id = e.id ∧
      carts = before ++ e :: after ∧
      (addItem products carts now userId req).1 = before ++ updated :: after ∧
      (addItem products carts now userId req).1.length = carts.length ∧
      (cartKeysUnique carts →
        (addItem products carts now userId req).1.filter
          (sameKey userId req.productId req.selectedOptions) = [updated]) := by
  obtain ⟨hk, hid, hqty, hname⟩ :=
    addQuantity_fields e (req.quantity.getD 1) req.attachments
  have hvalid : (e.addQuantity (req.quantity.getD 1) req.attachments).schemaValid = true := by
    simp only [CartItem.schemaValid, Bool.and_eq_true, decide_eq_true_eq] at hstored ⊢
    rw [hname, hqty]
    exact ⟨hstored.1, by linarith [hstored.2]⟩
  obtain ⟨before, after, h1, h2, h3⟩ :=
    replaceFirst_of_find (sameKey userId req.productId req.selectedOptions)
      (e.addQuantity (req.quantity.getD 1) req.attachments) carts e hf
  rw [addItem_existing _ _ _ _ _ product e hp hf, if_pos hvalid]
  refine ⟨_, before, after, rfl, hqty, hk, hid, h1, h3, ?_, ?_⟩
  · show (replaceFirst _ _ carts).length = carts.length
    rw [h3]
    conv_rhs => rw [h1]
    simp
  · intro huniq
    show (replaceFirst _ _ carts).filter _ = _
    rw [h3]
    have hpe : sameKey userId req.productId req.selectedOptions e = true :=
      List.find?_some hf
    have hpu : sameKey userId req.productId req.selectedOptions
        (e.addQuantity (req.quantity.getD 1) req.attachments) = true := by
      rw [sameKey_iff, hk]
      exact (sameKey_iff _ _ _ _).mp hpe
    have hn : ((before ++ e :: after).map CartItem.key).Nodup := by
      rw [← h1]
      exact huniq
    rw [List.map_append, List.map_cons] at hn
    have hnot : e.key ∉ after.map CartItem.key :=
      (List.nodup_cons.mp (List.nodup_append.mp hn).2.1).1
    have hafter : ∀ x ∈ after,
        sameKey userId req.productId req.selectedOptions x = false := by
      intro x hx
      cases hpx : sameKey userId req.productId req.selectedOptions x with
      | false => rfl
      | true =>
        exfalso
        apply hnot
        rw [((sameKey_iff _ _ _ _).mp hpe).2, ← ((sameKey_iff _ _ _ _).mp hpx).2]
        exact List.mem_map_of_mem _ hx
    have hb : before.filter (sameKey userId req.productId req.selectedOptions) = [] := by
      rw [List.filter_eq_nil_iff]
      intro x hx
      simp [h2 x hx]
    have ha : after.filter (sameKey userId req.productId req.selectedOptions) = [] := by
      rw [List.filter_eq_nil_iff]
      intro x hx
      simp [hafter x hx]
    rw [List.filter_append, List.filter_cons, if_pos hpu, hb, ha]
    rfl

/-- C16, the code at the failing input: after product 5 is added for user u1
with quantity 1 and then with quantity 2, both times without selectedOptions,
the cart holds two lines of the key (u1, 5, no options), with the ids 1 and 2
and the quantities 1 and 2, not one line of quantity 3:
the lookup of the second request finds no line in the cart the first one
left. The same two requests with the option size M leave one line of
quantity 3. -/
theorem C16_no_options_two_lines :
    (addItem [product5] [] 0 "u1" { productId := 5, quantity := some 1 }).1.map
        (fun c => (c.id, c.key, c.quantity)) = [(1, ("u1", 5, []), 1)] ∧
    (addItem [product5]
        (addItem [product5] [] 0 "u1" { productId := 5, quantity := some 1 }).1 1 "u1"
        { productId := 5, quantity := some 2 }).1.map (fun c => (c.id, c.key, c.quantity))
      = [(1, ("u1", 5, []), 1), (2, ("u1", 5, []), 2)] ∧
    (addItem [product5] [] 0 "u1" { productId := 5, quantity := some 1 }).1.find?
        (sameKey "u1" 5 []) = none ∧
    (addItem [product5]
        (addItem [product5] [] 0 "u1"
          { productId := 5, quantity := some 1, selectedOptions := [("size", "M")] }).1 1 "u1"
        { productId := 5, quantity := some 2, selectedOptions := [("size", "M")] }).1.map
        (fun c => (c.id, c.key, c.quantity))
      = [(1, ("u1", 5, [("size", "M")]), 3)] := by
  have hfirst : (addItem [product5] [] 0 "u1" { productId := 5, quantity := some 1 }).1
      = [lineOf 1 [] 1] := by
    rw [addItem_new [product5] [] 0 "u1" _ product5 (product5_find _ rfl) (by simp)]
    norm_num [newCartItem, product5, CartItem.schemaValid, nextCartId, lastCartItem, lineOf,
      product5_name]
  have hfirstM : (addItem [product5] [] 0 "u1"
      { productId := 5, quantity := some 1, selectedOptions := [("size", "M")] }).1
      = [lineOf 1 [("size", "M")] 1] := by
    rw [addItem_new [product5] [] 0 "u1" _ product5 (product5_find _ rfl) (by simp)]
    norm_num [newCartItem, product5, CartItem.schemaValid, nextCartId, lastCartItem, lineOf,
      product5_name]
  refine ⟨?_, ?_, find_sameKey_nil _ _ _, ?_⟩
  · rw [hfirst]
    simp [lineOf, CartItem.key]
  · rw [hfirst, addItem_new [product5] _ 1 "u1" _ product5 (product5_find _ rfl)
      (find_sameKey_nil _ _ _)]
    norm_num [newCartItem, product5, CartItem.schemaValid, nextCartId, lastCartItem, lineOf,
      CartItem.key, product5_name]
  · rw [hfirstM]
    have hfind : [lineOf 1 [("size", "M")] 1].find?
        (sameKey "u1"
          ({ productId := 5, quantity := some 2, selectedOptions := [("size", "M")] } :
            AddItemRequest).productId
          ({ productId := 5, quantity := some 2, selectedOptions := [("size", "M")] } :
            AddItemRequest).selectedOptions)
        = some (lineOf 1 [("size", "M")] 1) := by
      simp [List.find?, sameKey, lineOf]
    rw [addItem_existing [product5] _ 1 "u1" _ product5 (lineOf 1 [("size", "M")] 1)
      (product5_find _ rfl) hfind]
    norm_num [CartItem.addQuantity, Attachments.nonEmpty, CartItem.schemaValid, lineOf,
      replaceFirst, sameKey, CartItem.key, product5_name]

/-- C17, the code at the failing input: product 5 in size M added with quantity
-1 to the cart of u1 holding it in size M with quantity 3 is accepted and
leaves quantity 2; the same request on an empty cart is rejected by the schema
and stores nothing, and so is the request without options on the cart holding
the line of product 5 that the add handler stores for a request without
options, which keeps its quantity 3. -/
theorem C17_existing_item_accepted :
    addItem [product5] [lineOf 1 [("size", "M")] 3] 0 "u1"
        { productId := 5, quantity := some (-1), selectedOptions := [("size", "M")] }
      = ([lineOf 1 [("size", "M")] 2], .ok (lineOf 1 [("size", "M")] 2)) ∧
    addItem [product5] [] 0 "u1"
        { productId := 5, quantity := some (-1), selectedOptions := [("size", "M")] }
      = ([], .error .validation) ∧
    addItem [product5] [lineOf 1 [] 3] 0 "u1" { productId := 5, quantity := some (-1) }
      = ([lineOf 1 [] 3], .error .validation) := by
  refine ⟨?_, ?_, ?_⟩
  · have hfind : [lineOf 1 [("size", "M")] 3].find?
        (sameKey "u1"
          ({ productId := 5, quantity := some (-1), selectedOptions := [("size", "M")] } :
            AddItemRequest).productId
          ({ productId := 5, quantity := some (-1), selectedOptions := [("size", "M")] } :
            AddItemRequest).selectedOptions)
        = some (lineOf 1 [("size", "M")] 3) := by
      simp [List.find?, sameKey, lineOf]
    rw [addItem_existing [product5] _ 0 "u1" _ product5 (lineOf 1 [("size", "M")] 3)
      (product5_find _ rfl) hfind]
    norm_num [CartItem.addQuantity, Attachments.nonEmpty, CartItem.schemaValid, lineOf,
      replaceFirst, sameKey, product5_name]
  · rw [addItem_new [product5] [] 0 "u1" _ product5 (product5_find _ rfl) (by simp)]
    norm_num [newCartItem, product5, CartItem.schemaValid]
  · rw [addItem_new [product5] _ 0 "u1" _ product5 (product5_find _ rfl)
      (find_sameKey_nil _ _ _)]
    norm_num [newCartItem, product5, CartItem.schemaValid]

/-! ### C18 to C20: the items of an order -/

theorem postCheckout_ok (db : Db) (now : ℤ) (req : CheckoutRequest)
    (hs : (checkoutOrder now req).schemaValid = true) :
    postCheckout db now req
      = ({ db with orders := db.orders ++ [(checkoutOrder now req).preSave db.orders true now] },
         .ok ((checkoutOrder now req).preSave db.orders true now)) := by
  simp [postCheckout, Order.save, hs]

theorem postCheckout_error (db : Db) (now : ℤ) (req : CheckoutRequest)
    (hs : (checkoutOrder now req).schemaValid = false) :
    postCheckout db now req = (db, .error .orderValidation) := by
  simp [postCheckout, Order.save, hs]

theorem newOrder_schemaValid_iff (now : ℤ) (req : OrderRequest) (d : ℚ) :
    (newOrder now req d).schemaValid = true ↔
      req.customerName ≠ "" ∧ req.customerEmail ≠ "" ∧ req.address ≠ "" ∧ req.city ≠ "" ∧
      (∀ it ∈ req.items, it.schemaValid = true) ∧
      (req.paymentMethod = "" ∨ req.paymentMethod ∈ paymentMethods) := by
  have hst : ("pending" ∈ orderStatuses) := by decide
  have hps : ("pending" ∈ paymentStatuses) := by decide
  have hcash : ("cash" ∈ paymentMethods) := by decide
  by_cases hpm : req.paymentMethod = ""
  · simp [newOrder, Order.schemaValid, hst, hps, hpm, hcash, and_assoc]
  · simp [newOrder, Order.schemaValid, hst, hps, hpm, and_assoc]

theorem checkoutOrder_schemaValid_iff (now : ℤ) (req : CheckoutRequest) :
    (checkoutOrder now req).schemaValid = true ↔
      req.customerInfo.name ≠ "" ∧ req.customerInfo.email ≠ "" ∧
      req.customerInfo.address ≠ "" ∧ req.customerInfo.city ≠ "" ∧
      (∀ it ∈ req.items, it.toOrderItem.schemaValid = true) ∧
      (req.paymentMethod = "" ∨ req.paymentMethod ∈ paymentMethods) ∧
      (req.paymentStatus = "" ∨ req.paymentStatus ∈ paymentStatuses) := by
  have hst : ("pending" ∈ orderStatuses) := by decide
  have hps : ("pending" ∈ paymentStatuses) := by decide
  have hcod : ("cod" ∈ paymentMethods) := by decide
  by_cases hpm : req.paymentMethod = "" <;> by_cases hpst : req.paymentStatus = "" <;>
    simp [checkoutOrder, Order.schemaValid, hst, hps, hpm, hpst, hcod, and_assoc]

/-- C18, counterexample: an order request with every required field and an
empty items list is accepted by POST /api/orders and by POST /api/checkout, and
an order with no items is persisted. -/
theorem C18_counterexample :
    (∃ order, (postOrders {} 0 emptyRequest).2 = .ok order ∧ order.items = [] ∧
      (postOrders {} 0 emptyRequest).1.orders = [order]) ∧
    (∃ order, (postCheckout {} 0 emptyCheckout).2 = .ok order ∧ order.items = [] ∧
      (postCheckout {} 0 emptyCheckout).1.orders = [order]) := by
  constructor
  · have hs : (newOrder 0 emptyRequest 0).schemaValid = true := by
      rw [newOrder_schemaValid_iff]
      simp [emptyRequest]
    rw [postOrders_ok {} 0 emptyRequest [] 0 (applyCoupon_no_code _ _ _ rfl) hs]
    exact ⟨_, rfl, rfl, rfl⟩
  · have hs : (checkoutOrder 0 emptyCheckout).schemaValid = true := by
      rw [checkoutOrder_schemaValid_iff]
      simp [emptyCheckout]
    rw [postCheckout_ok {} 0 emptyCheckout hs]
    exact ⟨_, rfl, rfl, rfl⟩

/-- C18, amended: an empty items list is not a validation error. A request to
POST /api/orders with an empty items list, the required customer and delivery
fields present, a paymentMethod absent or of the enum, and a coupon block that
does not fail persists an order with no items, subtotal 0 and total
deliveryFee - couponDiscount; POST /api/checkout likewise persists an order
with no items. -/
theorem C18_empty_items_accepted :
    (∀ (db : Db) (now : ℤ) (req : OrderRequest) (cs : List Coupon) (d : ℚ),
      req.items = [] → req.customerName ≠ "" → req.customerEmail ≠ "" →
      req.address ≠ "" → req.city ≠ "" →
      (req.paymentMethod = "" ∨ req.paymentMethod ∈ paymentMethods) →
      applyCoupon db.coupons now req = .ok (cs, d) →
      ∃ order, (postOrders db now req).2 = .ok order ∧
        (postOrders db now req).1.orders = db.orders ++ [order] ∧
        order.items = [] ∧ order.subtotal = some 0 ∧
        order.total = some (req.deliveryFee.getD 0 - d)) ∧
    (∀ (db : Db) (now : ℤ) (req : CheckoutRequest),
      req.items = [] → req.customerInfo.name ≠ "" → req.customerInfo.email ≠ "" →
      req.customerInfo.address ≠ "" → req.customerInfo.city ≠ "" →
      (req.paymentMethod = "" ∨ req.paymentMethod ∈ paymentMethods) →
      (req.paymentStatus = "" ∨ req.paymentStatus ∈ paymentStatuses) →
      ∃ order, (postCheckout db now req).2 = .ok order ∧
        (postCheckout db now req).1.orders = db.orders ++ [order] ∧
        order.items = []) := by
  constructor
  · intro db now req cs d hitems hn he ha hc hpm happ
    have hs : (newOrder now req 0).schemaValid = true := by
      rw [newOrder_schemaValid_iff]
      exact ⟨hn, he, ha, hc, by simp [hitems], hpm⟩
    rw [postOrders_ok db now req cs d happ hs]
    refine ⟨_, rfl, rfl, ?_, ?_, ?_⟩
    · simp [Order.preSave, newOrder, hitems]
    · simp [Order.preSave, newOrder, hitems, truthy, sumTotalPrice]
    · simp [Order.preSave, newOrder, hitems, truthy, sumTotalPrice]
  · intro db now req hitems hn he ha hc hpm hps
    have hs : (checkoutOrder now req).schemaValid = true := by
      rw [checkoutOrder_schemaValid_iff]
      exact ⟨hn, he, ha, hc, by simp [hitems], hpm, hps⟩
    rw [postCheckout_ok db now req hs]
    refine ⟨_, rfl, rfl, ?_⟩
    simp [Order.preSave, checkoutOrder, hitems]

/-- C18, witness: the complete order request with no items. -/
theorem C18_empty_items_accepted_witness :
    ∃ order, (postOrders {} 0 emptyRequest).2 = .ok order ∧
      (postOrders {} 0 emptyRequest).1.orders = ([] : List Order) ++ [order] ∧
      order.items = [] ∧ order.subtotal = some 0 ∧
      order.total = some (emptyRequest.deliveryFee.getD 0 - 0) :=
  C18_empty_items_accepted.1 {} 0 emptyRequest [] 0 rfl (by decide) (by decide) (by decide)
    (by decide) (Or.inl rfl) (applyCoupon_no_code _ _ _ rfl)

/-- C19, counterexample: POST /api/orders accepts and persists an item of price
-5; POST /api/checkout accepts an item of quantity 0 and persists it with
quantity 1. -/
theorem C19_counterexample :
    (∃ order, (postOrders {} 0 negativePriceRequest).2 = .ok order ∧
      order.items.map (fun it => it.price) = [-5] ∧
      (postOrders {} 0 negativePriceRequest).1.orders = [order]) ∧
    (∃ order, (postCheckout {} 0 zeroQuantityCheckout).2 = .ok order ∧
      order.items.map (fun it => it.quantity) = [1] ∧
      (postCheckout {} 0 zeroQuantityCheckout).1.orders = [order]) := by
  constructor
  · have hs : (newOrder 0 negativePriceRequest 0).schemaValid = true := by
      rw [newOrder_schemaValid_iff]
      simp [negativePriceRequest, OrderItem.schemaValid]
    rw [postOrders_ok {} 0 negativePriceRequest [] 0 (applyCoupon_no_code _ _ _ rfl) hs]
    refine ⟨_, rfl, ?_, rfl⟩
    simp [Order.preSave, newOrder, negativePriceRequest, OrderItem.fillTotalPrice, truthy]
  · have hs : (checkoutOrder 0 zeroQuantityCheckout).schemaValid = true := by
      rw [checkoutOrder_schemaValid_iff]
      simp [zeroQuantityCheckout, OrderItem.schemaValid, CheckoutItem.toOrderItem]
    rw [postCheckout_ok {} 0 zeroQuantityCheckout hs]
    refine ⟨_, rfl, ?_, rfl⟩
    simp [Order.preSave, checkoutOrder, zeroQuantityCheckout, OrderItem.fillTotalPrice,
      truthy, CheckoutItem.toOrderItem]

/-- C19, amended: POST /api/orders is rejected with a validation error, and no
order is persisted, whenever some item has quantity < 1; POST /api/checkout is
rejected, with nothing persisted, whenever some item has a non-zero quantity
< 1 (a quantity of 0 is replaced by 1). A negative price is not a ground of
rejection. -/
theorem C19_quantity_rejected :
    (∀ (db : Db) (now : ℤ) (req : OrderRequest) (it : OrderItem),
      it ∈ req.items → it.quantity < 1 →
      (∃ e, (postOrders db now req).2 = .error e) ∧
        (postOrders db now req).1.orders = db.orders) ∧
    (∀ (db : Db) (now : ℤ) (req : CheckoutRequest) (it : CheckoutItem),
      it ∈ req.items → it.quantity < 1 → it.quantity ≠ 0 →
      postCheckout db now req = (db, .error .orderValidation)) := by
  constructor
  · intro db now req it hit hq
    have hs : (newOrder now req 0).schemaValid = false := by
      cases h : (newOrder now req 0).schemaValid with
      | false => rfl
      | true =>
        exfalso
        have h2 := ((newOrder_schemaValid_iff now req 0).mp h).2.2.2.2.1 it hit
        simp only [OrderItem.schemaValid, Bool.and_eq_true, decide_eq_true_eq] at h2
        linarith [h2.2]
    cases ha : applyCoupon db.coupons now req with
    | error e =>
      rw [postOrders_coupon_error db now req e ha]
      exact ⟨⟨e, rfl⟩, rfl⟩
    | ok r =>
      obtain ⟨cs, d⟩ := r
      rw [postOrders_order_error db now req cs d ha hs]
      exact ⟨⟨_, rfl⟩, rfl⟩
  · intro db now req it hit hq h0
    apply postCheckout_error
    cases h : (checkoutOrder now req).schemaValid with
    | false => rfl
    | true =>
      exfalso
      have h2 := ((checkoutOrder_schemaValid_iff now req).mp h).2.2.2.2.1 it hit
      simp only [OrderItem.schemaValid, CheckoutItem.toOrderItem, Bool.and_eq_true,
        decide_eq_true_eq, if_pos h0] at h2
      linarith [h2.2]

/-- C19, witness: the order request of one item of quantity 0 is rejected. -/
theorem C19_quantity_rejected_witness :
    (∃ e, (postOrders {} 0 (quantityRequest 0)).2 = .error e) ∧
      (postOrders {} 0 (quantityRequest 0)).1.orders = [] :=
  C19_quantity_rejected.1 {} 0 (quantityRequest 0)
    { productId := 1, productName := "item", price := 10, quantity := 0 }
    (by simp [quantityRequest]) (by norm_num)

theorem halfTotal_ok :
    (postOrders {} 0 halfTotalRequest).2
      = .ok ((newOrder 0 halfTotalRequest 0).preSave [] true 0) := by
  have hs : (newOrder 0 halfTotalRequest 0).schemaValid = true := by
    rw [newOrder_schemaValid_iff]
    simp [halfTotalRequest, OrderItem.schemaValid]
  rw [postOrders_ok {} 0 halfTotalRequest [] 0
    (applyCoupon_not_found _ _ _ (by simp)) hs]

/-- C20, counterexample: an item of price 100 and quantity 1 posted with a
totalPrice of 50 is persisted with totalPrice 50, by POST /api/orders and by
POST /api/checkout alike. -/
theorem C20_counterexample :
    (∃ order, (postOrders {} 0 halfTotalRequest).2 = .ok order ∧
      order.items.map (fun it => (it.price, it.quantity, it.totalPrice))
        = [(100, 1, some 50)]) ∧
    (∃ order, (postCheckout {} 0 halfTotalCheckout).2 = .ok order ∧
      order.items.map (fun it => (it.price, it.quantity, it.totalPrice))
        = [(100, 1, some 50)]) := by
  constructor
  · rw [halfTotal_ok]
    refine ⟨_, rfl, ?_⟩
    norm_num [Order.preSave, newOrder, halfTotalRequest, OrderItem.fillTotalPrice, truthy]
  · have hs : (checkoutOrder 0 halfTotalCheckout).schemaValid = true := by
      rw [checkoutOrder_schemaValid_iff]
      simp [halfTotalCheckout, OrderItem.schemaValid, CheckoutItem.toOrderItem]
    rw [postCheckout_ok {} 0 halfTotalCheckout hs]
    refine ⟨_, rfl, ?_⟩
    norm_num [Order.preSave, checkoutOrder, halfTotalCheckout, OrderItem.fillTotalPrice,
      truthy, CheckoutItem.toOrderItem]

theorem checkout_item_totalPrice (item : CheckoutItem) :
    item.toOrderItem.fillTotalPrice.totalPrice
      = if truthy item.totalPrice = true then item.totalPrice
        else some (item.toOrderItem.fillTotalPrice.price
          * item.toOrderItem.fillTotalPrice.quantity) := by
  rw [(fillTotalPrice_price_quantity _).1, (fillTotalPrice_price_quantity _).2,
    fillTotalPrice_totalPrice]
  cases ht : item.totalPrice with
  | none =>
    by_cases hz : item.price * item.quantity = 0
    · simp [CheckoutItem.toOrderItem, truthy, ht, hz]
    · have hp : item.price ≠ 0 := fun h => hz (by rw [h, zero_mul])
      have hq : item.quantity ≠ 0 := fun h => hz (by rw [h, mul_zero])
      simp [CheckoutItem.toOrderItem, truthy, ht, hz, hp, hq]
  | some v =>
    by_cases hv : v = 0
    · by_cases hz : item.price * item.quantity = 0
      · simp [CheckoutItem.toOrderItem, truthy, ht, hv, hz]
      · have hp : item.price ≠ 0 := fun h => hz (by rw [h, zero_mul])
        have hq : item.quantity ≠ 0 := fun h => hz (by rw [h, mul_zero])
        simp [CheckoutItem.toOrderItem, truthy, ht, hv, hz, hp, hq]
    · simp [CheckoutItem.toOrderItem, truthy, ht, hv]

/-- C20, amended: for every item of every built order, totalPrice =
price * quantity when the caller supplied no non-zero totalPrice for the item;
a non-zero totalPrice supplied by the caller is persisted unchanged, it is not
recomputed. This holds for the items persisted by POST /api/orders and by
POST /api/checkout, price and quantity being the persisted ones. -/
theorem C20_item_totalPrice :
    (∀ (db : Db) (now : ℤ) (req : OrderRequest) (order : Order),
      (postOrders db now req).2 = .ok order →
      order.items = req.items.map OrderItem.fillTotalPrice ∧
      ∀ it ∈ req.items,
        it.fillTotalPrice.price = it.price ∧ it.fillTotalPrice.quantity = it.quantity ∧
        (truthy it.totalPrice = false →
          it.fillTotalPrice.totalPrice = some (it.price * it.quantity)) ∧
        (truthy it.totalPrice = true → it.fillTotalPrice.totalPrice = it.totalPrice)) ∧
    (∀ (db : Db) (now : ℤ) (req : CheckoutRequest) (order : Order),
      (postCheckout db now req).2 = .ok order →
      order.items = req.items.map (fun item => item.toOrderItem.fillTotalPrice) ∧
      ∀ item ∈ req.items,
        (truthy item.totalPrice = false →
          item.toOrderItem.fillTotalPrice.totalPrice
            = some (item.toOrderItem.fillTotalPrice.price
                * item.toOrderItem.fillTotalPrice.quantity)) ∧
        (truthy item.totalPrice = true →
          item.toOrderItem.fillTotalPrice.totalPrice = item.totalPrice)) := by
  constructor
  · intro db now req order hok
    obtain ⟨cs, d, _, _, ho⟩ := postOrders_result db now req order hok
    refine ⟨by rw [ho]; exact (preSave_newOrder_fields db.orders now req d).2.1, ?_⟩
    intro it _
    refine ⟨(fillTotalPrice_price_quantity it).1, (fillTotalPrice_price_quantity it).2, ?_, ?_⟩
    · intro ht
      rw [fillTotalPrice_totalPrice]
      simp [ht]
    · intro ht
      rw [fillTotalPrice_totalPrice]
      simp [ht]
  · intro db now req order hok
    obtain ⟨ho, _⟩ := postCheckout_result db now req order hok
    refine ⟨by rw [ho]; simp [Order.preSave, checkoutOrder], ?_⟩
    intro item _
    constructor
    · intro ht
      rw [checkout_item_totalPrice]
      simp [ht]
    · intro ht
      rw [checkout_item_totalPrice]
      simp [ht]

/-- C20, witness: the item of 100 persisted by POST /api/orders for the plain
request has totalPrice 100 * 1. -/
theorem C20_item_totalPrice_witness :
    ((newOrder 0 plainRequest 0).preSave [] true 0).items
      = plainRequest.items.map OrderItem.fillTotalPrice :=
  (C20_item_totalPrice.1 {} 0 plainRequest _ plainRequest_ok).1

/-! ### C21: the ids of new orders -/

theorem lastOrder_foldl (orders : List Order) (b : Order) :
    ∃ l, orders.foldl
        (fun best o =>
          match best with
          | none => some o
          | some b => if o.id > b.id then some o else some b)
        (some b) = some l ∧
      l ∈ b :: orders ∧ ∀ o ∈ b :: orders, o.id ≤ l.id := by
  induction orders generalizing b with
  | nil => exact ⟨b, rfl, by simp, by simp⟩
  | cons x xs ih =>
    simp only [List.foldl_cons]
    by_cases hx : x.id > b.id
    · obtain ⟨l, h1, h2, h3⟩ := ih x
      refine ⟨l, by simpa [hx] using h1, ?_, ?_⟩
      · rcases List.mem_cons.mp h2 with h | h
        · simp [h]
        · simp [h]
      · intro o ho
        rcases List.mem_cons.mp ho with h | h
        · rw [h]
          exact le_trans (le_of_lt hx) (h3 x (by simp))
        · exact h3 o h
    · obtain ⟨l, h1, h2, h3⟩ := ih b
      refine ⟨l, by simpa [hx] using h1, ?_, ?_⟩
      · rcases List.mem_cons.mp h2 with h | h
        · simp [h]
        · simp [h]
      · intro o ho
        rcases List.mem_cons.mp ho with h | h
        · rw [h]; exact h3 b (by simp)
        · rcases List.mem_cons.mp h with h | h
          · rw [h]
            exact le_trans (not_lt.mp hx) (h3 b (by simp))
          · exact h3 o (by simp [h])

/-- The query for the last order returns nothing on an empty collection and
an order of largest id otherwise. -/
theorem lastOrder_spec (orders : List Order) :
    (orders = [] → lastOrder orders = none) ∧
    (orders ≠ [] → ∃ l, lastOrder orders = some l ∧ l ∈ orders ∧ ∀ o ∈ orders, o.id ≤ l.id) := by
  cases orders with
  | nil => exact ⟨fun _ => rfl, fun h => absurd rfl h⟩
  | cons x xs =>
    refine ⟨fun h => (by cases h), fun _ => ?_⟩
    exact lastOrder_foldl xs x

/-- The id the hook gives a new document that carries none. -/
theorem preSave_new_id (orders : List Order) (now : ℤ) (o : Order) (h : o.id = 0) :
    (o.preSave orders true now).id
      = match lastOrder orders with
        | some last => last.id + 1
        | none => 1 := by
  simp [Order.preSave, h]

theorem preSave_new_id_gt (orders : List Order) (now : ℤ) (o : Order) (h : o.id = 0) :
    (∀ x ∈ orders, x.id < (o.preSave orders true now).id) ∧
    (orders = [] → (o.preSave orders true now).id = 1) ∧
    (∀ l, lastOrder orders = some l → (o.preSave orders true now).id = l.id + 1) := by
  rw [preSave_new_id orders now o h]
  refine ⟨?_, ?_, ?_⟩
  · intro x hx
    have hne : orders ≠ [] := fun he => by simp [he] at hx
    obtain ⟨l, h1, _, h3⟩ := (lastOrder_spec orders).2 hne
    rw [h1]
    exact Nat.lt_succ_of_le (h3 x hx)
  · intro he
    rw [(lastOrder_spec orders).1 he]
  · intro l hl
    rw [hl]

theorem plainRequest_schemaValid (now : ℤ) : (newOrder now plainRequest 0).schemaValid = true := by
  rw [newOrder_schemaValid_iff]
  simp [plainRequest, OrderItem.schemaValid]

theorem plainRequest_post (db : Db) (now : ℤ) :
    postOrders db now plainRequest
      = ({ orders := db.orders ++ [(newOrder now plainRequest 0).preSave db.orders true now]
           coupons := db.coupons
           carts := db.carts.filter (fun c => c.userId ≠ "guest") },
         .ok ((newOrder now plainRequest 0).preSave db.orders true now)) := by
  rw [postOrders_ok db now plainRequest db.coupons 0 (applyCoupon_no_code _ _ _ rfl)
    (plainRequest_schemaValid now)]
  rfl

/-- C21, counterexample: the first order of an empty store gets id 1; once it
has been deleted, the next order gets id 1 again, the id of an order created
before it. -/
theorem C21_counterexample :
    ∃ o1 o2, (postOrders {} 0 plainRequest).2 = .ok o1 ∧ o1.id = 1 ∧
      (deleteOrder (postOrders {} 0 plainRequest).1 1).2 = .ok o1 ∧
      (postOrders (deleteOrder (postOrders {} 0 plainRequest).1 1).1 1 plainRequest).2
        = .ok o2 ∧
      o2.id = 1 ∧ ¬ (o1.id < o2.id) := by
  have hid : ((newOrder 0 plainRequest 0).preSave [] true 0).id = 1 :=
    (preSave_new_id_gt [] 0 _ rfl).2.1 rfl
  have hdel : deleteOrder (postOrders {} 0 plainRequest).1 1
      = ({ orders := [], coupons := [], carts := [] },
         .ok ((newOrder 0 plainRequest 0).preSave [] true 0)) := by
    rw [plainRequest_post]
    simp [deleteOrder, List.find?, hid, List.eraseP]
  have hid2 : ((newOrder 1 plainRequest 0).preSave [] true 1).id = 1 :=
    (preSave_new_id_gt [] 1 _ rfl).2.1 rfl
  refine ⟨(newOrder 0 plainRequest 0).preSave [] true 0,
    (newOrder 1 plainRequest 0).preSave [] true 1, ?_, hid, ?_, ?_, hid2, ?_⟩
  · rw [plainRequest_post]
  · rw [hdel]
  · rw [hdel, plainRequest_post]
  · rw [hid, hid2]
    decide

theorem ids_nodup_append (orders : List Order) (order : Order)
    (h : ∀ o ∈ orders, o.id < order.id) (hn : (orders.map (fun o => o.id)).Nodup) :
    ((orders ++ [order]).map (fun o => o.id)).Nodup := by
  rw [List.map_append, List.nodup_append]
  refine ⟨hn, by simp, ?_⟩
  intro a ha hb
  simp only [List.map_cons, List.map_nil, List.mem_singleton] at hb
  obtain ⟨x, hx, hxa⟩ := List.mem_map.mp ha
  have := h x hx
  rw [hxa, hb] at this
  exact lt_irrefl _ this

/-- C21, amended: under sequential execution a newly created order saved
without an id receives 1 + the largest id among the orders stored at that
moment, and 1 on an empty store: an id strictly greater than the id of every
stored order, so that the ids of the stored orders stay distinct. (The id of a
deleted order is not remembered and can be given again.) -/
theorem C21_new_order_id :
    (∀ (db : Db) (now : ℤ) (req : OrderRequest) (order : Order),
      (postOrders db now req).2 = .ok order →
      (∀ o ∈ db.orders, o.id < order.id) ∧
      (db.orders = [] → order.id = 1) ∧
      (∀ l, lastOrder db.orders = some l → order.id = l.id + 1) ∧
      ((db.orders.map (fun o => o.id)).Nodup →
        ((postOrders db now req).1.orders.map (fun o => o.id)).Nodup)) ∧
    (∀ (db : Db) (now : ℤ) (req : CheckoutRequest) (order : Order),
      (postCheckout db now req).2 = .ok order →
      (∀ o ∈ db.orders, o.id < order.id) ∧
      (db.orders = [] → order.id = 1) ∧
      (∀ l, lastOrder db.orders = some l → order.id = l.id + 1) ∧
      ((db.orders.map (fun o => o.id)).Nodup →
        ((postCheckout db now req).1.orders.map (fun o => o.id)).Nodup)) := by
  constructor
  · intro db now req order hok
    obtain ⟨cs, d, ha, hs, ho⟩ := postOrders_result db now req order hok
    obtain ⟨h1, h2, h3⟩ := preSave_new_id_gt db.orders now (newOrder now req d) rfl
    rw [← ho] at h1 h2 h3
    refine ⟨h1, h2, h3, fun hn => ?_⟩
    rw [postOrders_ok db now req cs d ha hs, ← ho]
    exact ids_nodup_append db.orders order h1 hn
  · intro db now req order hok
    obtain ⟨ho, hmem⟩ := postCheckout_result db now req order hok
    obtain ⟨h1, h2, h3⟩ := preSave_new_id_gt db.orders now (checkoutOrder now req) rfl
    rw [← ho] at h1 h2 h3
    refine ⟨h1, h2, h3, fun hn => ?_⟩
    rw [hmem]
    exact ids_nodup_append db.orders order h1 hn

/-- C21, witness: the first order of the empty store gets id 1. -/
theorem C21_new_order_id_witness :
    ((newOrder 0 plainRequest 0).preSave [] true 0).id = 1 :=
  (C21_new_order_id.1 {} 0 plainRequest _ plainRequest_ok).2.1 rfl

/-! ### C22 to C24: the cart after an order, clear, and missing items -/

/-- C22, the code at the failing input: POST /api/checkout for user u1
succeeds while the cart of u1 holds a line, and the line is still there: the
handler never touches the cart collection. POST /api/orders, for its part,
empties the cart of the request's user (guest when none is given) and leaves
the lines of the other users as they were. -/
theorem C22_checkout_keeps_cart :
    ((∃ order, (postCheckout cartOfU1 0 checkoutU1).2 = .ok order) ∧
      (postCheckout cartOfU1 0 checkoutU1).1.carts = [lineOf 1 [] 1] ∧
      (lineOf 1 [] 1).userId = checkoutU1.userId) ∧
    (∀ (db : Db) (now : ℤ) (req : CheckoutRequest),
      (postCheckout db now req).1.carts = db.carts) ∧
    (∀ (db : Db) (now : ℤ) (req : OrderRequest) (order : Order),
      (postOrders db now req).2 = .ok order →
      (∀ c ∈ (postOrders db now req).1.carts,
        c.userId ≠ (if req.userId ≠ "" then req.userId else "guest")) ∧
      (postOrders db now req).1.carts.filter
          (fun c => c.userId ≠ (if req.userId ≠ "" then req.userId else "guest"))
        = db.carts.filter
          (fun c => c.userId ≠ (if req.userId ≠ "" then req.userId else "guest"))) := by
  have hall : ∀ (db : Db) (now : ℤ) (req : CheckoutRequest),
      (postCheckout db now req).1.carts = db.carts := by
    intro db now req
    cases hs : (checkoutOrder now req).schemaValid with
    | false => rw [postCheckout_error db now req hs]
    | true => rw [postCheckout_ok db now req hs]
  refine ⟨⟨?_, hall _ _ _, rfl⟩, hall, ?_⟩
  · have hs : (checkoutOrder 0 checkoutU1).schemaValid = true := by
      rw [checkoutOrder_schemaValid_iff]
      simp [checkoutU1, OrderItem.schemaValid, CheckoutItem.toOrderItem]
    rw [postCheckout_ok cartOfU1 0 checkoutU1 hs]
    exact ⟨_, rfl⟩
  · intro db now req order hok
    obtain ⟨cs, d, ha, hs, _⟩ := postOrders_result db now req order hok
    rw [postOrders_ok db now req cs d ha hs]
    constructor
    · intro c hc
      simpa using (List.mem_filter.mp hc).2
    · simp [List.filter_filter]

theorem clearCart_props (carts : List CartItem) (u : String) :
    (∀ c ∈ clearCart carts u, c.userId ≠ u) ∧
    ((∀ c ∈ carts, c.userId ≠ u) → clearCart carts u = carts) ∧
    ((∀ c ∈ carts, c.userId = u) → clearCart carts u = []) ∧
    clearCart (clearCart carts u) u = clearCart carts u := by
  refine ⟨?_, ?_, ?_, ?_⟩
  · intro c hc
    simpa [clearCart] using (List.mem_filter.mp hc).2
  · intro h
    unfold clearCart
    rw [List.filter_eq_self]
    intro c hc
    simpa using h c hc
  · intro h
    unfold clearCart
    rw [List.filter_eq_nil_iff]
    intro c hc
    simpa using h c hc
  · simp [clearCart, List.filter_filter]

/-- C23: clear(userId) is a total operation that leaves no line of that user
and keeps exactly the lines of the other users, in order; on a cart without
lines of the user it changes nothing, so that clearing twice equals clearing
once; a cart holding only lines of the user becomes empty. The same holds for
the clear of the guest routes, whose user is the one of the query, or 'guest'
when the query names none. -/
theorem C23_clear (carts : List CartItem) (userId : String) :
    (∀ c ∈ clearCart carts userId, c.userId ≠ userId) ∧
    (clearCart carts userId).filter (fun c => decide (c.userId = userId)) = [] ∧
    ((∀ c ∈ carts, c.userId ≠ userId) → clearCart carts userId = carts) ∧
    clearCart (clearCart carts userId) userId = clearCart carts userId ∧
    (clearCart carts userId).filter (fun c => decide (c.userId ≠ userId))
      = carts.filter (fun c => decide (c.userId ≠ userId)) ∧
    (∀ c ∈ carts, c.userId ≠ userId → c ∈ clearCart carts userId) ∧
    clearGuestCart (clearGuestCart carts userId) userId = clearGuestCart carts userId ∧
    clearCart carts userId = carts.filter (fun c => decide (c.userId ≠ userId)) ∧
    ((∀ c ∈ carts, c.userId = userId) → clearCart carts userId = []) ∧
    (∀ c ∈ clearGuestCart carts userId,
      c.userId ≠ (if userId ≠ "" then userId else "guest")) ∧
    clearGuestCart carts userId
      = carts.filter
          (fun c => decide (c.userId ≠ (if userId ≠ "" then userId else "guest"))) ∧
    ((∀ c ∈ carts, c.userId ≠ (if userId ≠ "" then userId else "guest")) →
      clearGuestCart carts userId = carts) ∧
    ((∀ c ∈ carts, c.userId = (if userId ≠ "" then userId else "guest")) →
      clearGuestCart carts userId = []) ∧
    clearGuestCart carts "" = carts.filter (fun c => decide (c.userId ≠ "guest")) := by
  obtain ⟨hnone, hnoop, hall, hidem⟩ := clearCart_props carts userId
  obtain ⟨gnone, gnoop, gall, gidem⟩ :=
    clearCart_props carts (if userId ≠ "" then userId else "guest")
  refine ⟨hnone, ?_, hnoop, hidem, ?_, ?_, ?_, rfl, hall, gnone, rfl, gnoop, gall, rfl⟩
  · rw [List.filter_eq_nil_iff]
    intro c hc
    simpa using hnone c hc
  · simp [clearCart, List.filter_filter]
  · intro c hc hu
    exact List.mem_filter.mpr ⟨hc, by simpa using hu⟩
  · unfold clearGuestCart
    exact gidem

/-- C23, witness: clearing the cart of u1, who owns both lines of the cart of
two sizes, leaves the empty cart; clearing the cart of u2, who has no line in
it, changes nothing; the guest clear without a user in the query removes the
line of 'guest' and keeps the line of u1. -/
theorem C23_clear_witness :
    twoSizes ≠ [] ∧ clearCart twoSizes "u1" = [] ∧ clearCart twoSizes "u2" = twoSizes ∧
    clearGuestCart guestAndU1 "" = [lineOf 2 [("size", "L")] 1] ∧
    clearGuestCart twoSizes "u1" = [] :=
  ⟨by simp [twoSizes],
   (C23_clear twoSizes "u1").2.2.2.2.2.2.2.2.1 (by simp [twoSizes, lineOf]),
   (C23_clear twoSizes "u2").2.2.1 (by simp [twoSizes, lineOf]),
   by
    rw [(C23_clear guestAndU1 "").2.2.2.2.2.2.2.2.2.2.2.2.2]
    simp [guestAndU1, lineOf],
   (C23_clear twoSizes "u1").2.2.2.2.2.2.2.2.2.2.2.2.1 (by simp [twoSizes, lineOf])⟩

theorem ownedItem_iff (userId : String) (itemId : ℕ) (c : CartItem) :
    ownedItem userId itemId c = true ↔ c.id = itemId ∧ c.userId = userId := by
  simp [ownedItem]

theorem find_owned_none (carts : List CartItem) (userId : String) (itemId : ℕ)
    (hno : ∀ c ∈ carts, ¬ (c.id = itemId ∧ c.userId = userId)) :
    carts.find? (ownedItem userId itemId) = none := by
  rw [List.find?_eq_none]
  intro c hc h
  exact hno c hc ((ownedItem_iff _ _ _).mp h)

theorem removeItem_missing (carts : List CartItem) (userId : String) (itemId : ℕ)
    (hno : ∀ c ∈ carts, ¬ (c.id = itemId ∧ c.userId = userId)) :
    removeItem carts userId itemId = (carts, .error .notFound) := by
  simp [removeItem, find_owned_none carts userId itemId hno]

/-- After a successful removeItem, the ids of the cart being distinct, no item
with that id belongs to the user any more. -/
theorem removeItem_then_missing (carts0 : List CartItem) (userId : String) (itemId : ℕ)
    (item : CartItem) (hn : (carts0.map (fun c => c.id)).Nodup)
    (hok : (removeItem carts0 userId itemId).2 = .ok item) :
    ∀ c ∈ (removeItem carts0 userId itemId).1, ¬ (c.id = itemId ∧ c.userId = userId) := by
  unfold removeItem at hok ⊢
  cases hf : carts0.find? (ownedItem userId itemId) with
  | none => simp [hf] at hok
  | some found =>
    simp only [hf] at hok ⊢
    have hmem : found ∈ carts0 := List.mem_of_find?_eq_some hf
    have hp : ownedItem userId itemId found = true := List.find?_some hf
    obtain ⟨a, l1, l2, h1, h2, h3, h4⟩ := List.exists_of_eraseP hmem hp
    rw [h4]
    intro c hc hcon
    rcases List.mem_append.mp hc with hc1 | hc2
    · exact h1 c hc1 ((ownedItem_iff _ _ _).mpr hcon)
    · rw [h3, List.map_append, List.map_cons] at hn
      have hnot : a.id ∉ l2.map (fun c => c.id) :=
        (List.nodup_cons.mp (List.nodup_append.mp hn).2.1).1
      apply hnot
      rw [((ownedItem_iff _ _ _).mp h2).1, ← hcon.1]
      exact List.mem_map_of_mem _ hc2

/-- C24, counterexample: updateItem with quantity 0 on item 99, which no user
owns, fails with 'Invalid quantity' (400), not with NotFound. -/
theorem C24_counterexample :
    (∀ c ∈ twoSizes, ¬ (c.id = 99 ∧ c.userId = "u1")) ∧
    updateItem twoSizes "u1" 99 { quantity := some 0 }
      = (twoSizes, .error .invalidQuantity) ∧
    (updateItem twoSizes "u1" 99 { quantity := some 0 }).2 ≠ .error .notFound := by
  have h : updateItem twoSizes "u1" 99 { quantity := some 0 }
      = (twoSizes, .error .invalidQuantity) := by
    norm_num [updateItem]
  refine ⟨by simp [twoSizes, lineOf], h, ?_⟩
  rw [h]
  simp

/-- C24, amended: when no item with that id belongs to userId, removeItem fails
with NotFound and updateItem fails with NotFound unless the request carries a
quantity < 1, in which case it fails with 'Invalid quantity' before the item is
looked up; in every case the whole cart is unchanged. Hence, the ids of the
cart being distinct, a second removeItem of the same item fails with NotFound. -/
theorem C24_missing_item (carts : List CartItem) (userId : String) (itemId : ℕ)
    (hno : ∀ c ∈ carts, ¬ (c.id = itemId ∧ c.userId = userId)) :
    removeItem carts userId itemId = (carts, .error .notFound) ∧
    (∀ req : UpdateItemRequest, (∀ q, req.quantity = some q → 1 ≤ q) →
      updateItem carts userId itemId req = (carts, .error .notFound)) ∧
    (∀ (req : UpdateItemRequest) (q : ℚ), req.quantity = some q → q < 1 →
      updateItem carts userId itemId req = (carts, .error .invalidQuantity)) ∧
    (∀ (carts0 : List CartItem) (item : CartItem),
      (carts0.map (fun c => c.id)).Nodup →
      (removeItem carts0 userId itemId).2 = .ok item →
      removeItem (removeItem carts0 userId itemId).1 userId itemId
        = ((removeItem carts0 userId itemId).1, .error .notFound)) := by
  have hfind := find_owned_none carts userId itemId hno
  refine ⟨removeItem_missing carts userId itemId hno, ?_, ?_, ?_⟩
  · intro req hq
    cases hrq : req.quantity with
    | none => simp [updateItem, hrq, hfind]
    | some q =>
      have : ¬ q < 1 := not_lt.mpr (hq q hrq)
      simp [updateItem, hrq, hfind, this]
  · intro req q hrq hq
    simp [updateItem, hrq, hq]
  · intro carts0 item hn hok
    exact removeItem_missing _ userId itemId
      (removeItem_then_missing carts0 userId itemId item hn hok)

/-- C24, witness: item 99 in the cart of two sizes. -/
theorem C24_missing_item_witness :
    removeItem twoSizes "u1" 99 = (twoSizes, .error .notFound) :=
  (C24_missing_item twoSizes "u1" 99 (by simp [twoSizes, lineOf])).1

/-! ### C25 to C27: what is persisted when no coupon applies -/

theorem preSave_copied_fields (orders : List Order) (isNew : Bool) (now : ℤ) (o : Order) :
    (o.preSave orders isNew now).couponCode = o.couponCode ∧
    (o.preSave orders isNew now).paymentMethod = o.paymentMethod ∧
    (o.preSave orders isNew now).paymentStatus = o.paymentStatus ∧
    (o.preSave orders isNew now).status = o.status ∧
    (o.preSave orders isNew now).couponDiscount = o.couponDiscount ∧
    (o.preSave orders isNew now).deliveryFee = o.deliveryFee ∧
    (o.preSave orders isNew now).discount = o.discount := by
  simp [Order.preSave]

/-- C25, counterexample: an order request with the code BOGUS, which no coupon
of the store carries, is persisted with couponDiscount 0 and couponCode
'BOGUS'. -/
theorem C25_counterexample :
    ({} : Db).coupons.find? (couponMatches (codeRequest "BOGUS").couponCode) = none ∧
    ∃ order, (postOrders {} 0 (codeRequest "BOGUS")).2 = .ok order ∧
      order.couponDiscount = 0 ∧ order.couponCode = "BOGUS" ∧ order.couponCode ≠ "" := by
  refine ⟨rfl, ?_⟩
  rw [postOrders_ok {} 0 (codeRequest "BOGUS") [] 0 (applyCoupon_not_found _ _ _ rfl)
    (codeRequest_schemaValid _)]
  exact ⟨_, rfl, rfl, rfl, by decide⟩

/-- C25, amended: the persisted couponCode is the code the caller supplied
(couponCode for POST /api/orders, appliedCoupon.code for POST /api/checkout),
whether or not a coupon was applied; it is the empty string when no code was
supplied. -/
theorem C25_couponCode_as_supplied :
    (∀ (db : Db) (now : ℤ) (req : OrderRequest) (order : Order),
      (postOrders db now req).2 = .ok order →
      order.couponCode = req.couponCode ∧ (req.couponCode = "" → order.couponCode = "")) ∧
    (∀ (db : Db) (now : ℤ) (req : CheckoutRequest) (order : Order),
      (postCheckout db now req).2 = .ok order →
      order.couponCode = req.appliedCoupon ∧
      (req.appliedCoupon = "" → order.couponCode = "")) := by
  constructor
  · intro db now req order hok
    obtain ⟨cs, d, _, _, ho⟩ := postOrders_result db now req order hok
    have h : order.couponCode = req.couponCode := by
      rw [ho, (preSave_copied_fields _ _ _ _).1]
      rfl
    exact ⟨h, fun he => by rw [h, he]⟩
  · intro db now req order hok
    obtain ⟨ho, _⟩ := postCheckout_result db now req order hok
    have h : order.couponCode = req.appliedCoupon := by
      rw [ho, (preSave_copied_fields _ _ _ _).1]
      rfl
    exact ⟨h, fun he => by rw [h, he]⟩

/-- C25, witness: the plain request, without a code, is persisted with the
empty couponCode. -/
theorem C25_couponCode_as_supplied_witness :
    ((newOrder 0 plainRequest 0).preSave [] true 0).couponCode = "" :=
  (C25_couponCode_as_supplied.1 {} 0 plainRequest _ plainRequest_ok).2 rfl

/-- C26, the code at the failing input: the plain request, which supplies no
paymentMethod, is persisted by POST /api/orders with paymentMethod 'cash'. In
general POST /api/orders persists 'cash' and POST /api/checkout 'cod' when no
paymentMethod is supplied; both persist status 'pending'; POST /api/orders
persists paymentStatus 'pending', POST /api/checkout the supplied paymentStatus
or 'pending'. -/
theorem C26_default_payment_method :
    (plainRequest.paymentMethod = "" ∧
      ∃ order, (postOrders {} 0 plainRequest).2 = .ok order ∧
        order.paymentMethod = "cash" ∧ order.paymentMethod ≠ "cod") ∧
    (∀ (db : Db) (now : ℤ) (req : OrderRequest) (order : Order),
      (postOrders db now req).2 = .ok order →
      (req.paymentMethod = "" → order.paymentMethod = "cash") ∧
      order.status = "pending" ∧ order.paymentStatus = "pending") ∧
    (∀ (db : Db) (now : ℤ) (req : CheckoutRequest) (order : Order),
      (postCheckout db now req).2 = .ok order →
      (req.paymentMethod = "" → order.paymentMethod = "cod") ∧
      order.status = "pending" ∧
      order.paymentStatus
        = (if req.paymentStatus ≠ "" then req.paymentStatus else "pending")) := by
  refine ⟨⟨rfl, ?_⟩, ?_, ?_⟩
  · rw [plainRequest_ok]
    exact ⟨_, rfl, rfl, by decide⟩
  · intro db now req order hok
    obtain ⟨cs, d, _, _, ho⟩ := postOrders_result db now req order hok
    obtain ⟨_, h2, h3, h4, _⟩ := preSave_copied_fields db.orders true now (newOrder now req d)
    rw [← ho] at h2 h3 h4
    refine ⟨fun he => ?_, by rw [h4]; rfl, by rw [h3]; rfl⟩
    rw [h2]
    simp [newOrder, he]
  · intro db now req order hok
    obtain ⟨ho, _⟩ := postCheckout_result db now req order hok
    obtain ⟨_, h2, h3, h4, _⟩ := preSave_copied_fields db.orders true now (checkoutOrder now req)
    rw [← ho] at h2 h3 h4
    refine ⟨fun he => ?_, by rw [h4]; rfl, by rw [h3]; rfl⟩
    rw [h2]
    simp [checkoutOrder, he]

/-- C27: when the coupon found for the code evaluates invalid (expired,
exhausted or below the minimum; an inactive coupon is never returned by the
query, so its code finds no coupon), an order request that satisfies the order
schema is still persisted, with couponDiscount = 0 and total = subtotal +
deliveryFee - discount, and no coupon is changed. -/
theorem C27_invalid_coupon_order_created (db : Db) (now : ℤ) (req : OrderRequest)
    (hord : (newOrder now req 0).schemaValid = true)
    (hcoupon : (∃ c, db.coupons.find? (couponMatches req.couponCode) = some c ∧
        (c.isValid now (requestSubtotal req.items)).valid = false) ∨
      db.coupons.find? (couponMatches req.couponCode) = none) :
    (∃ order, (postOrders db now req).2 = .ok order ∧
      (postOrders db now req).1.orders = db.orders ++ [order] ∧
      order.couponDiscount = 0 ∧
      order.total = some (order.subtotal.getD 0 + order.deliveryFee - order.discount) ∧
      (postOrders db now req).1.coupons = db.coupons) ∧
    (∀ c, couponMatches req.couponCode c = true → c.isActive = true) := by
  have happ : applyCoupon db.coupons now req = .ok (db.coupons, 0) := by
    rcases hcoupon with ⟨c, hfind, hinv⟩ | hnone
    · exact applyCoupon_invalid _ _ _ c hfind hinv
    · exact applyCoupon_not_found _ _ _ hnone
  constructor
  · rw [postOrders_ok db now req db.coupons 0 happ hord]
    refine ⟨_, rfl, rfl, ?_, ?_, rfl⟩
    · simp [Order.preSave, newOrder]
    · simp [Order.preSave, newOrder, truthy]
  · intro c hc
    simp only [couponMatches, Bool.and_eq_true] at hc
    exact hc.2

theorem usedUp_find :
    usedUpStore.coupons.find? (couponMatches (codeRequest "ONCE").couponCode) = some usedUp := by
  have h1 : couponMatches (codeRequest "ONCE").couponCode usedUp = true := by decide
  simp [usedUpStore, List.find?, h1]

theorem usedUp_invalid :
    (usedUp.isValid 0 (requestSubtotal (codeRequest "ONCE").items)).valid = false := by
  norm_num [usedUp, Coupon.isValid, Coupon.expiredAt, Coupon.usageExhausted]

/-- C27, witness: an order request with the code of the coupon used once out of
a limit of one. -/
theorem C27_invalid_coupon_order_created_witness :
    ∃ order, (postOrders usedUpStore 0 (codeRequest "ONCE")).2 = .ok order ∧
      (postOrders usedUpStore 0 (codeRequest "ONCE")).1.orders = usedUpStore.orders ++ [order] ∧
      order.couponDiscount = 0 ∧
      order.total = some (order.subtotal.getD 0 + order.deliveryFee - order.discount) ∧
      (postOrders usedUpStore 0 (codeRequest "ONCE")).1.coupons = usedUpStore.coupons :=
  (C27_invalid_coupon_order_created usedUpStore 0 (codeRequest "ONCE")
    (codeRequest_schemaValid _) (Or.inl ⟨usedUp, usedUp_find, usedUp_invalid⟩)).1

/-! ### C28: the generic status update -/

/-- C28: for a stored order of the given id and a status s of the enum, the
generic status update succeeds, stores the order with status = s whatever the
status was, with deliveredAt = now when s = 'delivered' and deliveredAt as it
was otherwise (also when the order leaves 'delivered'), and refreshes
updatedAt; for an id that no stored order carries it answers NotFound and
changes nothing. -/
theorem C28_generic_status (db : Db) (now : ℤ) (orderId : ℕ) (s : String) :
    (∀ o, db.orders.find? (fun x => decide (x.id = orderId)) = some o →
      o.schemaValid = true → s ∈ orderStatuses →
      ∃ saved, putOrderStatus db now orderId s
          = ({ db with
               orders := replaceFirst (fun x => decide (x.id = orderId)) saved db.orders },
             .ok saved) ∧
        saved.status = s ∧
        saved.deliveredAt = (if s = "delivered" then some now else o.deliveredAt) ∧
        saved.updatedAt = now ∧ saved.id = o.id ∧
        ∃ before after, db.orders = before ++ o :: after ∧
          (putOrderStatus db now orderId s).1.orders = before ++ saved :: after) ∧
    (db.orders.find? (fun x => decide (x.id = orderId)) = none →
      putOrderStatus db now orderId s = (db, .error .notFound)) := by
  constructor
  · intro o hfind hv hs
    by_cases hd : s = "delivered"
    · have hv2 : ({ o with status := s, deliveredAt := some now } : Order).schemaValid = true :=
        schemaValid_set_status o s (some now) hs hv
      have hput : putOrderStatus db now orderId s
          = ({ db with
               orders := replaceFirst (fun x => decide (x.id = orderId))
                 (({ o with status := s, deliveredAt := some now } : Order).preSave
                   [] false now) db.orders },
             .ok (({ o with status := s, deliveredAt := some now } : Order).preSave
               [] false now)) := by
        simp only [putOrderStatus, hfind, if_pos hd]
        rw [saveExisting_ok now _ hv2]
      obtain ⟨before, after, h1, _, h3⟩ := replaceFirst_of_find
        (fun x => decide (x.id = orderId))
        (({ o with status := s, deliveredAt := some now } : Order).preSave [] false now)
        db.orders o hfind
      refine ⟨_, hput, rfl, by simp [Order.preSave, hd], rfl, by simp [Order.preSave],
        before, after, h1, ?_⟩
      rw [hput]
      exact h3
    · have hv2 : ({ o with status := s } : Order).schemaValid = true :=
        schemaValid_set_status o s o.deliveredAt hs hv
      have hput : putOrderStatus db now orderId s
          = ({ db with
               orders := replaceFirst (fun x => decide (x.id = orderId))
                 (({ o with status := s } : Order).preSave [] false now) db.orders },
             .ok (({ o with status := s } : Order).preSave [] false now)) := by
        simp only [putOrderStatus, hfind, if_neg hd]
        rw [saveExisting_ok now _ hv2]
      obtain ⟨before, after, h1, _, h3⟩ := replaceFirst_of_find
        (fun x => decide (x.id = orderId))
        (({ o with status := s } : Order).preSave [] false now) db.orders o hfind
      refine ⟨_, hput, rfl, by simp [Order.preSave, hd], rfl, by simp [Order.preSave],
        before, after, h1, ?_⟩
      rw [hput]
      exact h3
  · intro hnone
    simp [putOrderStatus, hnone]

/-- C28, witness: the delivered order of the store is moved back to 'pending'
at time 9; its deliveredAt stays the time 5 of the delivery. -/
theorem C28_generic_status_witness :
    ∃ saved, putOrderStatus deliveredStore 9 1 "pending"
        = ({ deliveredStore with
             orders := replaceFirst (fun x => decide (x.id = 1)) saved deliveredStore.orders },
           .ok saved) ∧
      saved.status = "pending" ∧
      saved.deliveredAt = (if "pending" = "delivered" then some 9 else some 5) ∧
      saved.updatedAt = 9 ∧ saved.id = 1 ∧
      ∃ before after,
        deliveredStore.orders
          = before ++ ({ sampleOrder with
              id := 1, status := "delivered", deliveredAt := some 5 } : Order) :: after ∧
        (putOrderStatus deliveredStore 9 1 "pending").1.orders = before ++ saved :: after :=
  (C28_generic_status deliveredStore 9 1 "pending").1
    { sampleOrder with id := 1, status := "delivered", deliveredAt := some 5 }
    (by simp [deliveredStore, List.find?])
    (schemaValid_set_status { sampleOrder with id := 1 } "delivered" (some 5) (by decide)
      sampleOrder_schemaValid)
    (by decide)

/-! ### C29: saving again -/

theorem fillTotalPrice_idem (it : OrderItem) :
    it.fillTotalPrice.fillTotalPrice = it.fillTotalPrice := by
  cases ht : truthy it.totalPrice with
  | true => simp [OrderItem.fillTotalPrice, ht]
  | false =>
    cases hp : truthy (some (it.price * it.quantity)) with
    | true => simp [OrderItem.fillTotalPrice, ht, hp]
    | false => simp [OrderItem.fillTotalPrice, ht, hp]

theorem map_fillTotalPrice_idem (items : List OrderItem) :
    (items.map OrderItem.fillTotalPrice).map OrderItem.fillTotalPrice
      = items.map OrderItem.fillTotalPrice := by
  rw [List.map_map]
  apply List.map_congr_left
  intro it _
  exact fillTotalPrice_idem it

theorem truthy_getD_ne_zero (x : Option ℚ) (h : truthy x = true) : x.getD 0 ≠ 0 := by
  cases x with
  | none => simp [truthy] at h
  | some v => simpa [truthy] using h

/-- An amount the hook kept or derived is kept or derived to the same value
when the hook runs again. -/
theorem keep_or_derive (x : Option ℚ) (d : ℚ) :
    (if (!truthy (some (if (!truthy x) = true then d else x.getD 0))) = true then d
      else (some (if (!truthy x) = true then d else x.getD 0)).getD 0)
      = (if (!truthy x) = true then d else x.getD 0) := by
  cases hx : truthy x with
  | false =>
    simp only [Bool.not_false, if_true, Option.getD_some]
    by_cases hd : d = 0
    · simp [truthy, hd]
    · simp [truthy, hd]
  | true =>
    have h2 := truthy_getD_ne_zero x hx
    simp [truthy, h2]

theorem preSave_amounts (orders : List Order) (isNew : Bool) (now : ℤ) (o : Order) :
    (o.preSave orders isNew now).items = o.items.map OrderItem.fillTotalPrice ∧
    (o.preSave orders isNew now).subtotal
      = some (if (!truthy o.subtotal) = true
          then sumTotalPrice (o.items.map OrderItem.fillTotalPrice)
          else o.subtotal.getD 0) ∧
    (o.preSave orders isNew now).total
      = some (if (!truthy o.total) = true
          then (if (!truthy o.subtotal) = true
              then sumTotalPrice (o.items.map OrderItem.fillTotalPrice)
              else o.subtotal.getD 0) + o.deliveryFee - o.discount - o.couponDiscount
          else o.total.getD 0) ∧
    (o.preSave orders false now).id = o.id := by
  simp [Order.preSave]

/-- Saving a document whose amounts are those of a saved order keeps them. -/
theorem preSave_again (orders1 orders2 : List Order) (isNew : Bool) (now1 now2 : ℤ)
    (o s : Order)
    (hitems : s.items = (o.preSave orders1 isNew now1).items)
    (hsub : s.subtotal = (o.preSave orders1 isNew now1).subtotal)
    (htot : s.total = (o.preSave orders1 isNew now1).total)
    (hfee : s.deliveryFee = (o.preSave orders1 isNew now1).deliveryFee)
    (hdisc : s.discount = (o.preSave orders1 isNew now1).discount)
    (hcd : s.couponDiscount = (o.preSave orders1 isNew now1).couponDiscount) :
    (s.preSave orders2 false now2).items = s.items ∧
    (s.preSave orders2 false now2).subtotal = s.subtotal ∧
    (s.preSave orders2 false now2).total = s.total ∧
    (s.preSave orders2 false now2).id = s.id := by
  obtain ⟨a1, a2, a3, _⟩ := preSave_amounts orders1 isNew now1 o
  obtain ⟨b1, b2, b3, b4⟩ := preSave_amounts orders2 false now2 s
  obtain ⟨_, _, _, _, c5, c6, c7⟩ := preSave_copied_fields orders1 isNew now1 o
  rw [a1] at hitems
  rw [a2] at hsub
  rw [a3] at htot
  rw [c6] at hfee
  rw [c7] at hdisc
  rw [c5] at hcd
  have hi : s.items.map OrderItem.fillTotalPrice = o.items.map OrderItem.fillTotalPrice := by
    rw [hitems]
    exact map_fillTotalPrice_idem o.items
  have hs : (s.preSave orders2 false now2).subtotal = s.subtotal := by
    rw [b2, hi, hsub, keep_or_derive]
  refine ⟨by rw [b1, hi, hitems], hs, ?_, b4⟩
  rw [b3, hi, hfee, hdisc, hcd]
  have hs2 : (if (!truthy s.subtotal) = true
      then sumTotalPrice (o.items.map OrderItem.fillTotalPrice) else s.subtotal.getD 0)
      = (if (!truthy o.subtotal) = true
          then sumTotalPrice (o.items.map OrderItem.fillTotalPrice)
          else o.subtotal.getD 0) := by
    rw [hsub, keep_or_derive]
  rw [hs2, htot, keep_or_derive]

theorem saveExisting_eq_ok (now : ℤ) (x r : Order) (h : Order.saveExisting now x = .ok r) :
    r = x.preSave [] false now := by
  unfold Order.saveExisting at h
  cases hv : x.schemaValid with
  | false => simp [hv] at h
  | true =>
    simp only [hv, Bool.not_true, Bool.false_eq_true, if_false, Except.ok.injEq] at h
    exact h.symm

/-- C29: an order whose items, subtotal, total, deliveryFee, discount and
couponDiscount are those of an order already saved once keeps every item (so
every item's totalPrice), the subtotal, the total and the id when it is saved
again; this is the case of confirm, ship, deliver, cancel and of the generic
status update, which change none of these fields. -/
theorem C29_save_again (orders1 : List Order) (isNew : Bool) (now1 now2 : ℤ) (o s : Order)
    (hitems : s.items = (o.preSave orders1 isNew now1).items)
    (hsub : s.subtotal = (o.preSave orders1 isNew now1).subtotal)
    (htot : s.total = (o.preSave orders1 isNew now1).total)
    (hfee : s.deliveryFee = (o.preSave orders1 isNew now1).deliveryFee)
    (hdisc : s.discount = (o.preSave orders1 isNew now1).discount)
    (hcd : s.couponDiscount = (o.preSave orders1 isNew now1).couponDiscount) :
    (∀ orders2, (s.preSave orders2 false now2).items = s.items ∧
      (s.preSave orders2 false now2).items.map (fun it => it.totalPrice)
        = s.items.map (fun it => it.totalPrice) ∧
      (s.preSave orders2 false now2).subtotal = s.subtotal ∧
      (s.preSave orders2 false now2).total = s.total ∧
      (s.preSave orders2 false now2).id = s.id) ∧
    (∀ r, (s.confirm now2 = .ok r ∨ s.ship now2 = .ok r ∨ s.deliver now2 = .ok r ∨
        s.cancel now2 = .ok r) →
      r.items = s.items ∧ r.subtotal = s.subtotal ∧ r.total = s.total ∧ r.id = s.id) ∧
    (∀ (db : Db) (orderId : ℕ) (status : String) (r : Order),
      db.orders.find? (fun x => decide (x.id = orderId)) = some s →
      (putOrderStatus db now2 orderId status).2 = .ok r →
      r.items = s.items ∧ r.subtotal = s.subtotal ∧ r.total = s.total ∧ r.id = s.id) := by
  have hgen : ∀ (x : Order), x.items = s.items → x.subtotal = s.subtotal → x.total = s.total →
      x.deliveryFee = s.deliveryFee → x.discount = s.discount →
      x.couponDiscount = s.couponDiscount → x.id = s.id →
      ∀ r, Order.saveExisting now2 x = .ok r →
      r.items = s.items ∧ r.subtotal = s.subtotal ∧ r.total = s.total ∧ r.id = s.id := by
    intro x h1 h2 h3 h4 h5 h6 h7 r hr
    rw [saveExisting_eq_ok now2 x r hr]
    obtain ⟨g1, g2, g3, g4⟩ := preSave_again orders1 [] isNew now1 now2 o x
      (h1.trans hitems) (h2.trans hsub) (h3.trans htot) (h4.trans hfee) (h5.trans hdisc)
      (h6.trans hcd)
    exact ⟨g1.trans h1, g2.trans h2, g3.trans h3, g4.trans h7⟩
  refine ⟨fun orders2 => ?_, ?_, ?_⟩
  · obtain ⟨g1, g2, g3, g4⟩ := preSave_again orders1 orders2 isNew now1 now2 o s
      hitems hsub htot hfee hdisc hcd
    exact ⟨g1, by rw [g1], g2, g3, g4⟩
  · intro r hr
    rcases hr with h | h | h | h
    · exact hgen { s with status := "confirmed" } rfl rfl rfl rfl rfl rfl rfl r h
    · exact hgen { s with status := "shipped" } rfl rfl rfl rfl rfl rfl rfl r h
    · exact hgen { s with status := "delivered", deliveredAt := some now2 }
        rfl rfl rfl rfl rfl rfl rfl r h
    · exact hgen { s with status := "cancelled" } rfl rfl rfl rfl rfl rfl rfl r h
  · intro db orderId status r hfind hr
    simp only [putOrderStatus, hfind] at hr
    by_cases hd : status = "delivered"
    · simp only [if_pos hd] at hr
      cases hsave : Order.saveExisting now2
          ({ s with status := status, deliveredAt := some now2 } : Order) with
      | error e => simp [hsave] at hr
      | ok saved =>
        simp only [hsave, Except.ok.injEq] at hr
        rw [← hr]
        exact hgen { s with status := status, deliveredAt := some now2 }
          rfl rfl rfl rfl rfl rfl rfl saved hsave
    · simp only [if_neg hd] at hr
      cases hsave : Order.saveExisting now2 ({ s with status := status } : Order) with
      | error e => simp [hsave] at hr
      | ok saved =>
        simp only [hsave, Except.ok.injEq] at hr
        rw [← hr]
        exact hgen { s with status := status } rfl rfl rfl rfl rfl rfl rfl saved hsave

/-- C29, witness: the order persisted for the plain request, saved again. -/
theorem C29_save_again_witness :
    (((newOrder 0 plainRequest 0).preSave [] true 0).preSave [] false 7).total
      = ((newOrder 0 plainRequest 0).preSave [] true 0).total :=
  ((C29_save_again [] true 0 7 (newOrder 0 plainRequest 0)
    ((newOrder 0 plainRequest 0).preSave [] true 0) rfl rfl rfl rfl rfl rfl).1 []).2.2.2.1

/-! ### C30: the discount as a function of the order amount -/

theorem round2_mono (x y : ℚ) (h : x ≤ y) : round2 x ≤ round2 y := by
  rw [round2_eq, round2_eq]
  have hf : ⌊x * 100 + 1 / 2⌋ ≤ ⌊y * 100 + 1 / 2⌋ := Int.floor_mono (by linarith)
  have hc : ((⌊x * 100 + 1 / 2⌋ : ℤ) : ℚ) ≤ ((⌊y * 100 + 1 / 2⌋ : ℤ) : ℚ) := by
    exact_mod_cast hf
  exact div_le_div_of_nonneg_right hc (by norm_num)

theorem round2_nonneg (x : ℚ) (h : 0 ≤ x) : 0 ≤ round2 x := by
  rw [round2_eq]
  have hf : 0 ≤ ⌊x * 100 + 1 / 2⌋ := Int.floor_nonneg.mpr (by linarith)
  have hc : (0 : ℚ) ≤ ((⌊x * 100 + 1 / 2⌋ : ℤ) : ℚ) := by exact_mod_cast hf
  exact div_nonneg hc (by norm_num)

/-- The cap of a percentage discount, `m` being the maxDiscount. -/
theorem cap_mono (m x y : ℚ) (hxy : x ≤ y) :
    (if m ≠ 0 ∧ x > m then m else x) ≤ (if m ≠ 0 ∧ y > m then m else y) := by
  by_cases h1 : m ≠ 0 ∧ x > m
  · by_cases h2 : m ≠ 0 ∧ y > m
    · rw [if_pos h1, if_pos h2]
    · rw [if_pos h1, if_neg h2]
      linarith [h1.2]
  · by_cases h2 : m ≠ 0 ∧ y > m
    · rw [if_neg h1, if_pos h2]
      by_contra hc
      exact h1 ⟨h2.1, not_le.mp hc⟩
    · rw [if_neg h1, if_neg h2]
      exact hxy

theorem cap_nonneg (m x : ℚ) (hm : 0 ≤ m) (hx : 0 ≤ x) :
    0 ≤ (if m ≠ 0 ∧ x > m then m else x) := by
  by_cases h1 : m ≠ 0 ∧ x > m
  · rw [if_pos h1]; exact hm
  · rw [if_neg h1]; exact hx

theorem rawDiscount_mono (c : Coupon) (A1 A2 : ℚ) (hd : 0 ≤ c.discountValue)
    (h12 : A1 ≤ A2) : c.rawDiscount A1 ≤ c.rawDiscount A2 := by
  have hp : A1 * c.discountValue / 100 ≤ A2 * c.discountValue / 100 := by
    apply div_le_div_of_nonneg_right _ (by norm_num)
    exact mul_le_mul_of_nonneg_right h12 hd
  unfold Coupon.rawDiscount
  apply min_le_min _ h12
  by_cases ht : c.discountType = "percentage"
  · simp only [ht, if_true]
    cases hm : c.maxDiscount with
    | none => exact hp
    | some m => exact cap_mono m _ _ hp
  · simp only [ht, if_false]
    exact le_refl _

theorem rawDiscount_nonneg (c : Coupon) (A : ℚ) (hd : 0 ≤ c.discountValue)
    (hm : ∀ m, c.maxDiscount = some m → 0 ≤ m) (hA : 0 ≤ A) : 0 ≤ c.rawDiscount A := by
  have hp : 0 ≤ A * c.discountValue / 100 := div_nonneg (mul_nonneg hA hd) (by norm_num)
  unfold Coupon.rawDiscount
  apply le_min _ hA
  by_cases ht : c.discountType = "percentage"
  · simp only [ht, if_true]
    cases hmd : c.maxDiscount with
    | none => exact hp
    | some m => exact cap_nonneg m _ (hm m hmd) hp
  · simp only [ht, if_false]
    exact hd

/-- A coupon valid on an amount is valid on every larger amount. -/
theorem isValid_mono (c : Coupon) (now : ℤ) (A1 A2 : ℚ) (h12 : A1 ≤ A2)
    (hv : (c.isValid now A1).valid = true) : (c.isValid now A2).valid = true := by
  rw [isValid_valid_iff] at hv ⊢
  refine ⟨hv.1, hv.2.1, hv.2.2.1, ?_⟩
  have hb := hv.2.2.2
  unfold Coupon.belowMinimum at hb ⊢
  cases hm : c.minimumAmount with
  | none => rfl
  | some m =>
    simp only [hm, Bool.and_eq_false_iff, decide_eq_false_iff_not, not_not, not_lt] at hb ⊢
    rcases hb with h | h
    · exact Or.inl h
    · exact Or.inr (le_trans h h12)

/-- C30: for a coupon with discountValue >= 0 and maxDiscount >= 0 or unset, at a
fixed time, calculateDiscount is non-decreasing in the order amount on the
amounts >= 0, and its discount is never negative there. -/
theorem C30_discount_monotone (c : Coupon) (now : ℤ) (A1 A2 : ℚ)
    (hd : 0 ≤ c.discountValue) (hm : ∀ m, c.maxDiscount = some m → 0 ≤ m)
    (h0 : 0 ≤ A1) (h12 : A1 ≤ A2) :
    (c.calculateDiscount now A1).discount ≤ (c.calculateDiscount now A2).discount ∧
    0 ≤ (c.calculateDiscount now A1).discount ∧
    0 ≤ (c.calculateDiscount now A2).discount := by
  have hnn : ∀ A, 0 ≤ A → 0 ≤ (c.calculateDiscount now A).discount := by
    intro A hA
    cases hv : (c.isValid now A).valid with
    | false => rw [calculateDiscount_of_invalid c now A hv]
    | true =>
      rw [calculateDiscount_of_valid c now A hv]
      exact round2_nonneg _ (rawDiscount_nonneg c A hd hm hA)
  refine ⟨?_, hnn A1 h0, hnn A2 (le_trans h0 h12)⟩
  cases hv : (c.isValid now A1).valid with
  | false =>
    rw [calculateDiscount_of_invalid c now A1 hv]
    exact hnn A2 (le_trans h0 h12)
  | true =>
    rw [calculateDiscount_of_valid c now A1 hv,
      calculateDiscount_of_valid c now A2 (isValid_mono c now A1 A2 h12 hv)]
    exact round2_mono _ _ (rawDiscount_mono c A1 A2 hd h12)

/-- C30, witness: SAVE20 on the amounts 100 and 291. -/
theorem C30_discount_monotone_witness :
    (save20.calculateDiscount 0 100).discount ≤ (save20.calculateDiscount 0 291).discount :=
  (C30_discount_monotone save20 0 100 291 (by norm_num [save20])
    (by
      intro m hm
      have : m = 200 := by simpa [save20] using hm.symm
      rw [this]
      norm_num)
    (by norm_num) (by norm_num)).1

end Perb
